import Mathlib

/-!
# Modifier-button event classifier of the OpenGD77 MD-UV380 firmware

A shallow embedding of `MDUV380_firmware/application/source/io/buttons.c`
(`buttonsInit`, `setMButtonsStateAndClearLong`, `checkMButtonState`, `buttonsRead`,
`checkMButtons`, `buttonsCheckButtonsEvent`) and theorems about it.

* `uint32_t` values are natural numbers; the only operation of the file that depends on the
  width is `~`, embedded as `bnot32`.
* The file-level globals `prevButtonState`, `mbuttons` and the external array
  `timer_mbuttons` form the record `State`; every function takes the state and returns the
  new one.  `*buttons` is passed and returned by value.
* The header `io/buttons.h`, the preprocessor platform symbols and the setting
  `nonVolatileSettings.keypadTimerLong` are parameters, gathered in `Env`.
-/

namespace OpenGD77

/-! ## Constants and parameters -/

/-- The enumeration `MBUTTON_t` (its sentinel `MBUTTON_MAX` is never passed to a function). -/
inductive MBUTTON_t where
  | MBUTTON_ORANGE
  | MBUTTON_SK1
  | MBUTTON_SK2
  deriving DecidableEq, Repr

open MBUTTON_t

/-- The integer value of an `MBUTTON_t` enumerator. -/
def MBUTTON_t.toNat : MBUTTON_t → Nat
  | MBUTTON_ORANGE => 0
  | MBUTTON_SK1 => 1
  | MBUTTON_SK2 => 2

/-- The macro `#define MBUTTON_PRESSED (1 << 0)`. -/
def MBUTTON_PRESSED : Nat := 1 <<< 0

/-- The macro `#define MBUTTON_LONG (1 << 1)`. -/
def MBUTTON_LONG : Nat := 1 <<< 1

/-- The macro `#define MBUTTON_EXTRA_LONG (1 << 2)`. -/
def MBUTTON_EXTRA_LONG : Nat := 1 <<< 2

/-- Modelled from the spec: the header `io/buttons.h` with the `BUTTON_*` masks is missing from
the sources. The spec describes the classified mask as a bitmask with a bit for each physical
key asserted, each key's short-up pulse, each key's long-down level, each key's
extra-long-down level and the PTT level, and the combo-wait flag `WAIT_NEW_STATE` as one
flag. Each constant is therefore a single bit, and the bit numbers are the parameters. -/
structure ButtonsHeader where
  ptt : Nat
  sk1 : Nat
  sk1ShortUp : Nat
  sk1LongDown : Nat
  sk1ExtraLongDown : Nat
  sk2 : Nat
  sk2ShortUp : Nat
  sk2LongDown : Nat
  sk2ExtraLongDown : Nat
  orange : Nat
  orangeShortUp : Nat
  orangeLongDown : Nat
  orangeExtraLongDown : Nat
  waitNewState : Nat

/-- Modelled from the spec: `BUTTON_NONE`, the empty mask (`io/buttons.h` is missing). -/
def BUTTON_NONE : Nat := 0

namespace ButtonsHeader

variable (h : ButtonsHeader)

/-- The masks of the header, each the single bit of its number. -/
def BUTTON_PTT : Nat := 1 <<< h.ptt
def BUTTON_SK1 : Nat := 1 <<< h.sk1
def BUTTON_SK1_SHORT_UP : Nat := 1 <<< h.sk1ShortUp
def BUTTON_SK1_LONG_DOWN : Nat := 1 <<< h.sk1LongDown
def BUTTON_SK1_EXTRA_LONG_DOWN : Nat := 1 <<< h.sk1ExtraLongDown
def BUTTON_SK2 : Nat := 1 <<< h.sk2
def BUTTON_SK2_SHORT_UP : Nat := 1 <<< h.sk2ShortUp
def BUTTON_SK2_LONG_DOWN : Nat := 1 <<< h.sk2LongDown
def BUTTON_SK2_EXTRA_LONG_DOWN : Nat := 1 <<< h.sk2ExtraLongDown
def BUTTON_ORANGE : Nat := 1 <<< h.orange
def BUTTON_ORANGE_SHORT_UP : Nat := 1 <<< h.orangeShortUp
def BUTTON_ORANGE_LONG_DOWN : Nat := 1 <<< h.orangeLongDown
def BUTTON_ORANGE_EXTRA_LONG_DOWN : Nat := 1 <<< h.orangeExtraLongDown
def BUTTON_WAIT_NEW_STATE : Nat := 1 <<< h.waitNewState

/-- Bit number of the "asserted" bit of a modifier button. -/
def idBit : MBUTTON_t → Nat
  | MBUTTON_ORANGE => h.orange
  | MBUTTON_SK1 => h.sk1
  | MBUTTON_SK2 => h.sk2

/-- Bit number of the `SHORT_UP` bit of a modifier button. -/
def shortUpBit : MBUTTON_t → Nat
  | MBUTTON_ORANGE => h.orangeShortUp
  | MBUTTON_SK1 => h.sk1ShortUp
  | MBUTTON_SK2 => h.sk2ShortUp

/-- Bit number of the `LONG_DOWN` bit of a modifier button. -/
def longDownBit : MBUTTON_t → Nat
  | MBUTTON_ORANGE => h.orangeLongDown
  | MBUTTON_SK1 => h.sk1LongDown
  | MBUTTON_SK2 => h.sk2LongDown

/-- Bit number of the `EXTRA_LONG_DOWN` bit of a modifier button. -/
def extraLongDownBit : MBUTTON_t → Nat
  | MBUTTON_ORANGE => h.orangeExtraLongDown
  | MBUTTON_SK1 => h.sk1ExtraLongDown
  | MBUTTON_SK2 => h.sk2ExtraLongDown

/-- The mask `BUTTON_SK1` / `BUTTON_SK2` / `BUTTON_ORANGE` of a modifier button. -/
def buttonID (b : MBUTTON_t) : Nat := 1 <<< h.idBit b

/-- The mask `BUTTON_x_SHORT_UP` of a modifier button. -/
def buttonShortUp (b : MBUTTON_t) : Nat := 1 <<< h.shortUpBit b

/-- The mask `BUTTON_x_LONG_DOWN` of a modifier button. -/
def buttonLong (b : MBUTTON_t) : Nat := 1 <<< h.longDownBit b

/-- The mask `BUTTON_x_EXTRA_LONG_DOWN` of a modifier button. -/
def buttonExtraLong (b : MBUTTON_t) : Nat := 1 <<< h.extraLongDownBit b

/-- All the bit numbers of the header, in the order of the fields. -/
def allBits : List Nat :=
  [h.ptt, h.sk1, h.sk1ShortUp, h.sk1LongDown, h.sk1ExtraLongDown,
   h.sk2, h.sk2ShortUp, h.sk2LongDown, h.sk2ExtraLongDown,
   h.orange, h.orangeShortUp, h.orangeLongDown, h.orangeExtraLongDown, h.waitNewState]

/-- What the code needs of the header: the fourteen constants are distinct bits of a
`uint32_t`, and `BUTTON_WAIT_NEW_STATE`, which is stored in `mbuttons`, lies above the nine
bits `mbuttons` uses for the three modifier buttons. -/
def WellFormed : Prop :=
  h.allBits.Nodup ∧ (∀ i ∈ h.allBits, i < 32) ∧ 9 ≤ h.waitNewState

instance : Decidable h.WellFormed := by
  unfold WellFormed; infer_instance

end ButtonsHeader

/-- The preprocessor symbols the file tests with `defined(...)`. -/
structure Platform where
  PLATFORM_RD5R : Bool
  PLATFORM_MDUV380 : Bool
  PLATFORM_MD380 : Bool
  PLATFORM_DM1701 : Bool
  PLATFORM_MD2017 : Bool

/-- The condition `! (defined(PLATFORM_RD5R) || defined(PLATFORM_MDUV380) ||
defined(PLATFORM_MD380))` under which `buttonsCheckButtonsEvent` handles the orange button. -/
def Platform.hasOrange (p : Platform) : Bool :=
  !(p.PLATFORM_RD5R || p.PLATFORM_MDUV380 || p.PLATFORM_MD380)

/-- The modifier buttons `buttonsCheckButtonsEvent` handles on a platform. -/
def Platform.handles (p : Platform) : MBUTTON_t → Bool
  | MBUTTON_ORANGE => p.hasOrange
  | MBUTTON_SK1 => true
  | MBUTTON_SK2 => true

/-- Everything the file reads from outside: the header, the platform and the setting
`nonVolatileSettings.keypadTimerLong` (an unsigned setting; the products the code forms with it
are stored into the 32-bit countdown). -/
structure Env where
  hdr : ButtonsHeader
  plat : Platform
  keypadTimerLong : Nat

/-- The levels `HAL_GPIO_ReadPin` returns in one call of `buttonsRead`: for the three
side-button lines `true` is `GPIO_PIN_SET`, for the two PTT lines (active low) `true` is
`GPIO_PIN_RESET`. -/
structure Pins where
  LCD_D5 : Bool
  LCD_D6 : Bool
  LCD_D7 : Bool
  PTT : Bool
  PTT_EXTERNAL : Bool

/-- The two values written to `*event`: `EVENT_BUTTON_NONE` and `EVENT_BUTTON_CHANGE`. -/
inductive ButtonEvent where
  | EVENT_BUTTON_NONE
  | EVENT_BUTTON_CHANGE
  deriving DecidableEq, Repr

open ButtonEvent

/-! ## State -/

/-- The globals of the file and the countdown array shared with the tick interrupt. -/
structure State where
  prevButtonState : Nat
  mbuttons : Nat
  timer_mbuttons : MBUTTON_t → Nat

/-- The `~` of C on a 32-bit operand. -/
def bnot32 (x : Nat) : Nat := 4294967295 ^^^ x

/-- The store `timer_mbuttons[mbutton] = v`. -/
def setTimer (t : MBUTTON_t → Nat) (mbutton : MBUTTON_t) (v : Nat) : MBUTTON_t → Nat :=
  fun m => if m = mbutton then v else t m

/-- The countdown armed on a press: `nonVolatileSettings.keypadTimerLong * 100`, as stored in
the 32-bit countdown. -/
def armValue (env : Env) : Nat := (env.keypadTimerLong * 100) % 4294967296

/-- The countdown armed on the long press:
`((nonVolatileSettings.keypadTimerLong * 3) >> 1) * 100`, as stored in the 32-bit countdown. -/
def rearmValue (env : Env) : Nat := (((env.keypadTimerLong * 3) >>> 1) * 100) % 4294967296

/-! ## The functions of `buttons.c` -/

/-- The function `buttonsInit`; it does not write the countdowns. -/
def buttonsInit (s : State) : State :=
  { s with mbuttons := BUTTON_NONE, prevButtonState := BUTTON_NONE }

def isMButtonPressed (s : State) (mbutton : MBUTTON_t) : Bool :=
  (((s.mbuttons >>> (mbutton.toNat * 3)) &&& MBUTTON_PRESSED) &&& MBUTTON_PRESSED) != 0

def isMButtonLong (s : State) (mbutton : MBUTTON_t) : Bool :=
  (((s.mbuttons >>> (mbutton.toNat * 3)) &&& MBUTTON_LONG) &&& MBUTTON_LONG) != 0

def isMButtonExtraLong (s : State) (mbutton : MBUTTON_t) : Bool :=
  (((s.mbuttons >>> (mbutton.toNat * 3)) &&& MBUTTON_EXTRA_LONG) &&& MBUTTON_EXTRA_LONG) != 0

def setMButtonsStateAndClearLong (env : Env) (s : State) (buttons : Nat)
    (mbutton : MBUTTON_t) (buttonID : Nat) : State :=
  let m1 :=
    if (buttons &&& buttonID) != 0 then
      s.mbuttons ||| (MBUTTON_PRESSED <<< (mbutton.toNat * 3))
    else
      s.mbuttons &&& bnot32 (MBUTTON_PRESSED <<< (mbutton.toNat * 3))
  let t := setTimer s.timer_mbuttons mbutton
    (if (buttons &&& buttonID) != 0 then armValue env else 0)
  let m2 := m1 &&& bnot32 (MBUTTON_LONG <<< (mbutton.toNat * 3))
  let m3 := m2 &&& bnot32 (MBUTTON_EXTRA_LONG <<< (mbutton.toNat * 3))
  { s with mbuttons := m3, timer_mbuttons := t }

def checkMButtonState (env : Env) (s : State) (buttons : Nat)
    (mbutton : MBUTTON_t) (buttonID : Nat) : State :=
  if isMButtonPressed s mbutton == false then
    setMButtonsStateAndClearLong env s buttons mbutton buttonID
  else
    s

/-- The two statements `result |= BUTTON_x; checkMButtonState(&result, MBUTTON_x, BUTTON_x);`
that `buttonsRead` runs for a side-button line that reads `GPIO_PIN_SET`. -/
def readButton (env : Env) (r : State × Nat) (mbutton : MBUTTON_t) (buttonID : Nat) :
    State × Nat :=
  let result := r.2 ||| buttonID
  (checkMButtonState env r.1 result mbutton buttonID, result)

/-- The function `buttonsRead`: the state after the call and the returned mask. The pin configuration
calls and the settling loop have no effect on the state of this file. -/
def buttonsRead (env : Env) (pins : Pins) (s : State) : State × Nat :=
  let p := env.plat
  let h := env.hdr
  let r0 : State × Nat := (s, BUTTON_NONE)
  let line1 : Bool :=
    if p.PLATFORM_MDUV380 then pins.LCD_D7
    else if p.PLATFORM_DM1701 || p.PLATFORM_MD2017 then pins.LCD_D5
    else true
  let r1 :=
    if line1 then
      if p.PLATFORM_MD380 then readButton env r0 MBUTTON_SK2 h.BUTTON_SK2
      else if p.PLATFORM_DM1701 || p.PLATFORM_MD2017 then
        readButton env r0 MBUTTON_ORANGE h.BUTTON_ORANGE
      else readButton env r0 MBUTTON_SK1 h.BUTTON_SK1
    else r0
  let r2 :=
    if pins.LCD_D6 then
      if p.PLATFORM_MD380 then readButton env r1 MBUTTON_SK1 h.BUTTON_SK1
      else readButton env r1 MBUTTON_SK2 h.BUTTON_SK2
    else r1
  let r3 :=
    if (p.PLATFORM_DM1701 || p.PLATFORM_MD2017) && pins.LCD_D7 then
      readButton env r2 MBUTTON_SK1 h.BUTTON_SK1
    else r2
  if pins.PTT || pins.PTT_EXTERNAL then (r3.1, r3.2 ||| h.BUTTON_PTT) else r3

def checkMButtons (env : Env) (r : State × Nat) (mbutton : MBUTTON_t)
    (buttonID buttonShortUp buttonLong buttonExtraLong : Nat) : State × Nat :=
  let s := r.1
  let buttons := r.2
  let tmp_timer_mbutton := s.timer_mbuttons mbutton
  if (buttons &&& buttonID) != 0 && isMButtonPressed s mbutton && isMButtonLong s mbutton
      && (isMButtonExtraLong s mbutton == false) then
    let buttons1 := buttons ||| buttonLong
    if tmp_timer_mbutton == 0 then
      ({ s with mbuttons := s.mbuttons ||| (MBUTTON_EXTRA_LONG <<< (mbutton.toNat * 3)) },
        (buttons1 &&& bnot32 buttonLong) ||| buttonExtraLong)
    else
      (s, buttons1)
  else if (buttons &&& buttonID) != 0 && isMButtonPressed s mbutton && isMButtonLong s mbutton
      && isMButtonExtraLong s mbutton then
    (s, ((buttons ||| buttonLong) &&& bnot32 buttonLong) ||| buttonExtraLong)
  else if (buttons &&& buttonID) != 0 && isMButtonPressed s mbutton
      && (isMButtonLong s mbutton == false) then
    if tmp_timer_mbutton == 0 then
      ({ s with
          mbuttons := s.mbuttons ||| (MBUTTON_LONG <<< (mbutton.toNat * 3)),
          timer_mbuttons := setTimer s.timer_mbuttons mbutton (rearmValue env) },
        buttons ||| buttonLong)
    else
      (s, buttons)
  else if (buttons &&& buttonID) == 0 && isMButtonPressed s mbutton
      && (isMButtonLong s mbutton == false) && (tmp_timer_mbutton != 0) then
    let m1 := s.mbuttons &&& bnot32 (MBUTTON_PRESSED <<< (mbutton.toNat * 3))
    let m2 := m1 &&& bnot32 (MBUTTON_LONG <<< (mbutton.toNat * 3))
    let m3 := m2 &&& bnot32 (MBUTTON_EXTRA_LONG <<< (mbutton.toNat * 3))
    ({ s with mbuttons := m3, timer_mbuttons := setTimer s.timer_mbuttons mbutton 0 },
      ((buttons ||| buttonShortUp) &&& bnot32 buttonLong) &&& bnot32 buttonExtraLong)
  else if (buttons &&& buttonID) == 0 && isMButtonPressed s mbutton
      && isMButtonLong s mbutton then
    let m1 := s.mbuttons &&& bnot32 (MBUTTON_PRESSED <<< (mbutton.toNat * 3))
    let m2 := m1 &&& bnot32 (MBUTTON_LONG <<< (mbutton.toNat * 3))
    let m3 := m2 &&& bnot32 (MBUTTON_EXTRA_LONG <<< (mbutton.toNat * 3))
    ({ s with mbuttons := m3 }, (buttons &&& bnot32 buttonLong) &&& bnot32 buttonExtraLong)
  else
    (s, buttons)

/-- What `buttonsCheckButtonsEvent` leaves: the state, `*buttons` and `*event`. -/
structure PollResult where
  state : State
  buttons : Nat
  event : ButtonEvent

/-- The three calls of `setMButtonsStateAndClearLong` under the comment
`// Clear stored states` (the orange one only where the platform has it). -/
def clearStoredStates (env : Env) (s : State) (buttons : Nat) : State :=
  let h := env.hdr
  let s1 := setMButtonsStateAndClearLong env s buttons MBUTTON_SK1 h.BUTTON_SK1
  let s2 := setMButtonsStateAndClearLong env s1 buttons MBUTTON_SK2 h.BUTTON_SK2
  if env.plat.hasOrange then
    setMButtonsStateAndClearLong env s2 buttons MBUTTON_ORANGE h.BUTTON_ORANGE
  else s2

/-- The calls of `checkMButtons` under the comment `// Check state for every single button`
(the orange one only where the platform has it). -/
def checkAllButtons (env : Env) (r : State × Nat) : State × Nat :=
  let h := env.hdr
  let r1 :=
    if env.plat.hasOrange then
      checkMButtons env r MBUTTON_ORANGE h.BUTTON_ORANGE h.BUTTON_ORANGE_SHORT_UP
        h.BUTTON_ORANGE_LONG_DOWN h.BUTTON_ORANGE_EXTRA_LONG_DOWN
    else r
  let r2 := checkMButtons env r1 MBUTTON_SK1 h.BUTTON_SK1 h.BUTTON_SK1_SHORT_UP
    h.BUTTON_SK1_LONG_DOWN h.BUTTON_SK1_EXTRA_LONG_DOWN
  checkMButtons env r2 MBUTTON_SK2 h.BUTTON_SK2 h.BUTTON_SK2_SHORT_UP
    h.BUTTON_SK2_LONG_DOWN h.BUTTON_SK2_EXTRA_LONG_DOWN

/-- The part of `buttonsCheckButtonsEvent` from the comment
`// Check state for every single button` to the end. -/
def checkEveryButton (env : Env) (r : State × Nat) : PollResult :=
  let r3 := checkAllButtons env r
  if r3.1.prevButtonState != r3.2 then
    { state := { r3.1 with prevButtonState := r3.2 }, buttons := r3.2,
      event := EVENT_BUTTON_CHANGE }
  else
    { state := r3.1, buttons := r3.2, event := EVENT_BUTTON_NONE }

/-- The call `buttonsCheckButtonsEvent(&buttons, &event, keyIsDown)`; `pins` are the levels the
`buttonsRead` call of this poll sees. On the path that returns without writing `*buttons`
again, `*buttons` is the mask `buttonsRead` returned. -/
def buttonsCheckButtonsEvent (env : Env) (pins : Pins) (keyIsDown : Bool) (s : State) :
    PollResult :=
  let h := env.hdr
  let r := buttonsRead env pins s
  let s0 := r.1
  let buttons := r.2
  if buttons != BUTTON_NONE || (s0.mbuttons &&& h.BUTTON_WAIT_NEW_STATE) != 0 then
    if keyIsDown then
      let s1 := { s0 with mbuttons := s0.mbuttons ||| h.BUTTON_WAIT_NEW_STATE }
      let s2 := clearStoredStates env s1 buttons
      { state := { s2 with prevButtonState := buttons }, buttons := buttons,
        event := EVENT_BUTTON_NONE }
    else if (s0.mbuttons &&& h.BUTTON_WAIT_NEW_STATE) != 0 then
      if buttons != s0.prevButtonState then
        let s1 := { s0 with mbuttons := s0.mbuttons &&& bnot32 h.BUTTON_WAIT_NEW_STATE }
        let s2 := clearStoredStates env s1 buttons
        { state := { s2 with prevButtonState := buttons }, buttons := buttons,
          event := EVENT_BUTTON_CHANGE }
      else
        { state := s0, buttons := buttons, event := EVENT_BUTTON_NONE }
    else
      checkEveryButton env (s0, buttons)
  else
    checkEveryButton env (s0, buttons)

/-! ## Vocabulary of the specification -/

/-- Phase `Released`: the three bits of the button's group in `mbuttons` are clear. -/
def isReleased (s : State) (b : MBUTTON_t) : Prop :=
  isMButtonPressed s b = false ∧ isMButtonLong s b = false ∧ isMButtonExtraLong s b = false

/-- Phase `PressedShort`: only `MBUTTON_PRESSED` is set. -/
def isPressedShort (s : State) (b : MBUTTON_t) : Prop :=
  isMButtonPressed s b = true ∧ isMButtonLong s b = false ∧ isMButtonExtraLong s b = false

/-- Phase `Long`: `MBUTTON_PRESSED` and `MBUTTON_LONG` are set, `MBUTTON_EXTRA_LONG` is not. -/
def isLong (s : State) (b : MBUTTON_t) : Prop :=
  isMButtonPressed s b = true ∧ isMButtonLong s b = true ∧ isMButtonExtraLong s b = false

/-- Phase `ExtraLong`: the three bits are set. -/
def isExtraLong (s : State) (b : MBUTTON_t) : Prop :=
  isMButtonPressed s b = true ∧ isMButtonLong s b = true ∧ isMButtonExtraLong s b = true

/-- The combo-wait flag: `mbuttons & BUTTON_WAIT_NEW_STATE`. -/
def waitNewState (env : Env) (s : State) : Bool :=
  (s.mbuttons &&& env.hdr.BUTTON_WAIT_NEW_STATE) != 0

/-- A mask has some bit of `bits` set: the C test `mask & bits`. -/
def hasBits (mask bits : Nat) : Bool := (mask &&& bits) != 0

/-- The raw sample of a poll: the mask `buttonsRead` returns. -/
def rawSample (env : Env) (pins : Pins) (s : State) : Nat := (buttonsRead env pins s).2

instance (s : State) (b : MBUTTON_t) : Decidable (isReleased s b) := by
  unfold isReleased; infer_instance

instance (s : State) (b : MBUTTON_t) : Decidable (isPressedShort s b) := by
  unfold isPressedShort; infer_instance

instance (s : State) (b : MBUTTON_t) : Decidable (isLong s b) := by
  unfold isLong; infer_instance

instance (s : State) (b : MBUTTON_t) : Decidable (isExtraLong s b) := by
  unfold isExtraLong; infer_instance

/-! ## A concrete instance, used for the examples -/

/-- The bit numbers of the OpenGD77 header (`BUTTON_PTT = 0x01`, `BUTTON_SK1 = 0x02`, ...,
`BUTTON_WAIT_NEW_STATE = 0x2000`). -/
def gd77Header : ButtonsHeader :=
  { ptt := 0, sk1 := 1, sk1ShortUp := 2, sk1LongDown := 3, sk1ExtraLongDown := 4,
    sk2 := 5, sk2ShortUp := 6, sk2LongDown := 7, sk2ExtraLongDown := 8,
    orange := 9, orangeShortUp := 10, orangeLongDown := 11, orangeExtraLongDown := 12,
    waitNewState := 13 }

/-- The build with only `PLATFORM_MDUV380` defined. -/
def mduv380 : Platform :=
  { PLATFORM_RD5R := false, PLATFORM_MDUV380 := true, PLATFORM_MD380 := false,
    PLATFORM_DM1701 := false, PLATFORM_MD2017 := false }

/-- The build with only `PLATFORM_DM1701` defined (it has the orange button). -/
def dm1701 : Platform :=
  { PLATFORM_RD5R := false, PLATFORM_MDUV380 := false, PLATFORM_MD380 := false,
    PLATFORM_DM1701 := true, PLATFORM_MD2017 := false }

/-- The MD-UV380 build with `keypadTimerLong = 1`: a long-press threshold of 100 ticks. -/
def envUV380 : Env := { hdr := gd77Header, plat := mduv380, keypadTimerLong := 1 }

/-- No line asserted. -/
def pinsNone : Pins :=
  { LCD_D5 := false, LCD_D6 := false, LCD_D7 := false, PTT := false, PTT_EXTERNAL := false }

/-- Only the line of side key 1 of the MD-UV380 asserted. -/
def pinsSK1 : Pins := { pinsNone with LCD_D7 := true }

/-- Only the line of side key 2 of the MD-UV380 asserted. -/
def pinsSK2 : Pins := { pinsNone with LCD_D6 := true }

/-- Both side keys of the MD-UV380 asserted. -/
def pinsSK1SK2 : Pins := { pinsNone with LCD_D6 := true, LCD_D7 := true }

/-- A state given by its three components, the countdowns in the order orange, SK1, SK2. -/
def mkState (prev mb tOrange tSK1 tSK2 : Nat) : State :=
  { prevButtonState := prev, mbuttons := mb,
    timer_mbuttons := fun m =>
      match m with
      | MBUTTON_ORANGE => tOrange
      | MBUTTON_SK1 => tSK1
      | MBUTTON_SK2 => tSK2 }


/-- The state after the tick interrupt has changed the countdowns to `t` (between two polls
the interrupt is the only writer of the state). -/
def withTimers (s : State) (t : MBUTTON_t → Nat) : State :=
  { s with timer_mbuttons := t }

/-- Modelled from the spec: the tick service, which is not in the sources ("a system tick
decrements per-button countdown values ... counting down from a configured threshold to
zero"); `ticks n s` is the state after `n` ticks. -/
def ticks (n : Nat) (s : State) : State :=
  withTimers s (fun m => s.timer_mbuttons m - n)

/-- The four bits of a button in a mask returned while the button is held in phase Long:
asserted and `LONG_DOWN` set, `SHORT_UP` and `EXTRA_LONG_DOWN` clear. -/
def LongLevel (h : ButtonsHeader) (mask : Nat) (b : MBUTTON_t) : Prop :=
  hasBits mask (h.buttonID b) = true ∧ hasBits mask (h.buttonLong b) = true ∧
  hasBits mask (h.buttonShortUp b) = false ∧ hasBits mask (h.buttonExtraLong b) = false

instance (h : ButtonsHeader) (mask : Nat) (b : MBUTTON_t) : Decidable (LongLevel h mask b) := by
  unfold LongLevel; infer_instance

/-! ## The view of one button (a device of the proofs) -/

namespace ButtonsHeader

/-- Position of a button's "asserted" bit in `allBits`. -/
def idIdx : MBUTTON_t → Fin 14
  | MBUTTON_ORANGE => 9
  | MBUTTON_SK1 => 1
  | MBUTTON_SK2 => 5

/-- Position of a button's `SHORT_UP` bit in `allBits`. -/
def shortUpIdx : MBUTTON_t → Fin 14
  | MBUTTON_ORANGE => 10
  | MBUTTON_SK1 => 2
  | MBUTTON_SK2 => 6

/-- Position of a button's `LONG_DOWN` bit in `allBits`. -/
def longDownIdx : MBUTTON_t → Fin 14
  | MBUTTON_ORANGE => 11
  | MBUTTON_SK1 => 3
  | MBUTTON_SK2 => 7

/-- Position of a button's `EXTRA_LONG_DOWN` bit in `allBits`. -/
def extraLongDownIdx : MBUTTON_t → Fin 14
  | MBUTTON_ORANGE => 12
  | MBUTTON_SK1 => 4
  | MBUTTON_SK2 => 8

/-- The `i`-th of the fourteen bit numbers. -/
def bitAt (h : ButtonsHeader) (i : Fin 14) : Nat := h.allBits.get ⟨i.1, i.2⟩

end ButtonsHeader

/-- What the code holds about one modifier button: its four bits of the mask (`a` asserted,
`su` short up, `lg` long down, `xl` extra long down), its three bits of `mbuttons` and its
countdown. -/
structure BView where
  a : Bool
  su : Bool
  lg : Bool
  xl : Bool
  P : Bool
  L : Bool
  X : Bool
  t : Nat
  deriving DecidableEq

/-- The view of button `b` in a state and a mask. -/
def view (h : ButtonsHeader) (b : MBUTTON_t) (r : State × Nat) : BView :=
  { a := r.2.testBit (h.idBit b)
    su := r.2.testBit (h.shortUpBit b)
    lg := r.2.testBit (h.longDownBit b)
    xl := r.2.testBit (h.extraLongDownBit b)
    P := r.1.mbuttons.testBit (b.toNat * 3)
    L := r.1.mbuttons.testBit (b.toNat * 3 + 1)
    X := r.1.mbuttons.testBit (b.toNat * 3 + 2)
    t := r.1.timer_mbuttons b }

/-- The branches of `checkMButtons`, on the view of the button it is called for. -/
def localCheck (env : Env) (v : BView) : BView :=
  if v.a && v.P && v.L && !v.X then
    if v.t = 0 then { v with X := true, lg := false, xl := true } else { v with lg := true }
  else if v.a && v.P && v.L && v.X then { v with lg := false, xl := true }
  else if v.a && v.P && !v.L then
    if v.t = 0 then { v with L := true, lg := true, t := rearmValue env } else v
  else if !v.a && v.P && !v.L && v.t != 0 then
    { v with P := false, L := false, X := false, t := 0, su := true, lg := false, xl := false }
  else if !v.a && v.P && v.L then
    { v with P := false, L := false, X := false, lg := false, xl := false }
  else v

/-- The effect of `setMButtonsStateAndClearLong` on the view of the button it is called for. -/
def localSet (env : Env) (v : BView) : BView :=
  { v with P := v.a, L := false, X := false, t := if v.a then armValue env else 0 }

/-- The effect of `checkMButtonState` on the view of the button it is called for. -/
def localArm (env : Env) (v : BView) : BView :=
  if v.P then v else localSet env v

/-- The views on which `checkMButtons` takes no branch that writes. -/
def idle (v : BView) : Bool :=
  !v.P || (v.a && !v.L && v.t != 0) || (!v.a && !v.L && v.t == 0)

/-- The view of a button before `buttonsRead` has looked at any line. -/
def view0 (h : ButtonsHeader) (b : MBUTTON_t) (s : State) : BView :=
  view h b (s, BUTTON_NONE)

/-- The invariant of `buttonsRead`: a button whose bit is in the mask read so far has gone
through `checkMButtonState` with its bit set, every other button is untouched, and the
previous mask and the combo-wait flag are untouched. -/
def ReadInv (env : Env) (s : State) (r : State × Nat) : Prop :=
  (∀ b, view env.hdr b r =
    if r.2.testBit (env.hdr.idBit b) then localArm env { view0 env.hdr b s with a := true }
    else view0 env.hdr b s) ∧
  r.1.prevButtonState = s.prevButtonState ∧
  r.1.mbuttons.testBit env.hdr.waitNewState = s.mbuttons.testBit env.hdr.waitNewState


/-! ## A run with two side keys held (MD-UV380, threshold 100 ticks) -/

/-- Side key 1 was pressed 60 ticks ago: it is PressedShort with 40 ticks left. -/
def twoKeyRunStart : State :=
  ticks 60 (buttonsCheckButtonsEvent envUV380 pinsSK1 false
    (buttonsInit (mkState 0 0 0 0 0))).state

/-- First poll of the run, both side keys asserted: side key 2 is armed. -/
def twoKeyRunPoll1 : PollResult :=
  buttonsCheckButtonsEvent envUV380 pinsSK1SK2 false twoKeyRunStart

/-- Second poll, 40 ticks later: the countdown of side key 1 is 0. -/
def twoKeyRunPoll2 : PollResult :=
  buttonsCheckButtonsEvent envUV380 pinsSK1SK2 false (ticks 40 twoKeyRunPoll1.state)

/-- Third poll, 60 ticks later: side key 1 is Long with 40 ticks left, the countdown of side
key 2 is 0. -/
def twoKeyRunPoll3 : PollResult :=
  buttonsCheckButtonsEvent envUV380 pinsSK1SK2 false (ticks 60 twoKeyRunPoll2.state)


/-! ## The branches of `checkMButtons` as bit operations (a device of the proofs) -/

/-- The statement `x |= (1 << j)`. -/
def orBit (j x : Nat) : Nat := x ||| 1 <<< j

/-- The statement `x &= ~(1 << j)` on a 32-bit word. -/
def andNotBit (j x : Nat) : Nat := x &&& bnot32 (1 <<< j)

/-- The leaves of the `if` chain of `checkMButtons`. -/
inductive Branch where
  | extraLongDown
  | longLevel
  | extraLongLevel
  | longDown
  | shortUp
  | longRelease
  | noBranch
  deriving DecidableEq

/-- The leaf `checkMButtons` reaches, from the view of the button it is called for. -/
def branchOf (v : BView) : Branch :=
  if v.a && v.P && v.L && !v.X then
    if v.t = 0 then Branch.extraLongDown else Branch.longLevel
  else if v.a && v.P && v.L && v.X then Branch.extraLongLevel
  else if v.a && v.P && !v.L then
    if v.t = 0 then Branch.longDown else Branch.noBranch
  else if !v.a && v.P && !v.L && v.t != 0 then Branch.shortUp
  else if !v.a && v.P && v.L then Branch.longRelease
  else Branch.noBranch

/-- What a leaf of `checkMButtons` does to `*buttons`. -/
def branchMask (h : ButtonsHeader) (b : MBUTTON_t) : Branch → Nat → Nat
  | Branch.extraLongDown, x =>
    orBit (h.extraLongDownBit b) (andNotBit (h.longDownBit b) (orBit (h.longDownBit b) x))
  | Branch.longLevel, x => orBit (h.longDownBit b) x
  | Branch.extraLongLevel, x =>
    orBit (h.extraLongDownBit b) (andNotBit (h.longDownBit b) (orBit (h.longDownBit b) x))
  | Branch.longDown, x => orBit (h.longDownBit b) x
  | Branch.shortUp, x =>
    andNotBit (h.extraLongDownBit b) (andNotBit (h.longDownBit b) (orBit (h.shortUpBit b) x))
  | Branch.longRelease, x => andNotBit (h.extraLongDownBit b) (andNotBit (h.longDownBit b) x)
  | Branch.noBranch, x => x

/-- What a leaf of `checkMButtons` does to `mbuttons`. -/
def branchBits (b : MBUTTON_t) : Branch → Nat → Nat
  | Branch.extraLongDown, m => orBit (b.toNat * 3 + 2) m
  | Branch.longDown, m => orBit (b.toNat * 3 + 1) m
  | Branch.shortUp, m =>
    andNotBit (b.toNat * 3 + 2) (andNotBit (b.toNat * 3 + 1) (andNotBit (b.toNat * 3) m))
  | Branch.longRelease, m =>
    andNotBit (b.toNat * 3 + 2) (andNotBit (b.toNat * 3 + 1) (andNotBit (b.toNat * 3) m))
  | _, m => m

/-- What a leaf of `checkMButtons` does to the countdowns. -/
def branchTimer (env : Env) (b : MBUTTON_t) : Branch → (MBUTTON_t → Nat) → MBUTTON_t → Nat
  | Branch.longDown, t => setTimer t b (rearmValue env)
  | Branch.shortUp, t => setTimer t b 0
  | _, t => t

/-- What a leaf of `checkMButtons` does to the state. -/
def branchState (env : Env) (b : MBUTTON_t) (c : Branch) (s : State) : State :=
  { prevButtonState := s.prevButtonState
    mbuttons := branchBits b c s.mbuttons
    timer_mbuttons := branchTimer env b c s.timer_mbuttons }

/-- The bits of the mask a leaf keeps as they are (the others it clears, unless it sets them). -/
def maskKeep (h : ButtonsHeader) (b : MBUTTON_t) : Branch → Nat → Bool
  | Branch.extraLongDown, i => decide (i < 32) && !decide (i = h.longDownBit b)
  | Branch.extraLongLevel, i => decide (i < 32) && !decide (i = h.longDownBit b)
  | Branch.shortUp, i =>
    decide (i < 32) && !decide (i = h.longDownBit b) && !decide (i = h.extraLongDownBit b)
  | Branch.longRelease, i =>
    decide (i < 32) && !decide (i = h.longDownBit b) && !decide (i = h.extraLongDownBit b)
  | _, _ => true

/-- The bit of the mask a leaf sets. -/
def maskSet (h : ButtonsHeader) (b : MBUTTON_t) : Branch → Nat → Bool
  | Branch.extraLongDown, i => decide (i = h.extraLongDownBit b)
  | Branch.longLevel, i => decide (i = h.longDownBit b)
  | Branch.extraLongLevel, i => decide (i = h.extraLongDownBit b)
  | Branch.longDown, i => decide (i = h.longDownBit b)
  | Branch.shortUp, i => decide (i = h.shortUpBit b)
  | _, _ => false

/-- The bits of `mbuttons` a leaf keeps as they are. -/
def bitsKeep (b : MBUTTON_t) : Branch → Nat → Bool
  | Branch.shortUp, i =>
    decide (i < 32) && !decide (i = b.toNat * 3) && !decide (i = b.toNat * 3 + 1) &&
      !decide (i = b.toNat * 3 + 2)
  | Branch.longRelease, i =>
    decide (i < 32) && !decide (i = b.toNat * 3) && !decide (i = b.toNat * 3 + 1) &&
      !decide (i = b.toNat * 3 + 2)
  | _, _ => true

/-- The bit of `mbuttons` a leaf sets. -/
def bitsSet (b : MBUTTON_t) : Branch → Nat → Bool
  | Branch.extraLongDown, i => decide (i = b.toNat * 3 + 2)
  | Branch.longDown, i => decide (i = b.toNat * 3 + 1)
  | _, _ => false

/-! ## Physical keys, steps and runs -/

/-- The physical-key bits of a mask: `BUTTON_SK1 | BUTTON_SK2 | BUTTON_ORANGE | BUTTON_PTT`. -/
def physicalKeys (h : ButtonsHeader) : Nat :=
  h.BUTTON_SK1 ||| h.BUTTON_SK2 ||| h.BUTTON_ORANGE ||| h.BUTTON_PTT

/-- What happens to the state between two observations: the tick interrupt takes `d m` off the
countdown of every button `m` (a countdown stops at 0), or `buttonsCheckButtonsEvent` is
called with the lines at the levels `pins`. -/
inductive Step where
  | tick (d : MBUTTON_t → Nat)
  | poll (pins : Pins) (keyIsDown : Bool)

/-- Modelled from the spec: the tick service, which is not in the sources ("a system tick
decrements per-button countdown values ... counting down from a configured threshold to
zero"); `tickBy d s` is the state after it has taken `d m` off the countdown of every
button `m`. -/
def tickBy (d : MBUTTON_t → Nat) (s : State) : State :=
  withTimers s (fun m => s.timer_mbuttons m - d m)

/-- The state after one step. -/
def runStep (env : Env) (s : State) : Step → State
  | Step.tick d => tickBy d s
  | Step.poll pins keyIsDown => (buttonsCheckButtonsEvent env pins keyIsDown s).state

/-- The state after a sequence of steps. -/
def run (env : Env) (s : State) (steps : List Step) : State :=
  steps.foldl (runStep env) s

/-- A property of every step of a run, each step taken with the state it starts from. -/
def allSteps (env : Env) (ok : State → Step → Bool) : State → List Step → Bool
  | _, [] => true
  | s, st :: rest => ok s st && allSteps env ok (runStep env s st) rest

/-- The step is a tick, or a poll whose raw sample asserts button `b`. -/
def assertsButton (env : Env) (b : MBUTTON_t) (s : State) : Step → Bool
  | Step.tick _ => true
  | Step.poll pins _ => hasBits (rawSample env pins s) (env.hdr.buttonID b)

/-- The step is a tick, or a poll with `keyIsDown = false` whose raw sample asserts
button `b`. -/
def heldKeyUp (env : Env) (b : MBUTTON_t) (s : State) : Step → Bool
  | Step.tick _ => true
  | Step.poll pins keyIsDown =>
    !keyIsDown && hasBits (rawSample env pins s) (env.hdr.buttonID b)

/-- The step is a tick, or a poll with `keyIsDown = false` whose raw sample does not assert
button `b`. -/
def releasedKeyUp (env : Env) (b : MBUTTON_t) (s : State) : Step → Bool
  | Step.tick _ => true
  | Step.poll pins keyIsDown =>
    !keyIsDown && !hasBits (rawSample env pins s) (env.hdr.buttonID b)

/-- The three bits of a button's group in `mbuttons` encode a phase: `MBUTTON_EXTRA_LONG` only
with `MBUTTON_LONG`, `MBUTTON_LONG` only with `MBUTTON_PRESSED`. -/
def Encoded (s : State) (b : MBUTTON_t) : Prop :=
  (isMButtonExtraLong s b = true → isMButtonLong s b = true) ∧
  (isMButtonLong s b = true → isMButtonPressed s b = true)

instance (s : State) (b : MBUTTON_t) : Decidable (Encoded s b) := by
  unfold Encoded; infer_instance

/-! ## A run in which a keypad key is pressed while side key 1 is held ExtraLong -/

/-- Side key 1 and PTT asserted. -/
def pinsSK1PTT : Pins := { pinsSK1 with PTT := true }

/-- Side key 1 of an MD-UV380 (threshold 100 ticks) is held from `buttonsInit` until it is
ExtraLong: three polls, 100 ticks apart. -/
def heldRunToExtraLong : List Step :=
  [Step.poll pinsSK1 false, Step.tick (fun _ => 100), Step.poll pinsSK1 false,
    Step.tick (fun _ => 100), Step.poll pinsSK1 false]

/-- Side key 1 stays held: a poll finds a keypad key down, then PTT is pressed as well, and
100 ticks later there is one more poll. -/
def heldRunWithKey : List Step :=
  [Step.poll pinsSK1 true, Step.poll pinsSK1PTT false, Step.tick (fun _ => 100),
    Step.poll pinsSK1PTT false]

/-! ## A run in which the threshold is reached while the combo-wait flag is set -/

/-- From `buttonsInit` on an MD-UV380, a poll finds side key 1 asserted and a keypad key down,
and 100 ticks pass: side key 1 is PressedShort with countdown 0 and the combo-wait flag
is set. -/
def timeoutWhileWaiting : State :=
  run envUV380 (buttonsInit (mkState 0 0 0 0 0))
    [Step.poll pinsSK1 true, Step.tick (fun _ => 100)]

/-! ## A series of calls without a tick in between -/

/-- The state before call number `n + 1` of a series of `buttonsCheckButtonsEvent` calls with
`keyIsDown = false` and no tick in between; `pinsAt n` are the levels of the lines at call
number `n + 1`. -/
def repeatPoll (env : Env) (pinsAt : Nat → Pins) (s : State) : Nat → State
  | 0 => s
  | n + 1 => (buttonsCheckButtonsEvent env (pinsAt n) false (repeatPoll env pinsAt s n)).state

/-- The result of call number `n + 1` of the series. -/
def repeatCall (env : Env) (pinsAt : Nat → Pins) (s : State) (n : Nat) : PollResult :=
  buttonsCheckButtonsEvent env (pinsAt n) false (repeatPoll env pinsAt s n)

/-- The view of a handled button after a poll that runs `checkMButtons`, from its view before
the poll and its bit `a` of the raw sample (a device of the proofs). -/
def localPoll (env : Env) (a : Bool) (v : BView) : BView :=
  localCheck env
    (if a then localArm env ⟨true, false, false, false, v.P, v.L, v.X, v.t⟩
    else ⟨false, false, false, false, v.P, v.L, v.X, v.t⟩)

/-- The state of an MD-UV380 after `buttonsInit` and one poll that samples side key 1
asserted: side key 1 is PressedShort with the countdown armed. -/
def afterFirstPress : State :=
  run envUV380 (buttonsInit (mkState 0 0 0 0 0)) [Step.poll pinsSK1 false]

/-- From `buttonsInit` on an MD-UV380, side key 1 is held for 100 ticks, a poll finds it Long
and re-arms its countdown to 100, and 60 more ticks pass: side key 1 is Long with 40 ticks
left. -/
def longWith40Left : State :=
  run envUV380 (buttonsInit (mkState 0 0 0 0 0))
    [Step.poll pinsSK1 false, Step.tick (fun _ => 100), Step.poll pinsSK1 false,
      Step.tick (fun _ => 60)]

/-- From `buttonsInit` on an MD-UV380, a poll finds side key 1 asserted and 100 ticks pass:
side key 1 is PressedShort with countdown 0 and the combo-wait flag is clear. -/
def timeoutReached : State :=
  run envUV380 (buttonsInit (mkState 0 0 0 0 0))
    [Step.poll pinsSK1 false, Step.tick (fun _ => 100)]

/-! # Theorems -/


/-! ## Bit-level lemmas -/



theorem and_bit_ne_zero (x j : Nat) : ((x &&& (1 <<< j)) != 0) = x.testBit j := by
  rw [Nat.one_shiftLeft, Nat.and_two_pow]
  cases hx : x.testBit j <;> simp [hx]

theorem and_bit_eq_zero (x j : Nat) : ((x &&& (1 <<< j)) == 0) = !x.testBit j := by
  rw [Nat.one_shiftLeft, Nat.and_two_pow]
  cases hx : x.testBit j <;> simp [hx]

theorem testBit_bit (i j : Nat) : (1 <<< j).testBit i = decide (i = j) := by
  rw [Nat.one_shiftLeft, Nat.testBit_two_pow]
  simp [eq_comm]

theorem testBit_bnot32 (x i : Nat) : (bnot32 x).testBit i = (decide (i < 32) ^^ x.testBit i) := by
  have h : (4294967295 : Nat) = 2 ^ 32 - 1 := by norm_num
  rw [bnot32, Nat.testBit_xor, h, Nat.testBit_two_pow_sub_one]

theorem testBit_bnot32_bit (i j : Nat) (hj : j < 32) :
    (bnot32 (1 <<< j)).testBit i = (decide (i < 32) && !decide (i = j)) := by
  rw [testBit_bnot32, testBit_bit]
  by_cases h1 : i < 32 <;> by_cases h2 : i = j <;> simp [h1, h2]
  all_goals omega

theorem pressed_shift (n : Nat) : MBUTTON_PRESSED <<< n = 1 <<< n := rfl

theorem long_shift (n : Nat) : MBUTTON_LONG <<< n = 1 <<< (n + 1) := by
  rw [MBUTTON_LONG, ← Nat.shiftLeft_add, Nat.add_comm]

theorem extraLong_shift (n : Nat) : MBUTTON_EXTRA_LONG <<< n = 1 <<< (n + 2) := by
  rw [MBUTTON_EXTRA_LONG, ← Nat.shiftLeft_add, Nat.add_comm]

theorem isMButtonPressed_eq (s : State) (b : MBUTTON_t) :
    isMButtonPressed s b = s.mbuttons.testBit (b.toNat * 3) := by
  rw [isMButtonPressed, Nat.and_assoc, Nat.and_self, MBUTTON_PRESSED, and_bit_ne_zero,
    Nat.testBit_shiftRight, Nat.add_zero]

theorem isMButtonLong_eq (s : State) (b : MBUTTON_t) :
    isMButtonLong s b = s.mbuttons.testBit (b.toNat * 3 + 1) := by
  rw [isMButtonLong, Nat.and_assoc, Nat.and_self, MBUTTON_LONG, and_bit_ne_zero,
    Nat.testBit_shiftRight]

theorem isMButtonExtraLong_eq (s : State) (b : MBUTTON_t) :
    isMButtonExtraLong s b = s.mbuttons.testBit (b.toNat * 3 + 2) := by
  rw [isMButtonExtraLong, Nat.and_assoc, Nat.and_self, MBUTTON_EXTRA_LONG, and_bit_ne_zero,
    Nat.testBit_shiftRight]

namespace ButtonsHeader

variable {h : ButtonsHeader}

theorem idBit_eq (h : ButtonsHeader) (b : MBUTTON_t) : h.idBit b = h.bitAt (idIdx b) := by
  cases b <;> rfl

theorem shortUpBit_eq (h : ButtonsHeader) (b : MBUTTON_t) :
    h.shortUpBit b = h.bitAt (shortUpIdx b) := by
  cases b <;> rfl

theorem longDownBit_eq (h : ButtonsHeader) (b : MBUTTON_t) :
    h.longDownBit b = h.bitAt (longDownIdx b) := by
  cases b <;> rfl

theorem extraLongDownBit_eq (h : ButtonsHeader) (b : MBUTTON_t) :
    h.extraLongDownBit b = h.bitAt (extraLongDownIdx b) := by
  cases b <;> rfl

theorem ptt_eq (h : ButtonsHeader) : h.ptt = h.bitAt 0 := rfl

theorem waitNewState_eq (h : ButtonsHeader) : h.waitNewState = h.bitAt 13 := rfl

theorem WellFormed.bitAt_eq (hwf : h.WellFormed) (i j : Fin 14) :
    (h.bitAt i = h.bitAt j) = (i = j) := by
  apply propext
  constructor
  · intro heq
    have := List.nodup_iff_injective_get.mp hwf.1 heq
    exact Fin.ext (by simpa using congrArg Fin.val this)
  · intro heq
    rw [heq]

theorem WellFormed.bitAt_lt (hwf : h.WellFormed) (i : Fin 14) : h.bitAt i < 32 :=
  hwf.2.1 _ (List.get_mem _ _ _)

theorem WellFormed.wait_ge (hwf : h.WellFormed) : 9 ≤ h.bitAt 13 := hwf.2.2

end ButtonsHeader

theorem idx_eq (a b : MBUTTON_t) :
    (ButtonsHeader.idIdx a = ButtonsHeader.idIdx b ↔ a = b) ∧
    ButtonsHeader.idIdx a ≠ ButtonsHeader.shortUpIdx b ∧
    ButtonsHeader.idIdx a ≠ ButtonsHeader.longDownIdx b ∧
    ButtonsHeader.idIdx a ≠ ButtonsHeader.extraLongDownIdx b ∧
    ButtonsHeader.shortUpIdx a ≠ ButtonsHeader.idIdx b ∧
    (ButtonsHeader.shortUpIdx a = ButtonsHeader.shortUpIdx b ↔ a = b) ∧
    ButtonsHeader.shortUpIdx a ≠ ButtonsHeader.longDownIdx b ∧
    ButtonsHeader.shortUpIdx a ≠ ButtonsHeader.extraLongDownIdx b ∧
    ButtonsHeader.longDownIdx a ≠ ButtonsHeader.idIdx b ∧
    ButtonsHeader.longDownIdx a ≠ ButtonsHeader.shortUpIdx b ∧
    (ButtonsHeader.longDownIdx a = ButtonsHeader.longDownIdx b ↔ a = b) ∧
    ButtonsHeader.longDownIdx a ≠ ButtonsHeader.extraLongDownIdx b ∧
    ButtonsHeader.extraLongDownIdx a ≠ ButtonsHeader.idIdx b ∧
    ButtonsHeader.extraLongDownIdx a ≠ ButtonsHeader.shortUpIdx b ∧
    ButtonsHeader.extraLongDownIdx a ≠ ButtonsHeader.longDownIdx b ∧
    (ButtonsHeader.extraLongDownIdx a = ButtonsHeader.extraLongDownIdx b ↔ a = b) := by
  cases a <;> cases b <;> decide

theorem idx_ne (a : MBUTTON_t) :
    ButtonsHeader.idIdx a ≠ 0 ∧
    (0 : Fin 14) ≠ ButtonsHeader.idIdx a ∧
    ButtonsHeader.idIdx a ≠ 13 ∧
    (13 : Fin 14) ≠ ButtonsHeader.idIdx a ∧
    ButtonsHeader.shortUpIdx a ≠ 0 ∧
    (0 : Fin 14) ≠ ButtonsHeader.shortUpIdx a ∧
    ButtonsHeader.shortUpIdx a ≠ 13 ∧
    (13 : Fin 14) ≠ ButtonsHeader.shortUpIdx a ∧
    ButtonsHeader.longDownIdx a ≠ 0 ∧
    (0 : Fin 14) ≠ ButtonsHeader.longDownIdx a ∧
    ButtonsHeader.longDownIdx a ≠ 13 ∧
    (13 : Fin 14) ≠ ButtonsHeader.longDownIdx a ∧
    ButtonsHeader.extraLongDownIdx a ≠ 0 ∧
    (0 : Fin 14) ≠ ButtonsHeader.extraLongDownIdx a ∧
    ButtonsHeader.extraLongDownIdx a ≠ 13 ∧
    (13 : Fin 14) ≠ ButtonsHeader.extraLongDownIdx a := by
  cases a <;> decide

theorem toNat_lt (b : MBUTTON_t) : b.toNat * 3 + 2 < 32 := by
  cases b <;> decide

theorem toNat_inj (a b : MBUTTON_t) : (a.toNat = b.toNat) = (a = b) := by
  cases a <;> cases b <;> decide

theorem toNat_eq (a b : MBUTTON_t) :
    (a.toNat * 3 = b.toNat * 3 ↔ a = b) ∧
    (a.toNat * 3 + 1 = b.toNat * 3 + 1 ↔ a = b) ∧
    (a.toNat * 3 + 2 = b.toNat * 3 + 2 ↔ a = b) ∧
    a.toNat * 3 ≠ b.toNat * 3 + 1 ∧
    a.toNat * 3 ≠ b.toNat * 3 + 2 ∧
    a.toNat * 3 + 1 ≠ b.toNat * 3 ∧
    a.toNat * 3 + 1 ≠ b.toNat * 3 + 2 ∧
    a.toNat * 3 + 2 ≠ b.toNat * 3 ∧
    a.toNat * 3 + 2 ≠ b.toNat * 3 + 1 := by
  cases a <;> cases b <;> decide

theorem view_checkMButtons_self (env : Env) (hwf : env.hdr.WellFormed) (r : State × Nat)
    (b : MBUTTON_t) :
    view env.hdr b (checkMButtons env r b (env.hdr.buttonID b) (env.hdr.buttonShortUp b)
      (env.hdr.buttonLong b) (env.hdr.buttonExtraLong b)) = localCheck env (view env.hdr b r) := by
  have hlt := hwf.bitAt_lt
  have hne := hwf.bitAt_eq
  have h2 := toNat_lt b
  have h1 : b.toNat * 3 + 1 < 32 := by omega
  have h0 : b.toNat * 3 < 32 := by omega
  simp only [checkMButtons, ButtonsHeader.buttonID, ButtonsHeader.buttonShortUp,
    ButtonsHeader.buttonLong, ButtonsHeader.buttonExtraLong, and_bit_ne_zero, and_bit_eq_zero,
    isMButtonPressed_eq, isMButtonLong_eq, isMButtonExtraLong_eq,
    ButtonsHeader.idBit_eq, ButtonsHeader.shortUpBit_eq, ButtonsHeader.longDownBit_eq,
    ButtonsHeader.extraLongDownBit_eq, pressed_shift, long_shift, extraLong_shift, view,
    localCheck]
  cases ha : r.2.testBit (env.hdr.bitAt (ButtonsHeader.idIdx b)) <;>
  cases hP : r.1.mbuttons.testBit (b.toNat * 3) <;>
  cases hL : r.1.mbuttons.testBit (b.toNat * 3 + 1) <;>
  cases hX : r.1.mbuttons.testBit (b.toNat * 3 + 2) <;>
  by_cases ht : r.1.timer_mbuttons b = 0 <;>
  simp [ha, hP, hL, hX, ht, testBit_bit, testBit_bnot32_bit, h0, h1, h2, hlt, hne, setTimer,
    -Nat.testBit_shiftLeft, idx_eq]

theorem view_checkMButtons_other (env : Env) (hwf : env.hdr.WellFormed) (r : State × Nat)
    (b b' : MBUTTON_t) (hbb : b' ≠ b) :
    view env.hdr b (checkMButtons env r b' (env.hdr.buttonID b') (env.hdr.buttonShortUp b')
      (env.hdr.buttonLong b') (env.hdr.buttonExtraLong b')) = view env.hdr b r := by
  have hlt := hwf.bitAt_lt
  have hne := hwf.bitAt_eq
  have h2 := toNat_lt b'
  have h1 : b'.toNat * 3 + 1 < 32 := by omega
  have h0 : b'.toNat * 3 < 32 := by omega
  have g2 := toNat_lt b
  have g1 : b.toNat * 3 + 1 < 32 := by omega
  have g0 : b.toNat * 3 < 32 := by omega
  have hbb' : ¬ b = b' := fun e => hbb e.symm
  simp only [checkMButtons, ButtonsHeader.buttonID, ButtonsHeader.buttonShortUp,
    ButtonsHeader.buttonLong, ButtonsHeader.buttonExtraLong, and_bit_ne_zero, and_bit_eq_zero,
    isMButtonPressed_eq, isMButtonLong_eq, isMButtonExtraLong_eq,
    ButtonsHeader.idBit_eq, ButtonsHeader.shortUpBit_eq, ButtonsHeader.longDownBit_eq,
    ButtonsHeader.extraLongDownBit_eq, pressed_shift, long_shift, extraLong_shift, view]
  cases ha : r.2.testBit (env.hdr.bitAt (ButtonsHeader.idIdx b')) <;>
  cases hP : r.1.mbuttons.testBit (b'.toNat * 3) <;>
  cases hL : r.1.mbuttons.testBit (b'.toNat * 3 + 1) <;>
  cases hX : r.1.mbuttons.testBit (b'.toNat * 3 + 2) <;>
  by_cases ht : r.1.timer_mbuttons b' = 0 <;>
  simp [ha, hP, hL, hX, ht, testBit_bit, testBit_bnot32_bit, h0, h1, h2, hlt, hne, setTimer,
    -Nat.testBit_shiftLeft, hbb, hbb', toNat_eq, toNat_inj, idx_eq, g0, g1, g2]

theorem view_checkMButtons (env : Env) (hwf : env.hdr.WellFormed) (r : State × Nat)
    (b b' : MBUTTON_t) :
    view env.hdr b (checkMButtons env r b' (env.hdr.buttonID b') (env.hdr.buttonShortUp b')
      (env.hdr.buttonLong b') (env.hdr.buttonExtraLong b')) =
      if b' = b then localCheck env (view env.hdr b r) else view env.hdr b r := by
  by_cases hbb : b' = b
  · subst hbb; simp [view_checkMButtons_self env hwf]
  · simp [hbb, view_checkMButtons_other env hwf r b b' hbb]


/-! ## What `checkMButtons` leaves alone -/

theorem checkMButtons_prev (env : Env) (r : State × Nat) (b : MBUTTON_t)
    (id su lg xl : Nat) :
    (checkMButtons env r b id su lg xl).1.prevButtonState = r.1.prevButtonState := by
  simp only [checkMButtons]
  split_ifs <;> rfl

theorem checkMButtons_wait (env : Env) (hwf : env.hdr.WellFormed) (r : State × Nat)
    (b : MBUTTON_t) (id su lg xl : Nat) :
    (checkMButtons env r b id su lg xl).1.mbuttons.testBit env.hdr.waitNewState =
      r.1.mbuttons.testBit env.hdr.waitNewState := by
  have hlt := hwf.bitAt_lt 13
  have hge := hwf.wait_ge
  have h2 := toNat_lt b
  have h1 : b.toNat * 3 + 1 < 32 := by omega
  have h0 : b.toNat * 3 < 32 := by omega
  have e0 : ¬ env.hdr.bitAt 13 = b.toNat * 3 := by
    cases b <;> simp [MBUTTON_t.toNat] <;> omega
  have e1 : ¬ env.hdr.bitAt 13 = b.toNat * 3 + 1 := by
    cases b <;> simp [MBUTTON_t.toNat] <;> omega
  have e2 : ¬ env.hdr.bitAt 13 = b.toNat * 3 + 2 := by
    cases b <;> simp [MBUTTON_t.toNat] <;> omega
  simp only [checkMButtons, pressed_shift, long_shift, extraLong_shift,
    ButtonsHeader.waitNewState_eq]
  split_ifs <;>
  simp [testBit_bit, testBit_bnot32_bit, h0, h1, h2, hlt, e0, e1, e2, -Nat.testBit_shiftLeft]

theorem checkMButtons_ptt (env : Env) (hwf : env.hdr.WellFormed) (r : State × Nat)
    (b : MBUTTON_t) :
    (checkMButtons env r b (env.hdr.buttonID b) (env.hdr.buttonShortUp b)
      (env.hdr.buttonLong b) (env.hdr.buttonExtraLong b)).2.testBit env.hdr.ptt =
      r.2.testBit env.hdr.ptt := by
  have hlt := hwf.bitAt_lt
  have hne := hwf.bitAt_eq
  simp only [checkMButtons, ButtonsHeader.buttonID, ButtonsHeader.buttonShortUp,
    ButtonsHeader.buttonLong, ButtonsHeader.buttonExtraLong,
    ButtonsHeader.idBit_eq, ButtonsHeader.shortUpBit_eq, ButtonsHeader.longDownBit_eq,
    ButtonsHeader.extraLongDownBit_eq, ButtonsHeader.ptt_eq]
  split_ifs <;>
  simp [testBit_bit, testBit_bnot32_bit, hlt, hne, idx_ne, -Nat.testBit_shiftLeft]

theorem checkMButtons_idle (env : Env) (r : State × Nat) (b : MBUTTON_t)
    (hid : idle (view env.hdr b r) = true) :
    checkMButtons env r b (env.hdr.buttonID b) (env.hdr.buttonShortUp b)
      (env.hdr.buttonLong b) (env.hdr.buttonExtraLong b) = r := by
  simp only [checkMButtons, ButtonsHeader.buttonID, and_bit_ne_zero, and_bit_eq_zero,
    isMButtonPressed_eq, isMButtonLong_eq, isMButtonExtraLong_eq]
  simp only [idle, view] at hid
  cases ha : r.2.testBit (env.hdr.idBit b) <;>
  cases hP : r.1.mbuttons.testBit (b.toNat * 3) <;>
  cases hL : r.1.mbuttons.testBit (b.toNat * 3 + 1) <;>
  cases hX : r.1.mbuttons.testBit (b.toNat * 3 + 2) <;>
  by_cases ht : r.1.timer_mbuttons b = 0 <;>
  simp [ha, hP, hL, hX, ht] at hid ⊢

/-! ## `setMButtonsStateAndClearLong` and `checkMButtonState` on the views -/

theorem view_setMButtons (env : Env) (s : State) (buttons : Nat)
    (b b' : MBUTTON_t) :
    view env.hdr b
        (setMButtonsStateAndClearLong env s buttons b' (env.hdr.buttonID b'), buttons) =
      if b' = b then localSet env (view env.hdr b (s, buttons)) else view env.hdr b (s, buttons) := by
  have h2 := toNat_lt b'
  have h1 : b'.toNat * 3 + 1 < 32 := by omega
  have h0 : b'.toNat * 3 < 32 := by omega
  have g2 := toNat_lt b
  have g1 : b.toNat * 3 + 1 < 32 := by omega
  have g0 : b.toNat * 3 < 32 := by omega
  simp only [setMButtonsStateAndClearLong, ButtonsHeader.buttonID, and_bit_ne_zero,
    pressed_shift, long_shift, extraLong_shift, view, localSet]
  by_cases hbb : b' = b
  · subst hbb
    by_cases ha : buttons.testBit (env.hdr.idBit b') = true <;>
    simp [ha, testBit_bit, testBit_bnot32_bit, h0, h1, h2, setTimer, -Nat.testBit_shiftLeft]
  · have hbb' : ¬ b = b' := fun e => hbb e.symm
    by_cases ha : buttons.testBit (env.hdr.idBit b') = true <;>
    simp [ha, testBit_bit, testBit_bnot32_bit, h0, h1, h2, g0, g1, g2, setTimer, hbb, hbb',
      toNat_eq, toNat_inj, -Nat.testBit_shiftLeft]

theorem setMButtons_prev (env : Env) (s : State) (buttons : Nat) (b : MBUTTON_t) (id : Nat) :
    (setMButtonsStateAndClearLong env s buttons b id).prevButtonState = s.prevButtonState := rfl

theorem setMButtons_wait (env : Env) (hwf : env.hdr.WellFormed) (s : State) (buttons : Nat)
    (b : MBUTTON_t) (id : Nat) :
    (setMButtonsStateAndClearLong env s buttons b id).mbuttons.testBit env.hdr.waitNewState =
      s.mbuttons.testBit env.hdr.waitNewState := by
  have hlt := hwf.bitAt_lt 13
  have hge := hwf.wait_ge
  have h2 := toNat_lt b
  have h1 : b.toNat * 3 + 1 < 32 := by omega
  have h0 : b.toNat * 3 < 32 := by omega
  have e0 : ¬ env.hdr.bitAt 13 = b.toNat * 3 := by
    cases b <;> simp [MBUTTON_t.toNat] <;> omega
  have e1 : ¬ env.hdr.bitAt 13 = b.toNat * 3 + 1 := by
    cases b <;> simp [MBUTTON_t.toNat] <;> omega
  have e2 : ¬ env.hdr.bitAt 13 = b.toNat * 3 + 2 := by
    cases b <;> simp [MBUTTON_t.toNat] <;> omega
  simp only [setMButtonsStateAndClearLong, pressed_shift, long_shift, extraLong_shift,
    ButtonsHeader.waitNewState_eq]
  split_ifs <;>
  simp [testBit_bit, testBit_bnot32_bit, h0, h1, h2, hlt, e0, e1, e2, -Nat.testBit_shiftLeft]

theorem view_checkMButtonState (env : Env) (s : State)
    (buttons : Nat) (b b' : MBUTTON_t) :
    view env.hdr b (checkMButtonState env s buttons b' (env.hdr.buttonID b'), buttons) =
      if b' = b then localArm env (view env.hdr b (s, buttons)) else view env.hdr b (s, buttons) := by
  unfold checkMButtonState
  rw [isMButtonPressed_eq]
  cases hP : s.mbuttons.testBit (b'.toNat * 3)
  · simp only [beq_self_eq_true, if_true, view_setMButtons env]
    by_cases hbb : b' = b
    · subst hbb; simp [localArm, view, hP]
    · simp [hbb]
  · by_cases hbb : b' = b
    · subst hbb; simp [localArm, view, hP]
    · simp [hbb]

theorem checkMButtonState_prev (env : Env) (s : State) (buttons : Nat) (b : MBUTTON_t)
    (id : Nat) :
    (checkMButtonState env s buttons b id).prevButtonState = s.prevButtonState := by
  unfold checkMButtonState; split_ifs <;> rfl

theorem checkMButtonState_wait (env : Env) (hwf : env.hdr.WellFormed) (s : State)
    (buttons : Nat) (b : MBUTTON_t) (id : Nat) :
    (checkMButtonState env s buttons b id).mbuttons.testBit env.hdr.waitNewState =
      s.mbuttons.testBit env.hdr.waitNewState := by
  unfold checkMButtonState; split_ifs
  · exact setMButtons_wait env hwf s buttons b id
  · rfl


/-! ## `buttonsRead` -/

theorem view_or_id (env : Env) (hwf : env.hdr.WellFormed) (s : State) (x : Nat)
    (b b' : MBUTTON_t) :
    view env.hdr b (s, x ||| env.hdr.buttonID b') =
      { view env.hdr b (s, x) with a := (view env.hdr b (s, x)).a || decide (b = b') } := by
  have hne := hwf.bitAt_eq
  simp [view, ButtonsHeader.buttonID, ButtonsHeader.idBit_eq, ButtonsHeader.shortUpBit_eq,
    ButtonsHeader.longDownBit_eq, ButtonsHeader.extraLongDownBit_eq, testBit_bit, hne, idx_eq,
    -Nat.testBit_shiftLeft]

theorem view_or_ptt (env : Env) (hwf : env.hdr.WellFormed) (s : State) (x : Nat)
    (b : MBUTTON_t) :
    view env.hdr b (s, x ||| env.hdr.BUTTON_PTT) = view env.hdr b (s, x) := by
  have hne := hwf.bitAt_eq
  simp [view, ButtonsHeader.BUTTON_PTT, ButtonsHeader.idBit_eq, ButtonsHeader.shortUpBit_eq,
    ButtonsHeader.longDownBit_eq, ButtonsHeader.extraLongDownBit_eq, ButtonsHeader.ptt_eq,
    testBit_bit, hne, idx_ne, -Nat.testBit_shiftLeft]

theorem readInv_init (env : Env) (s : State) : ReadInv env s (s, BUTTON_NONE) := by
  refine ⟨fun b => ?_, rfl, rfl⟩
  simp [view0, BUTTON_NONE]

theorem readInv_readButton (env : Env) (hwf : env.hdr.WellFormed) (s : State)
    (r : State × Nat) (b' : MBUTTON_t) (hr : ReadInv env s r) :
    ReadInv env s (readButton env r b' (env.hdr.buttonID b')) := by
  obtain ⟨hv, hp, hw⟩ := hr
  refine ⟨fun b => ?_, ?_, ?_⟩
  · have hvb := hv b
    have e : view env.hdr b (r.1, r.2) = view env.hdr b r := rfl
    show view env.hdr b (checkMButtonState env r.1 (r.2 ||| env.hdr.buttonID b') b'
      (env.hdr.buttonID b'), r.2 ||| env.hdr.buttonID b') = _
    rw [view_checkMButtonState, view_or_id env hwf, e, hvb]
    show _ = if (r.2 ||| env.hdr.buttonID b').testBit (env.hdr.idBit b) = true then _ else _
    have ha : (r.2 ||| env.hdr.buttonID b').testBit (env.hdr.idBit b) =
        (r.2.testBit (env.hdr.idBit b) || decide (b = b')) := by
      have hne := hwf.bitAt_eq
      simp [ButtonsHeader.buttonID, ButtonsHeader.idBit_eq, testBit_bit, hne, idx_eq,
        -Nat.testBit_shiftLeft]
    rw [ha]
    by_cases hbb : b' = b
    · subst hbb
      cases hx : r.2.testBit (env.hdr.idBit b') <;>
      cases hP : (view0 env.hdr b' s).P <;>
      simp [localArm, localSet, hP]
    · have hbb' : ¬ b = b' := fun e => hbb e.symm
      cases hx : r.2.testBit (env.hdr.idBit b) <;> simp [hbb, hbb']
  · simp only [readButton, checkMButtonState_prev, hp]
  · simp only [readButton, checkMButtonState_wait env hwf, hw]

theorem readInv_ptt (env : Env) (hwf : env.hdr.WellFormed) (s : State)
    (r : State × Nat) (hr : ReadInv env s r) :
    ReadInv env s (r.1, r.2 ||| env.hdr.BUTTON_PTT) := by
  obtain ⟨hv, hp, hw⟩ := hr
  refine ⟨fun b => ?_, hp, hw⟩
  have hvb := hv b
  have e : view env.hdr b (r.1, r.2) = view env.hdr b r := rfl
  rw [view_or_ptt env hwf, e, hvb]
  have ha : (r.2 ||| env.hdr.BUTTON_PTT).testBit (env.hdr.idBit b) =
      r.2.testBit (env.hdr.idBit b) := by
    have hne := hwf.bitAt_eq
    simp [ButtonsHeader.BUTTON_PTT, ButtonsHeader.idBit_eq, ButtonsHeader.ptt_eq, testBit_bit,
      hne, idx_ne, -Nat.testBit_shiftLeft]
  simp only [ha]

theorem readInv_ite (env : Env) (s : State) (c : Prop) [Decidable c] (x y : State × Nat)
    (hx : ReadInv env s x) (hy : ReadInv env s y) : ReadInv env s (if c then x else y) := by
  split_ifs
  · exact hx
  · exact hy

theorem buttonsRead_inv (env : Env) (hwf : env.hdr.WellFormed) (pins : Pins) (s : State) :
    ReadInv env s (buttonsRead env pins s) := by
  have i0 := readInv_init env s
  have sSK1 : ∀ r, ReadInv env s r →
      ReadInv env s (readButton env r MBUTTON_SK1 env.hdr.BUTTON_SK1) :=
    fun r hr => readInv_readButton env hwf s r MBUTTON_SK1 hr
  have sSK2 : ∀ r, ReadInv env s r →
      ReadInv env s (readButton env r MBUTTON_SK2 env.hdr.BUTTON_SK2) :=
    fun r hr => readInv_readButton env hwf s r MBUTTON_SK2 hr
  have sOR : ∀ r, ReadInv env s r →
      ReadInv env s (readButton env r MBUTTON_ORANGE env.hdr.BUTTON_ORANGE) :=
    fun r hr => readInv_readButton env hwf s r MBUTTON_ORANGE hr
  unfold buttonsRead
  refine readInv_ite env s _ _ _ (readInv_ptt env hwf s _ ?_) ?_ <;>
  · refine readInv_ite env s _ _ _ (sSK1 _ ?_) ?_ <;>
    · refine readInv_ite env s _ _ _ (readInv_ite env s _ _ _ (sSK1 _ ?_) (sSK2 _ ?_)) ?_ <;>
      · exact readInv_ite env s _ _ _
          (readInv_ite env s _ _ _ (sSK2 _ i0) (readInv_ite env s _ _ _ (sOR _ i0) (sSK1 _ i0))) i0


/-! ## The two loops over the buttons -/

theorem view_clearStoredStates (env : Env) (s : State) (buttons : Nat) (b : MBUTTON_t) :
    view env.hdr b (clearStoredStates env s buttons, buttons) =
      if env.plat.handles b then localSet env (view env.hdr b (s, buttons))
      else view env.hdr b (s, buttons) := by
  have e1 := fun s => view_setMButtons env s buttons b MBUTTON_SK1
  have e2 := fun s => view_setMButtons env s buttons b MBUTTON_SK2
  have e3 := fun s => view_setMButtons env s buttons b MBUTTON_ORANGE
  have f1 : env.hdr.BUTTON_SK1 = env.hdr.buttonID MBUTTON_SK1 := rfl
  have f2 : env.hdr.BUTTON_SK2 = env.hdr.buttonID MBUTTON_SK2 := rfl
  have f3 : env.hdr.BUTTON_ORANGE = env.hdr.buttonID MBUTTON_ORANGE := rfl
  unfold clearStoredStates
  simp only [f1, f2, f3]
  cases ho : env.plat.hasOrange <;> cases b <;>
  simp [e1, e2, e3, ho, Platform.handles]

theorem clearStoredStates_prev (env : Env) (s : State) (buttons : Nat) :
    (clearStoredStates env s buttons).prevButtonState = s.prevButtonState := by
  unfold clearStoredStates
  split_ifs <;> rfl

theorem clearStoredStates_wait (env : Env) (hwf : env.hdr.WellFormed) (s : State)
    (buttons : Nat) :
    (clearStoredStates env s buttons).mbuttons.testBit env.hdr.waitNewState =
      s.mbuttons.testBit env.hdr.waitNewState := by
  unfold clearStoredStates
  split_ifs <;> simp only [setMButtons_wait env hwf]

theorem view_checkAllButtons (env : Env) (hwf : env.hdr.WellFormed) (r : State × Nat)
    (b : MBUTTON_t) :
    view env.hdr b (checkAllButtons env r) =
      if env.plat.handles b then localCheck env (view env.hdr b r) else view env.hdr b r := by
  have e1 := fun r => view_checkMButtons env hwf r b MBUTTON_SK1
  have e2 := fun r => view_checkMButtons env hwf r b MBUTTON_SK2
  have e3 := fun r => view_checkMButtons env hwf r b MBUTTON_ORANGE
  unfold checkAllButtons
  show view env.hdr b (checkMButtons env (checkMButtons env
    (if env.plat.hasOrange then checkMButtons env r MBUTTON_ORANGE
      (env.hdr.buttonID MBUTTON_ORANGE) (env.hdr.buttonShortUp MBUTTON_ORANGE)
      (env.hdr.buttonLong MBUTTON_ORANGE) (env.hdr.buttonExtraLong MBUTTON_ORANGE) else r)
    MBUTTON_SK1 (env.hdr.buttonID MBUTTON_SK1) (env.hdr.buttonShortUp MBUTTON_SK1)
      (env.hdr.buttonLong MBUTTON_SK1) (env.hdr.buttonExtraLong MBUTTON_SK1))
    MBUTTON_SK2 (env.hdr.buttonID MBUTTON_SK2) (env.hdr.buttonShortUp MBUTTON_SK2)
      (env.hdr.buttonLong MBUTTON_SK2) (env.hdr.buttonExtraLong MBUTTON_SK2)) = _
  cases ho : env.plat.hasOrange <;> cases b <;>
  simp [e1, e2, e3, ho, Platform.handles]

theorem checkAllButtons_prev (env : Env) (r : State × Nat) :
    (checkAllButtons env r).1.prevButtonState = r.1.prevButtonState := by
  unfold checkAllButtons
  split_ifs <;> simp only [checkMButtons_prev]

theorem checkAllButtons_wait (env : Env) (hwf : env.hdr.WellFormed) (r : State × Nat) :
    (checkAllButtons env r).1.mbuttons.testBit env.hdr.waitNewState =
      r.1.mbuttons.testBit env.hdr.waitNewState := by
  unfold checkAllButtons
  split_ifs <;> simp only [checkMButtons_wait env hwf]

theorem checkAllButtons_ptt (env : Env) (hwf : env.hdr.WellFormed) (r : State × Nat) :
    (checkAllButtons env r).2.testBit env.hdr.ptt = r.2.testBit env.hdr.ptt := by
  have e := fun r b => checkMButtons_ptt env hwf r b
  unfold checkAllButtons
  show (checkMButtons env (checkMButtons env
    (if env.plat.hasOrange then checkMButtons env r MBUTTON_ORANGE
      (env.hdr.buttonID MBUTTON_ORANGE) (env.hdr.buttonShortUp MBUTTON_ORANGE)
      (env.hdr.buttonLong MBUTTON_ORANGE) (env.hdr.buttonExtraLong MBUTTON_ORANGE) else r)
    MBUTTON_SK1 (env.hdr.buttonID MBUTTON_SK1) (env.hdr.buttonShortUp MBUTTON_SK1)
      (env.hdr.buttonLong MBUTTON_SK1) (env.hdr.buttonExtraLong MBUTTON_SK1))
    MBUTTON_SK2 (env.hdr.buttonID MBUTTON_SK2) (env.hdr.buttonShortUp MBUTTON_SK2)
      (env.hdr.buttonLong MBUTTON_SK2) (env.hdr.buttonExtraLong MBUTTON_SK2)).2.testBit _ = _
  split_ifs <;> simp only [e]

theorem checkAllButtons_idle (env : Env) (r : State × Nat)
    (hid : ∀ b, env.plat.handles b = true → idle (view env.hdr b r) = true) :
    checkAllButtons env r = r := by
  have h1 := checkMButtons_idle env r MBUTTON_SK1 (hid _ rfl)
  have h2 := checkMButtons_idle env r MBUTTON_SK2 (hid _ rfl)
  unfold checkAllButtons
  show (checkMButtons env (checkMButtons env
    (if env.plat.hasOrange then checkMButtons env r MBUTTON_ORANGE
      (env.hdr.buttonID MBUTTON_ORANGE) (env.hdr.buttonShortUp MBUTTON_ORANGE)
      (env.hdr.buttonLong MBUTTON_ORANGE) (env.hdr.buttonExtraLong MBUTTON_ORANGE) else r)
    MBUTTON_SK1 (env.hdr.buttonID MBUTTON_SK1) (env.hdr.buttonShortUp MBUTTON_SK1)
      (env.hdr.buttonLong MBUTTON_SK1) (env.hdr.buttonExtraLong MBUTTON_SK1))
    MBUTTON_SK2 (env.hdr.buttonID MBUTTON_SK2) (env.hdr.buttonShortUp MBUTTON_SK2)
      (env.hdr.buttonLong MBUTTON_SK2) (env.hdr.buttonExtraLong MBUTTON_SK2)) = r
  by_cases ho : env.plat.hasOrange = true
  · have h3 := checkMButtons_idle env r MBUTTON_ORANGE (hid _ ho)
    rw [if_pos ho, h3, h1, h2]
  · rw [if_neg ho, h1, h2]

/-! ## `checkEveryButton` and the paths of `buttonsCheckButtonsEvent` -/

theorem checkEveryButton_buttons (env : Env) (r : State × Nat) :
    (checkEveryButton env r).buttons = (checkAllButtons env r).2 := by
  unfold checkEveryButton
  dsimp only
  split_ifs <;> rfl

theorem checkEveryButton_mbuttons (env : Env) (r : State × Nat) :
    (checkEveryButton env r).state.mbuttons = (checkAllButtons env r).1.mbuttons := by
  unfold checkEveryButton
  dsimp only
  split_ifs <;> rfl

theorem checkEveryButton_timer (env : Env) (r : State × Nat) :
    (checkEveryButton env r).state.timer_mbuttons = (checkAllButtons env r).1.timer_mbuttons := by
  unfold checkEveryButton
  dsimp only
  split_ifs <;> rfl

theorem checkEveryButton_prev (env : Env) (r : State × Nat) :
    (checkEveryButton env r).state.prevButtonState = (checkEveryButton env r).buttons := by
  unfold checkEveryButton
  dsimp only
  split_ifs with h
  · rfl
  · simpa using h

theorem checkEveryButton_event (env : Env) (r : State × Nat) :
    (checkEveryButton env r).event =
      if (checkAllButtons env r).2 = r.1.prevButtonState then EVENT_BUTTON_NONE
      else EVENT_BUTTON_CHANGE := by
  unfold checkEveryButton
  dsimp only
  rw [checkAllButtons_prev]
  by_cases h : (checkAllButtons env r).2 = r.1.prevButtonState
  · simp [h]
  · have h' : ¬ r.1.prevButtonState = (checkAllButtons env r).2 := fun e => h e.symm
    simp [h, h']

theorem view_checkEveryButton (env : Env) (hwf : env.hdr.WellFormed) (r : State × Nat)
    (b : MBUTTON_t) :
    view env.hdr b ((checkEveryButton env r).state, (checkEveryButton env r).buttons) =
      if env.plat.handles b then localCheck env (view env.hdr b r) else view env.hdr b r := by
  rw [← view_checkAllButtons env hwf]
  simp only [view, checkEveryButton_buttons, checkEveryButton_mbuttons, checkEveryButton_timer]

theorem waitNewState_eq_testBit (env : Env) (s : State) :
    waitNewState env s = s.mbuttons.testBit env.hdr.waitNewState := by
  rw [waitNewState, ButtonsHeader.BUTTON_WAIT_NEW_STATE, and_bit_ne_zero]

theorem buttonsRead_wait (env : Env) (hwf : env.hdr.WellFormed) (pins : Pins) (s : State) :
    waitNewState env (buttonsRead env pins s).1 = waitNewState env s := by
  rw [waitNewState_eq_testBit, waitNewState_eq_testBit]
  exact (buttonsRead_inv env hwf pins s).2.2

theorem buttonsRead_prev (env : Env) (hwf : env.hdr.WellFormed) (pins : Pins) (s : State) :
    (buttonsRead env pins s).1.prevButtonState = s.prevButtonState :=
  (buttonsRead_inv env hwf pins s).2.1

theorem poll_normal (env : Env) (hwf : env.hdr.WellFormed) (pins : Pins) (keyIsDown : Bool)
    (s : State) (hw : waitNewState env s = false)
    (hk : keyIsDown = false ∨ rawSample env pins s = BUTTON_NONE) :
    buttonsCheckButtonsEvent env pins keyIsDown s =
      checkEveryButton env (buttonsRead env pins s) := by
  have hw' := buttonsRead_wait env hwf pins s
  rw [hw, waitNewState] at hw'
  unfold buttonsCheckButtonsEvent
  simp only [hw']
  rcases hk with hk | hk
  · subst hk; simp
  · rw [rawSample] at hk
    have e : ((buttonsRead env pins s).1, BUTTON_NONE) = buttonsRead env pins s := by
      rw [← hk]
    simp [hk, e]

theorem poll_key (env : Env) (hwf : env.hdr.WellFormed) (pins : Pins) (s : State)
    (hc : rawSample env pins s ≠ BUTTON_NONE ∨ waitNewState env s = true) :
    buttonsCheckButtonsEvent env pins true s =
      { state :=
          { clearStoredStates env
              { (buttonsRead env pins s).1 with
                mbuttons := (buttonsRead env pins s).1.mbuttons ||| env.hdr.BUTTON_WAIT_NEW_STATE }
              (rawSample env pins s) with
            prevButtonState := rawSample env pins s }
        buttons := rawSample env pins s
        event := EVENT_BUTTON_NONE } := by
  have hw' := buttonsRead_wait env hwf pins s
  unfold buttonsCheckButtonsEvent
  rcases hc with hc | hc
  · rw [rawSample] at hc
    simp [hc, rawSample]
  · rw [hc, waitNewState] at hw'
    simp [hw', rawSample]

theorem poll_wait_change (env : Env) (hwf : env.hdr.WellFormed) (pins : Pins) (s : State)
    (hw : waitNewState env s = true) (hc : rawSample env pins s ≠ s.prevButtonState) :
    buttonsCheckButtonsEvent env pins false s =
      { state :=
          { clearStoredStates env
              { (buttonsRead env pins s).1 with
                mbuttons := (buttonsRead env pins s).1.mbuttons &&&
                  bnot32 env.hdr.BUTTON_WAIT_NEW_STATE }
              (rawSample env pins s) with
            prevButtonState := rawSample env pins s }
        buttons := rawSample env pins s
        event := EVENT_BUTTON_CHANGE } := by
  have hw' := buttonsRead_wait env hwf pins s
  have hp := buttonsRead_prev env hwf pins s
  rw [hw, waitNewState] at hw'
  unfold buttonsCheckButtonsEvent
  rw [rawSample] at hc
  simp [hw', hp, hc, rawSample]

theorem poll_wait_same (env : Env) (hwf : env.hdr.WellFormed) (pins : Pins) (s : State)
    (hw : waitNewState env s = true) (hc : rawSample env pins s = s.prevButtonState) :
    buttonsCheckButtonsEvent env pins false s =
      { state := (buttonsRead env pins s).1
        buttons := rawSample env pins s
        event := EVENT_BUTTON_NONE } := by
  have hw' := buttonsRead_wait env hwf pins s
  have hp := buttonsRead_prev env hwf pins s
  rw [hw, waitNewState] at hw'
  unfold buttonsCheckButtonsEvent
  rw [rawSample] at hc
  simp [hw', hp, hc, rawSample]


/-! ## From the views back to the vocabulary of the specification -/

theorem hasBits_buttonID (h : ButtonsHeader) (s : State) (mask : Nat) (b : MBUTTON_t) :
    hasBits mask (h.buttonID b) = (view h b (s, mask)).a := by
  rw [hasBits, ButtonsHeader.buttonID, and_bit_ne_zero]; rfl

theorem hasBits_buttonShortUp (h : ButtonsHeader) (s : State) (mask : Nat) (b : MBUTTON_t) :
    hasBits mask (h.buttonShortUp b) = (view h b (s, mask)).su := by
  rw [hasBits, ButtonsHeader.buttonShortUp, and_bit_ne_zero]; rfl

theorem hasBits_buttonLong (h : ButtonsHeader) (s : State) (mask : Nat) (b : MBUTTON_t) :
    hasBits mask (h.buttonLong b) = (view h b (s, mask)).lg := by
  rw [hasBits, ButtonsHeader.buttonLong, and_bit_ne_zero]; rfl

theorem hasBits_buttonExtraLong (h : ButtonsHeader) (s : State) (mask : Nat) (b : MBUTTON_t) :
    hasBits mask (h.buttonExtraLong b) = (view h b (s, mask)).xl := by
  rw [hasBits, ButtonsHeader.buttonExtraLong, and_bit_ne_zero]; rfl

theorem isMButtonPressed_view (h : ButtonsHeader) (s : State) (mask : Nat) (b : MBUTTON_t) :
    isMButtonPressed s b = (view h b (s, mask)).P := isMButtonPressed_eq s b

theorem isMButtonLong_view (h : ButtonsHeader) (s : State) (mask : Nat) (b : MBUTTON_t) :
    isMButtonLong s b = (view h b (s, mask)).L := isMButtonLong_eq s b

theorem isMButtonExtraLong_view (h : ButtonsHeader) (s : State) (mask : Nat) (b : MBUTTON_t) :
    isMButtonExtraLong s b = (view h b (s, mask)).X := isMButtonExtraLong_eq s b

theorem timer_view (h : ButtonsHeader) (s : State) (mask : Nat) (b : MBUTTON_t) :
    s.timer_mbuttons b = (view h b (s, mask)).t := rfl

theorem view0_eq (h : ButtonsHeader) (s : State) (b : MBUTTON_t) :
    view0 h b s = ⟨false, false, false, false, isMButtonPressed s b, isMButtonLong s b,
      isMButtonExtraLong s b, s.timer_mbuttons b⟩ := by
  simp [view0, view, BUTTON_NONE, isMButtonPressed_eq, isMButtonLong_eq, isMButtonExtraLong_eq]

theorem view_buttonsRead (env : Env) (hwf : env.hdr.WellFormed) (pins : Pins) (s : State)
    (b : MBUTTON_t) :
    view env.hdr b (buttonsRead env pins s) =
      if hasBits (rawSample env pins s) (env.hdr.buttonID b) then
        localArm env { view0 env.hdr b s with a := true }
      else view0 env.hdr b s := by
  rw [(buttonsRead_inv env hwf pins s).1 b, hasBits, ButtonsHeader.buttonID, and_bit_ne_zero,
    rawSample]

/-- The view of a handled button after a poll that takes the path through `checkMButtons`. -/
theorem view_poll_normal (env : Env) (hwf : env.hdr.WellFormed) (pins : Pins)
    (keyIsDown : Bool) (s : State) (b : MBUTTON_t) (hb : env.plat.handles b = true)
    (hw : waitNewState env s = false)
    (hk : keyIsDown = false ∨ rawSample env pins s = BUTTON_NONE) :
    view env.hdr b ((buttonsCheckButtonsEvent env pins keyIsDown s).state,
        (buttonsCheckButtonsEvent env pins keyIsDown s).buttons) =
      localCheck env
        (if hasBits (rawSample env pins s) (env.hdr.buttonID b) then
          localArm env { view0 env.hdr b s with a := true }
        else view0 env.hdr b s) := by
  rw [poll_normal env hwf pins keyIsDown s hw hk, view_checkEveryButton env hwf, hb,
    view_buttonsRead env hwf]
  rfl

/-- A poll either runs `checkMButtons` for every button or returns the raw sample. -/
theorem poll_cases (env : Env) (hwf : env.hdr.WellFormed) (pins : Pins) (keyIsDown : Bool)
    (s : State) :
    (waitNewState env s = false ∧ (keyIsDown = false ∨ rawSample env pins s = BUTTON_NONE)) ∨
      (buttonsCheckButtonsEvent env pins keyIsDown s).buttons = rawSample env pins s := by
  cases hw : waitNewState env s
  · cases keyIsDown
    · exact Or.inl ⟨rfl, Or.inl rfl⟩
    · by_cases hr : rawSample env pins s = BUTTON_NONE
      · exact Or.inl ⟨rfl, Or.inr hr⟩
      · right; rw [poll_key env hwf pins s (Or.inl hr)]
  · right
    cases keyIsDown
    · by_cases hc : rawSample env pins s = s.prevButtonState
      · rw [poll_wait_same env hwf pins s hw hc]
      · rw [poll_wait_change env hwf pins s hw hc]
    · rw [poll_key env hwf pins s (Or.inr hw)]

theorem view_raw (env : Env) (hwf : env.hdr.WellFormed) (pins : Pins) (s s' : State)
    (b : MBUTTON_t) :
    (view env.hdr b (s', rawSample env pins s)).su = false ∧
    (view env.hdr b (s', rawSample env pins s)).lg = false ∧
    (view env.hdr b (s', rawSample env pins s)).xl = false := by
  have h := view_buttonsRead env hwf pins s b
  have e1 : (view env.hdr b (s', rawSample env pins s)).su =
      (view env.hdr b (buttonsRead env pins s)).su := rfl
  have e2 : (view env.hdr b (s', rawSample env pins s)).lg =
      (view env.hdr b (buttonsRead env pins s)).lg := rfl
  have e3 : (view env.hdr b (s', rawSample env pins s)).xl =
      (view env.hdr b (buttonsRead env pins s)).xl := rfl
  rw [e1, e2, e3, h, view0_eq]
  simp only [localArm, localSet]
  split_ifs <;> exact ⟨rfl, rfl, rfl⟩



/-! ## Facts about every poll -/

/-- After every poll the stored previous mask is the returned mask. -/
theorem poll_prev (env : Env) (hwf : env.hdr.WellFormed) (pins : Pins) (keyIsDown : Bool)
    (s : State) :
    (buttonsCheckButtonsEvent env pins keyIsDown s).state.prevButtonState =
      (buttonsCheckButtonsEvent env pins keyIsDown s).buttons := by
  cases hw : waitNewState env s
  · cases keyIsDown
    · rw [poll_normal env hwf pins false s hw (Or.inl rfl)]
      exact checkEveryButton_prev env _
    · by_cases hr : rawSample env pins s = BUTTON_NONE
      · rw [poll_normal env hwf pins true s hw (Or.inr hr)]
        exact checkEveryButton_prev env _
      · rw [poll_key env hwf pins s (Or.inl hr)]
  · cases keyIsDown
    · by_cases hc : rawSample env pins s = s.prevButtonState
      · rw [poll_wait_same env hwf pins s hw hc]
        exact (buttonsRead_prev env hwf pins s).trans hc.symm
      · rw [poll_wait_change env hwf pins s hw hc]
    · rw [poll_key env hwf pins s (Or.inr hw)]

theorem snd_ite (c : Prop) [Decidable c] (x y x' y' : State × Nat) (hx : x.2 = x'.2)
    (hy : y.2 = y'.2) : (if c then x else y).2 = (if c then x' else y').2 := by
  split_ifs
  · exact hx
  · exact hy

theorem snd_readButton (env : Env) (r r' : State × Nat) (b : MBUTTON_t) (id : Nat)
    (h : r.2 = r'.2) : (readButton env r b id).2 = (readButton env r' b id).2 :=
  congrArg (fun x => x ||| id) h

theorem snd_or (s s' : State) (x x' p : Nat) (h : x = x') :
    ((s, x ||| p) : State × Nat).2 = ((s', x' ||| p) : State × Nat).2 :=
  congrArg (fun x => x ||| p) h

/-- The mask `buttonsRead` returns depends on the lines only, not on the state. -/
theorem rawSample_indep (env : Env) (pins : Pins) (s s' : State) :
    rawSample env pins s = rawSample env pins s' := by
  have i0 : ((s, BUTTON_NONE) : State × Nat).2 = ((s', BUTTON_NONE) : State × Nat).2 := rfl
  unfold rawSample buttonsRead
  refine snd_ite _ _ _ _ _ (snd_or _ _ _ _ _ ?_) ?_ <;>
  · refine snd_ite _ _ _ _ _ (snd_readButton env _ _ _ _ ?_) ?_ <;>
    · refine snd_ite _ _ _ _ _
        (snd_ite _ _ _ _ _ (snd_readButton env _ _ _ _ ?_) (snd_readButton env _ _ _ _ ?_)) ?_ <;>
      · exact snd_ite _ _ _ _ _
          (snd_ite _ _ _ _ _ (snd_readButton env _ _ _ _ i0)
            (snd_ite _ _ _ _ _ (snd_readButton env _ _ _ _ i0) (snd_readButton env _ _ _ _ i0)))
          i0

/-- On the path through `checkMButtons` the combo-wait flag stays clear. -/
theorem poll_normal_wait (env : Env) (hwf : env.hdr.WellFormed) (pins : Pins)
    (keyIsDown : Bool) (s : State) (hw : waitNewState env s = false)
    (hk : keyIsDown = false ∨ rawSample env pins s = BUTTON_NONE) :
    waitNewState env (buttonsCheckButtonsEvent env pins keyIsDown s).state = false := by
  rw [poll_normal env hwf pins keyIsDown s hw hk, waitNewState_eq_testBit,
    checkEveryButton_mbuttons, checkAllButtons_wait env hwf, ← waitNewState_eq_testBit,
    buttonsRead_wait env hwf, hw]

/-- After every poll, a handled button whose `LONG_DOWN` bit is in the stored previous mask
has its `MBUTTON_LONG` bit set. -/
theorem poll_prev_long (env : Env) (hwf : env.hdr.WellFormed) (pins : Pins)
    (keyIsDown : Bool) (s : State) (b : MBUTTON_t) (hb : env.plat.handles b = true)
    (hl : hasBits (buttonsCheckButtonsEvent env pins keyIsDown s).state.prevButtonState
      (env.hdr.buttonLong b) = true) :
    isMButtonLong (buttonsCheckButtonsEvent env pins keyIsDown s).state b = true := by
  rw [poll_prev env hwf] at hl
  rcases poll_cases env hwf pins keyIsDown s with ⟨hw, hk⟩ | hbut
  · have hv := view_poll_normal env hwf pins keyIsDown s b hb hw hk
    rw [hasBits_buttonLong env.hdr (buttonsCheckButtonsEvent env pins keyIsDown s).state,
      hv] at hl
    rw [isMButtonLong_view env.hdr _ (buttonsCheckButtonsEvent env pins keyIsDown s).buttons, hv]
    rw [view0_eq] at hl ⊢
    revert hl
    cases hasBits (rawSample env pins s) (env.hdr.buttonID b) <;>
    cases isMButtonPressed s b <;> cases isMButtonLong s b <;>
    cases isMButtonExtraLong s b <;>
    by_cases ht : s.timer_mbuttons b = 0 <;>
    by_cases ht0 : armValue env = 0 <;>
    simp [localCheck, localArm, localSet, ht, ht0]
  · rw [hbut, hasBits_buttonLong env.hdr s, (view_raw env hwf pins s s b).2.1] at hl
    exact absurd hl (by decide)

theorem withTimers_view (h : ButtonsHeader) (s : State) (t : MBUTTON_t → Nat) (b : MBUTTON_t) :
    view0 h b (withTimers s t) = { view0 h b s with t := t b } := rfl

/-! ## The claims -/

/-- C1, short press: if a handled modifier button is PressedShort with a non-zero countdown and
the combo-wait flag is clear, a poll with `keyIsDown = false` whose raw sample does not assert
the button returns its `SHORT_UP` bit and neither its `LONG_DOWN` nor its `EXTRA_LONG_DOWN`
bit, leaves the button Released with countdown 0, and the next poll (whatever it samples,
whatever `keyIsDown` is and whatever the countdowns have become) does not return the
`SHORT_UP` bit again. -/
theorem short_press_emits_one_shortUp (env : Env) (hwf : env.hdr.WellFormed) (b : MBUTTON_t)
    (hb : env.plat.handles b = true) (s : State) (pins : Pins)
    (hps : isPressedShort s b) (ht : s.timer_mbuttons b ≠ 0)
    (hw : waitNewState env s = false)
    (hraw : hasBits (rawSample env pins s) (env.hdr.buttonID b) = false) :
    hasBits (buttonsCheckButtonsEvent env pins false s).buttons (env.hdr.buttonShortUp b) = true ∧
    hasBits (buttonsCheckButtonsEvent env pins false s).buttons (env.hdr.buttonLong b) = false ∧
    hasBits (buttonsCheckButtonsEvent env pins false s).buttons (env.hdr.buttonExtraLong b)
      = false ∧
    isReleased (buttonsCheckButtonsEvent env pins false s).state b ∧
    (buttonsCheckButtonsEvent env pins false s).state.timer_mbuttons b = 0 ∧
    ∀ (pins' : Pins) (keyIsDown' : Bool) (t' : MBUTTON_t → Nat),
      hasBits (buttonsCheckButtonsEvent env pins' keyIsDown'
        (withTimers (buttonsCheckButtonsEvent env pins false s).state t')).buttons
        (env.hdr.buttonShortUp b) = false := by
  obtain ⟨hP, hL, hX⟩ := hps
  have hv := view_poll_normal env hwf pins false s b hb hw (Or.inl rfl)
  rw [hraw, view0_eq, hP, hL, hX] at hv
  have hv' : view env.hdr b ((buttonsCheckButtonsEvent env pins false s).state,
      (buttonsCheckButtonsEvent env pins false s).buttons) =
      ⟨false, true, false, false, false, false, false, 0⟩ := by
    rw [hv]; simp [localCheck, ht]
  have hrel : isReleased (buttonsCheckButtonsEvent env pins false s).state b := by
    rw [isReleased, isMButtonPressed_view env.hdr _ (buttonsCheckButtonsEvent env pins false s).buttons,
      isMButtonLong_view env.hdr _ (buttonsCheckButtonsEvent env pins false s).buttons,
      isMButtonExtraLong_view env.hdr _ (buttonsCheckButtonsEvent env pins false s).buttons, hv']
    exact ⟨rfl, rfl, rfl⟩
  refine ⟨?_, ?_, ?_, hrel, ?_, ?_⟩
  · rw [hasBits_buttonShortUp env.hdr (buttonsCheckButtonsEvent env pins false s).state, hv']
  · rw [hasBits_buttonLong env.hdr (buttonsCheckButtonsEvent env pins false s).state, hv']
  · rw [hasBits_buttonExtraLong env.hdr (buttonsCheckButtonsEvent env pins false s).state, hv']
  · rw [timer_view env.hdr _ (buttonsCheckButtonsEvent env pins false s).buttons, hv']
  · intro pins' kd' t'
    generalize hs1 : withTimers (buttonsCheckButtonsEvent env pins false s).state t' = s1
    have hrel1 : isReleased s1 b := by rw [← hs1]; exact hrel
    obtain ⟨hP1, hL1, hX1⟩ := hrel1
    rcases poll_cases env hwf pins' kd' s1 with ⟨hw1, hk1⟩ | hbut
    · have hv1 := view_poll_normal env hwf pins' kd' s1 b hb hw1 hk1
      rw [view0_eq, hP1, hL1, hX1] at hv1
      rw [hasBits_buttonShortUp env.hdr (buttonsCheckButtonsEvent env pins' kd' s1).state, hv1]
      cases hasBits (rawSample env pins' s1) (env.hdr.buttonID b) <;>
      by_cases ht0 : armValue env = 0 <;>
      simp [localCheck, localArm, localSet, ht0]
    · rw [hbut, hasBits_buttonShortUp env.hdr s1]
      exact (view_raw env hwf pins' s1 s1 b).1

/-- Witness of C1: side key 2 of an MD-UV380, pressed 10 ticks ago with a threshold of 100
ticks, is sampled released. -/
theorem short_press_emits_one_shortUp_witness :
    isPressedShort (mkState 32 64 0 0 90) MBUTTON_SK2 ∧
    (mkState 32 64 0 0 90).timer_mbuttons MBUTTON_SK2 ≠ 0 ∧
    waitNewState envUV380 (mkState 32 64 0 0 90) = false ∧
    hasBits (rawSample envUV380 pinsNone (mkState 32 64 0 0 90))
      (envUV380.hdr.buttonID MBUTTON_SK2) = false ∧
    hasBits (buttonsCheckButtonsEvent envUV380 pinsNone false (mkState 32 64 0 0 90)).buttons
      (envUV380.hdr.buttonShortUp MBUTTON_SK2) = true ∧
    isReleased (buttonsCheckButtonsEvent envUV380 pinsNone false (mkState 32 64 0 0 90)).state
      MBUTTON_SK2 ∧
    hasBits (buttonsCheckButtonsEvent envUV380 pinsNone false
      (withTimers (buttonsCheckButtonsEvent envUV380 pinsNone false (mkState 32 64 0 0 90)).state
        (fun _ => 0))).buttons (envUV380.hdr.buttonShortUp MBUTTON_SK2) = false :=
  have h := short_press_emits_one_shortUp envUV380 (by decide) MBUTTON_SK2 rfl
    (mkState 32 64 0 0 90) pinsNone (by decide) (by decide) (by decide) (by decide)
  ⟨by decide, by decide, by decide, by decide, h.1, h.2.2.2.1,
    h.2.2.2.2.2 pinsNone false (fun _ => 0)⟩


theorem poll_normal_event (env : Env) (hwf : env.hdr.WellFormed) (pins : Pins)
    (keyIsDown : Bool) (s : State) (hw : waitNewState env s = false)
    (hk : keyIsDown = false ∨ rawSample env pins s = BUTTON_NONE) :
    (buttonsCheckButtonsEvent env pins keyIsDown s).event =
      if (buttonsCheckButtonsEvent env pins keyIsDown s).buttons = s.prevButtonState then
        EVENT_BUTTON_NONE
      else EVENT_BUTTON_CHANGE := by
  rw [poll_normal env hwf pins keyIsDown s hw hk, checkEveryButton_event,
    checkEveryButton_buttons, buttonsRead_prev env hwf]

theorem hasBits_eq_testBit (mask j : Nat) : hasBits mask (1 <<< j) = mask.testBit j :=
  and_bit_ne_zero mask j

theorem longLevel_of_view (h : ButtonsHeader) (s : State) (mask : Nat) (b : MBUTTON_t)
    (ha : (view h b (s, mask)).a = true) (hl : (view h b (s, mask)).lg = true)
    (hs : (view h b (s, mask)).su = false) (hx : (view h b (s, mask)).xl = false) :
    LongLevel h mask b := by
  refine ⟨?_, ?_, ?_, ?_⟩
  · rw [hasBits_buttonID h s, ha]
  · rw [hasBits_buttonLong h s, hl]
  · rw [hasBits_buttonShortUp h s, hs]
  · rw [hasBits_buttonExtraLong h s, hx]

theorem isLong_of_view (h : ButtonsHeader) (s : State) (mask : Nat) (b : MBUTTON_t)
    (hP : (view h b (s, mask)).P = true) (hL : (view h b (s, mask)).L = true)
    (hX : (view h b (s, mask)).X = false) : isLong s b := by
  refine ⟨?_, ?_, ?_⟩
  · rw [isMButtonPressed_view h s mask, hP]
  · rw [isMButtonLong_view h s mask, hL]
  · rw [isMButtonExtraLong_view h s mask, hX]

/-- Two masks that agree on the four bits of a button and differ, differ at another bit. -/
theorem exists_other_bit (h : ButtonsHeader) (m m' : Nat) (b : MBUTTON_t)
    (h1 : LongLevel h m b) (h2 : LongLevel h m' b) (hne : m ≠ m') :
    ∃ i, i ≠ h.idBit b ∧ i ≠ h.shortUpBit b ∧ i ≠ h.longDownBit b ∧
      i ≠ h.extraLongDownBit b ∧ m.testBit i ≠ m'.testBit i := by
  by_contra hcon
  apply hne
  apply Nat.eq_of_testBit_eq
  intro i
  obtain ⟨a1, l1, s1, x1⟩ := h1
  obtain ⟨a2, l2, s2, x2⟩ := h2
  simp only [ButtonsHeader.buttonID, ButtonsHeader.buttonLong, ButtonsHeader.buttonShortUp,
    ButtonsHeader.buttonExtraLong, hasBits_eq_testBit] at a1 l1 s1 x1 a2 l2 s2 x2
  by_cases e1 : i = h.idBit b
  · rw [e1, a1, a2]
  by_cases e2 : i = h.shortUpBit b
  · rw [e2, s1, s2]
  by_cases e3 : i = h.longDownBit b
  · rw [e3, l1, l2]
  by_cases e4 : i = h.extraLongDownBit b
  · rw [e4, x1, x2]
  by_contra hi
  exact hcon ⟨i, e1, e2, e3, e4, hi⟩

/-- C3, the code at the failing input: an MD-UV380 with `keypadTimerLong = 1`. A fresh press
of side key 1 arms the countdown to 100 ticks; in `timeoutReached`, reached from
`buttonsInit` by that press and 100 ticks, the next poll takes the key from PressedShort to
Long and `checkMButtons` rearms the countdown to `((1 * 3) >> 1) * 100 = 100`, not to 150:
the shift is taken before the scaling by 100 and loses the half, so twice the rearmed value
is not three times the armed value. With `keypadTimerLong = 5` the rearmed value is 700,
not 750. -/
theorem rearm_not_one_and_a_half :
    (setMButtonsStateAndClearLong envUV380 (mkState 0 0 0 0 0) envUV380.hdr.BUTTON_SK1
      MBUTTON_SK1 envUV380.hdr.BUTTON_SK1).timer_mbuttons MBUTTON_SK1 = 100 ∧
    isPressedShort (mkState 2 8 0 0 0) MBUTTON_SK1 ∧
    (checkMButtons envUV380 (mkState 2 8 0 0 0, envUV380.hdr.BUTTON_SK1) MBUTTON_SK1
      envUV380.hdr.BUTTON_SK1 envUV380.hdr.BUTTON_SK1_SHORT_UP envUV380.hdr.BUTTON_SK1_LONG_DOWN
      envUV380.hdr.BUTTON_SK1_EXTRA_LONG_DOWN).1.timer_mbuttons MBUTTON_SK1 = 100 ∧
    isLong (checkMButtons envUV380 (mkState 2 8 0 0 0, envUV380.hdr.BUTTON_SK1) MBUTTON_SK1
      envUV380.hdr.BUTTON_SK1 envUV380.hdr.BUTTON_SK1_SHORT_UP envUV380.hdr.BUTTON_SK1_LONG_DOWN
      envUV380.hdr.BUTTON_SK1_EXTRA_LONG_DOWN).1 MBUTTON_SK1 ∧
    2 * rearmValue envUV380 ≠ 3 * armValue envUV380 ∧
    rearmValue envUV380 ≠ 150 ∧
    isPressedShort timeoutReached MBUTTON_SK1 ∧
    timeoutReached.timer_mbuttons MBUTTON_SK1 = 0 ∧
    waitNewState envUV380 timeoutReached = false ∧
    isLong (buttonsCheckButtonsEvent envUV380 pinsSK1 false timeoutReached).state
      MBUTTON_SK1 ∧
    (buttonsCheckButtonsEvent envUV380 pinsSK1 false timeoutReached).state.timer_mbuttons
      MBUTTON_SK1 = 100 ∧
    (buttonsCheckButtonsEvent envUV380 pinsSK1 false timeoutReached).state.timer_mbuttons
      MBUTTON_SK1 ≠ 150 ∧
    armValue { envUV380 with keypadTimerLong := 5 } = 500 ∧
    rearmValue { envUV380 with keypadTimerLong := 5 } = 700 := by
  decide


theorem isExtraLong_of_view (h : ButtonsHeader) (s : State) (mask : Nat) (b : MBUTTON_t)
    (hP : (view h b (s, mask)).P = true) (hL : (view h b (s, mask)).L = true)
    (hX : (view h b (s, mask)).X = true) : isExtraLong s b := by
  refine ⟨?_, ?_, ?_⟩
  · rw [isMButtonPressed_view h s mask, hP]
  · rw [isMButtonLong_view h s mask, hL]
  · rw [isMButtonExtraLong_view h s mask, hX]

theorem isReleased_of_view (h : ButtonsHeader) (s : State) (mask : Nat) (b : MBUTTON_t)
    (hP : (view h b (s, mask)).P = false) (hL : (view h b (s, mask)).L = false)
    (hX : (view h b (s, mask)).X = false) : isReleased s b := by
  refine ⟨?_, ?_, ?_⟩
  · rw [isMButtonPressed_view h s mask, hP]
  · rw [isMButtonLong_view h s mask, hL]
  · rw [isMButtonExtraLong_view h s mask, hX]

/-- C4, extra-long press: with `keyIsDown = false`, the combo-wait flag clear and a handled
modifier button asserted in the raw sample, (a) if the button is Long with countdown 0, or
(b) if it is ExtraLong, whatever its countdown, the poll leaves it ExtraLong and returns its
`EXTRA_LONG_DOWN` bit set and its `LONG_DOWN` bit clear. -/
theorem extra_long_press (env : Env) (hwf : env.hdr.WellFormed) (b : MBUTTON_t)
    (hb : env.plat.handles b = true) (s : State) (pins : Pins)
    (hw : waitNewState env s = false)
    (hraw : hasBits (rawSample env pins s) (env.hdr.buttonID b) = true)
    (hph : (isLong s b ∧ s.timer_mbuttons b = 0) ∨ isExtraLong s b) :
    isExtraLong (buttonsCheckButtonsEvent env pins false s).state b ∧
    hasBits (buttonsCheckButtonsEvent env pins false s).buttons (env.hdr.buttonExtraLong b)
      = true ∧
    hasBits (buttonsCheckButtonsEvent env pins false s).buttons (env.hdr.buttonLong b)
      = false := by
  have hv := view_poll_normal env hwf pins false s b hb hw (Or.inl rfl)
  rw [hraw, view0_eq] at hv
  have hv' : (view env.hdr b ((buttonsCheckButtonsEvent env pins false s).state,
      (buttonsCheckButtonsEvent env pins false s).buttons)).P = true ∧
      (view env.hdr b ((buttonsCheckButtonsEvent env pins false s).state,
      (buttonsCheckButtonsEvent env pins false s).buttons)).L = true ∧
      (view env.hdr b ((buttonsCheckButtonsEvent env pins false s).state,
      (buttonsCheckButtonsEvent env pins false s).buttons)).X = true ∧
      (view env.hdr b ((buttonsCheckButtonsEvent env pins false s).state,
      (buttonsCheckButtonsEvent env pins false s).buttons)).xl = true ∧
      (view env.hdr b ((buttonsCheckButtonsEvent env pins false s).state,
      (buttonsCheckButtonsEvent env pins false s).buttons)).lg = false := by
    rw [hv]
    rcases hph with ⟨⟨hP, hL, hX⟩, ht⟩ | ⟨hP, hL, hX⟩
    · rw [hP, hL, hX, ht]; simp [localCheck, localArm]
    · rw [hP, hL, hX]; simp [localCheck, localArm]
  obtain ⟨hP, hL, hX, hxl, hlg⟩ := hv'
  refine ⟨isExtraLong_of_view env.hdr _ _ b hP hL hX, ?_, ?_⟩
  · rw [hasBits_buttonExtraLong env.hdr (buttonsCheckButtonsEvent env pins false s).state, hxl]
  · rw [hasBits_buttonLong env.hdr (buttonsCheckButtonsEvent env pins false s).state, hlg]

/-- Witness of C4: side key 1 of an MD-UV380, Long with countdown 0 and still asserted. -/
theorem extra_long_press_witness :
    waitNewState envUV380 (mkState 10 24 0 0 0) = false ∧
    hasBits (rawSample envUV380 pinsSK1 (mkState 10 24 0 0 0))
      (envUV380.hdr.buttonID MBUTTON_SK1) = true ∧
    isLong (mkState 10 24 0 0 0) MBUTTON_SK1 ∧
    isExtraLong (buttonsCheckButtonsEvent envUV380 pinsSK1 false (mkState 10 24 0 0 0)).state
      MBUTTON_SK1 ∧
    (buttonsCheckButtonsEvent envUV380 pinsSK1 false (mkState 10 24 0 0 0)).buttons = 18 :=
  have h := extra_long_press envUV380 (by decide) MBUTTON_SK1 rfl (mkState 10 24 0 0 0) pinsSK1
    (by decide) (by decide) (Or.inl ⟨by decide, by decide⟩)
  ⟨by decide, by decide, by decide, h.1, by decide⟩

/-- C5, the code at the failing input: side key 1 of an MD-UV380 is PressedShort with
countdown 0 (the threshold was reached after the last poll) and is sampled released, with
`keyIsDown = false` and the combo-wait flag clear. No branch of `checkMButtons` matches: the
poll leaves the button PressedShort, not Released, returns an empty mask, and the next poll
that samples the button asserted again reports `LONG_DOWN` at once. -/
theorem release_at_timeout_stays_pressed :
    isPressedShort (mkState 2 8 0 0 0) MBUTTON_SK1 ∧
    (mkState 2 8 0 0 0).timer_mbuttons MBUTTON_SK1 = 0 ∧
    waitNewState envUV380 (mkState 2 8 0 0 0) = false ∧
    hasBits (rawSample envUV380 pinsNone (mkState 2 8 0 0 0))
      (envUV380.hdr.buttonID MBUTTON_SK1) = false ∧
    ¬ isReleased (buttonsCheckButtonsEvent envUV380 pinsNone false (mkState 2 8 0 0 0)).state
      MBUTTON_SK1 ∧
    isPressedShort (buttonsCheckButtonsEvent envUV380 pinsNone false (mkState 2 8 0 0 0)).state
      MBUTTON_SK1 ∧
    (buttonsCheckButtonsEvent envUV380 pinsNone false (mkState 2 8 0 0 0)).buttons = BUTTON_NONE ∧
    hasBits (buttonsCheckButtonsEvent envUV380 pinsSK1 false
      (buttonsCheckButtonsEvent envUV380 pinsNone false (mkState 2 8 0 0 0)).state).buttons
      (envUV380.hdr.buttonLong MBUTTON_SK1) = true := by
  decide

/-- C6, long / extra-long release emits no short press: if a handled modifier button is Long
or ExtraLong, a poll with `keyIsDown = false` and the combo-wait flag clear whose raw sample
does not assert the button leaves it Released and returns none of its `SHORT_UP`,
`LONG_DOWN` and `EXTRA_LONG_DOWN` bits. -/
theorem long_release_emits_nothing (env : Env) (hwf : env.hdr.WellFormed) (b : MBUTTON_t)
    (hb : env.plat.handles b = true) (s : State) (pins : Pins)
    (hw : waitNewState env s = false)
    (hraw : hasBits (rawSample env pins s) (env.hdr.buttonID b) = false)
    (hph : isLong s b ∨ isExtraLong s b) :
    isReleased (buttonsCheckButtonsEvent env pins false s).state b ∧
    hasBits (buttonsCheckButtonsEvent env pins false s).buttons (env.hdr.buttonShortUp b)
      = false ∧
    hasBits (buttonsCheckButtonsEvent env pins false s).buttons (env.hdr.buttonLong b)
      = false ∧
    hasBits (buttonsCheckButtonsEvent env pins false s).buttons (env.hdr.buttonExtraLong b)
      = false := by
  have hv := view_poll_normal env hwf pins false s b hb hw (Or.inl rfl)
  rw [hraw, view0_eq] at hv
  have hv' : view env.hdr b ((buttonsCheckButtonsEvent env pins false s).state,
      (buttonsCheckButtonsEvent env pins false s).buttons) =
      ⟨false, false, false, false, false, false, false, s.timer_mbuttons b⟩ := by
    rw [hv]
    rcases hph with ⟨hP, hL, hX⟩ | ⟨hP, hL, hX⟩ <;>
    · rw [hP, hL, hX]; simp [localCheck]
  refine ⟨isReleased_of_view env.hdr _ (buttonsCheckButtonsEvent env pins false s).buttons b
    (by rw [hv']) (by rw [hv']) (by rw [hv']), ?_, ?_, ?_⟩
  · rw [hasBits_buttonShortUp env.hdr (buttonsCheckButtonsEvent env pins false s).state, hv']
  · rw [hasBits_buttonLong env.hdr (buttonsCheckButtonsEvent env pins false s).state, hv']
  · rw [hasBits_buttonExtraLong env.hdr (buttonsCheckButtonsEvent env pins false s).state, hv']

/-- Witness of C6: side key 2 of an MD-UV380, ExtraLong, is sampled released. -/
theorem long_release_emits_nothing_witness :
    waitNewState envUV380 (mkState 288 448 0 0 0) = false ∧
    hasBits (rawSample envUV380 pinsNone (mkState 288 448 0 0 0))
      (envUV380.hdr.buttonID MBUTTON_SK2) = false ∧
    isExtraLong (mkState 288 448 0 0 0) MBUTTON_SK2 ∧
    isReleased (buttonsCheckButtonsEvent envUV380 pinsNone false (mkState 288 448 0 0 0)).state
      MBUTTON_SK2 ∧
    (buttonsCheckButtonsEvent envUV380 pinsNone false (mkState 288 448 0 0 0)).buttons = 0 :=
  have h := long_release_emits_nothing envUV380 (by decide) MBUTTON_SK2 rfl
    (mkState 288 448 0 0 0) pinsNone (by decide) (by decide) (Or.inr (by decide))
  ⟨by decide, by decide, by decide, h.1, by decide⟩


theorem hasBits_zero (bits : Nat) : hasBits BUTTON_NONE bits = false := by
  simp [hasBits, BUTTON_NONE]

/-- The state of the combo-key path of `buttonsCheckButtonsEvent`, seen from one button. -/
theorem view_poll_key (env : Env) (hwf : env.hdr.WellFormed) (pins : Pins) (s : State)
    (b : MBUTTON_t) (hb : env.plat.handles b = true)
    (hc : rawSample env pins s ≠ BUTTON_NONE ∨ waitNewState env s = true) :
    view env.hdr b ((buttonsCheckButtonsEvent env pins true s).state,
        (buttonsCheckButtonsEvent env pins true s).buttons) =
      localSet env (view env.hdr b (buttonsRead env pins s)) := by
  rw [poll_key env hwf pins s hc]
  have e := view_clearStoredStates env
    { (buttonsRead env pins s).1 with
      mbuttons := (buttonsRead env pins s).1.mbuttons ||| env.hdr.BUTTON_WAIT_NEW_STATE }
    (rawSample env pins s) b
  rw [hb, if_pos rfl] at e
  have hlt := hwf.bitAt_lt 13
  have hge := hwf.wait_ge
  have e0 : ¬ b.toNat * 3 = env.hdr.bitAt 13 := by
    cases b <;> simp [MBUTTON_t.toNat] <;> omega
  have e1 : ¬ b.toNat * 3 + 1 = env.hdr.bitAt 13 := by
    cases b <;> simp [MBUTTON_t.toNat] <;> omega
  have e2 : ¬ b.toNat * 3 + 2 = env.hdr.bitAt 13 := by
    cases b <;> simp [MBUTTON_t.toNat] <;> omega
  have e' : view env.hdr b
      ({ (buttonsRead env pins s).1 with
        mbuttons := (buttonsRead env pins s).1.mbuttons ||| env.hdr.BUTTON_WAIT_NEW_STATE },
        rawSample env pins s) = view env.hdr b (buttonsRead env pins s) := by
    simp [view, rawSample, ButtonsHeader.BUTTON_WAIT_NEW_STATE, ButtonsHeader.waitNewState_eq,
      testBit_bit, e0, e1, e2, -Nat.testBit_shiftLeft]
  rw [e'] at e
  rw [← e]
  rfl

/-- The state of the resynchronising path of `buttonsCheckButtonsEvent`, seen from one
button. -/
theorem view_poll_wait_change (env : Env) (hwf : env.hdr.WellFormed) (pins : Pins) (s : State)
    (b : MBUTTON_t) (hb : env.plat.handles b = true)
    (hw : waitNewState env s = true) (hc : rawSample env pins s ≠ s.prevButtonState) :
    view env.hdr b ((buttonsCheckButtonsEvent env pins false s).state,
        (buttonsCheckButtonsEvent env pins false s).buttons) =
      localSet env (view env.hdr b (buttonsRead env pins s)) := by
  rw [poll_wait_change env hwf pins s hw hc]
  have e := view_clearStoredStates env
    { (buttonsRead env pins s).1 with
      mbuttons := (buttonsRead env pins s).1.mbuttons &&& bnot32 env.hdr.BUTTON_WAIT_NEW_STATE }
    (rawSample env pins s) b
  rw [hb, if_pos rfl] at e
  have hlt := hwf.bitAt_lt 13
  have hge := hwf.wait_ge
  have h2 := toNat_lt b
  have e0 : ¬ b.toNat * 3 = env.hdr.bitAt 13 := by
    cases b <;> simp [MBUTTON_t.toNat] <;> omega
  have e1 : ¬ b.toNat * 3 + 1 = env.hdr.bitAt 13 := by
    cases b <;> simp [MBUTTON_t.toNat] <;> omega
  have e2 : ¬ b.toNat * 3 + 2 = env.hdr.bitAt 13 := by
    cases b <;> simp [MBUTTON_t.toNat] <;> omega
  have g1 : b.toNat * 3 + 1 < 32 := by omega
  have g0 : b.toNat * 3 < 32 := by omega
  have e' : view env.hdr b
      ({ (buttonsRead env pins s).1 with
        mbuttons := (buttonsRead env pins s).1.mbuttons &&&
          bnot32 env.hdr.BUTTON_WAIT_NEW_STATE },
        rawSample env pins s) = view env.hdr b (buttonsRead env pins s) := by
    simp [view, rawSample, ButtonsHeader.BUTTON_WAIT_NEW_STATE, ButtonsHeader.waitNewState_eq,
      testBit_bit, testBit_bnot32_bit, hlt, e0, e1, e2, g0, g1, h2, -Nat.testBit_shiftLeft]
  rw [e'] at e
  rw [← e]
  rfl

theorem poll_key_wait (env : Env) (hwf : env.hdr.WellFormed) (pins : Pins) (s : State)
    (hc : rawSample env pins s ≠ BUTTON_NONE ∨ waitNewState env s = true) :
    waitNewState env (buttonsCheckButtonsEvent env pins true s).state = true := by
  rw [poll_key env hwf pins s hc, waitNewState_eq_testBit]
  show (clearStoredStates env _ _).mbuttons.testBit _ = true
  rw [clearStoredStates_wait env hwf]
  simp [ButtonsHeader.BUTTON_WAIT_NEW_STATE, testBit_bit, -Nat.testBit_shiftLeft]

theorem poll_wait_change_wait (env : Env) (hwf : env.hdr.WellFormed) (pins : Pins) (s : State)
    (hw : waitNewState env s = true) (hc : rawSample env pins s ≠ s.prevButtonState) :
    waitNewState env (buttonsCheckButtonsEvent env pins false s).state = false := by
  rw [poll_wait_change env hwf pins s hw hc, waitNewState_eq_testBit]
  show (clearStoredStates env _ _).mbuttons.testBit _ = false
  rw [clearStoredStates_wait env hwf]
  have hlt : env.hdr.waitNewState < 32 := hwf.bitAt_lt 13
  simp [ButtonsHeader.BUTTON_WAIT_NEW_STATE, testBit_bnot32_bit, hlt, -Nat.testBit_shiftLeft]

theorem raw_ne_none_of_hasBits (raw bits : Nat) (h : hasBits raw bits = true) :
    raw ≠ BUTTON_NONE := by
  intro e
  rw [e, hasBits_zero] at h
  exact absurd h (by decide)

/-- C7, combo suppression: a poll with `keyIsDown = true` whose raw sample asserts a modifier
button returns `EVENT_BUTTON_NONE` and exactly the raw mask, which holds no `SHORT_UP`,
`LONG_DOWN` or `EXTRA_LONG_DOWN` bit, sets the combo-wait flag, and leaves no handled
modifier button Long or ExtraLong, from every state and for every value of the countdowns:
each handled button is left with `MBUTTON_LONG` and `MBUTTON_EXTRA_LONG` clear and
`MBUTTON_PRESSED` equal to its bit of the raw sample. -/
theorem combo_suppression (env : Env) (hwf : env.hdr.WellFormed) (s : State) (pins : Pins)
    (b0 : MBUTTON_t) (hraw : hasBits (rawSample env pins s) (env.hdr.buttonID b0) = true) :
    (buttonsCheckButtonsEvent env pins true s).event = EVENT_BUTTON_NONE ∧
    (buttonsCheckButtonsEvent env pins true s).buttons = rawSample env pins s ∧
    (∀ b, hasBits (buttonsCheckButtonsEvent env pins true s).buttons (env.hdr.buttonShortUp b)
        = false ∧
      hasBits (buttonsCheckButtonsEvent env pins true s).buttons (env.hdr.buttonLong b)
        = false ∧
      hasBits (buttonsCheckButtonsEvent env pins true s).buttons (env.hdr.buttonExtraLong b)
        = false) ∧
    waitNewState env (buttonsCheckButtonsEvent env pins true s).state = true ∧
    ∀ b, env.plat.handles b = true →
      isMButtonLong (buttonsCheckButtonsEvent env pins true s).state b = false ∧
      isMButtonExtraLong (buttonsCheckButtonsEvent env pins true s).state b = false ∧
      isMButtonPressed (buttonsCheckButtonsEvent env pins true s).state b =
        hasBits (rawSample env pins s) (env.hdr.buttonID b) ∧
      ¬ isLong (buttonsCheckButtonsEvent env pins true s).state b ∧
      ¬ isExtraLong (buttonsCheckButtonsEvent env pins true s).state b := by
  have hc : rawSample env pins s ≠ BUTTON_NONE ∨ waitNewState env s = true :=
    Or.inl (raw_ne_none_of_hasBits _ _ hraw)
  have hbut : (buttonsCheckButtonsEvent env pins true s).buttons = rawSample env pins s := by
    rw [poll_key env hwf pins s hc]
  refine ⟨?_, hbut, ?_, poll_key_wait env hwf pins s hc, ?_⟩
  · rw [poll_key env hwf pins s hc]
  · intro b
    rw [hbut, hasBits_buttonShortUp env.hdr s, hasBits_buttonLong env.hdr s,
      hasBits_buttonExtraLong env.hdr s]
    exact view_raw env hwf pins s s b
  · intro b hb
    have hv := view_poll_key env hwf pins s b hb hc
    have hL : isMButtonLong (buttonsCheckButtonsEvent env pins true s).state b = false := by
      rw [isMButtonLong_view env.hdr _ (buttonsCheckButtonsEvent env pins true s).buttons, hv]
      rfl
    have hX : isMButtonExtraLong (buttonsCheckButtonsEvent env pins true s).state b = false := by
      rw [isMButtonExtraLong_view env.hdr _ (buttonsCheckButtonsEvent env pins true s).buttons,
        hv]
      rfl
    refine ⟨hL, hX, ?_, ?_, ?_⟩
    · rw [isMButtonPressed_view env.hdr _ (buttonsCheckButtonsEvent env pins true s).buttons, hv,
        hasBits_buttonID env.hdr (buttonsRead env pins s).1]
      rfl
    · intro h
      rw [h.2.1] at hL
      exact absurd hL (by decide)
    · intro h
      rw [h.2.1] at hL
      exact absurd hL (by decide)

/-- Witness of C7: side key 1 of an MD-UV380, ExtraLong with countdown 0, and a keypad key
down. -/
theorem combo_suppression_witness :
    hasBits (rawSample envUV380 pinsSK1 (mkState 18 56 0 0 0))
      (envUV380.hdr.buttonID MBUTTON_SK1) = true ∧
    isExtraLong (mkState 18 56 0 0 0) MBUTTON_SK1 ∧
    (buttonsCheckButtonsEvent envUV380 pinsSK1 true (mkState 18 56 0 0 0)).event
      = EVENT_BUTTON_NONE ∧
    (buttonsCheckButtonsEvent envUV380 pinsSK1 true (mkState 18 56 0 0 0)).buttons = 2 ∧
    waitNewState envUV380
      (buttonsCheckButtonsEvent envUV380 pinsSK1 true (mkState 18 56 0 0 0)).state = true ∧
    isMButtonLong (buttonsCheckButtonsEvent envUV380 pinsSK1 true (mkState 18 56 0 0 0)).state
      MBUTTON_SK1 = false :=
  have h := combo_suppression envUV380 (by decide) (mkState 18 56 0 0 0) pinsSK1 MBUTTON_SK1
    (by decide)
  ⟨by decide, by decide, h.1, by decide, h.2.2.2.1, (h.2.2.2.2 MBUTTON_SK1 rfl).1⟩


/-- C8, combo-wait flag lifetime: a poll entered with the combo-wait flag set leaves it clear
if and only if `keyIsDown` is false and the raw sample differs from the stored previous
mask; in that case the event is `EVENT_BUTTON_CHANGE`, in every other case the event is
`EVENT_BUTTON_NONE` and the flag stays set. A poll entered with the flag clear and
`keyIsDown = false` leaves it clear. -/
theorem wait_flag_lifetime (env : Env) (hwf : env.hdr.WellFormed) (s : State) (pins : Pins)
    (keyIsDown : Bool) :
    (waitNewState env s = true →
      (waitNewState env (buttonsCheckButtonsEvent env pins keyIsDown s).state = false ↔
        (keyIsDown = false ∧ rawSample env pins s ≠ s.prevButtonState)) ∧
      ((keyIsDown = false ∧ rawSample env pins s ≠ s.prevButtonState) →
        (buttonsCheckButtonsEvent env pins keyIsDown s).event = EVENT_BUTTON_CHANGE) ∧
      (¬ (keyIsDown = false ∧ rawSample env pins s ≠ s.prevButtonState) →
        (buttonsCheckButtonsEvent env pins keyIsDown s).event = EVENT_BUTTON_NONE ∧
        waitNewState env (buttonsCheckButtonsEvent env pins keyIsDown s).state = true)) ∧
    (waitNewState env s = false → keyIsDown = false →
      waitNewState env (buttonsCheckButtonsEvent env pins keyIsDown s).state = false) := by
  constructor
  · intro hw
    cases keyIsDown
    · by_cases hc : rawSample env pins s = s.prevButtonState
      · have hst : waitNewState env (buttonsCheckButtonsEvent env pins false s).state = true := by
          rw [poll_wait_same env hwf pins s hw hc]
          exact (buttonsRead_wait env hwf pins s).trans hw
        have hev : (buttonsCheckButtonsEvent env pins false s).event = EVENT_BUTTON_NONE := by
          rw [poll_wait_same env hwf pins s hw hc]
        refine ⟨⟨fun h => ?_, fun h => absurd hc h.2⟩, fun h => absurd hc h.2,
          fun _ => ⟨hev, hst⟩⟩
        rw [hst] at h
        exact absurd h (by decide)
      · have hst := poll_wait_change_wait env hwf pins s hw hc
        have hev : (buttonsCheckButtonsEvent env pins false s).event = EVENT_BUTTON_CHANGE := by
          rw [poll_wait_change env hwf pins s hw hc]
        exact ⟨⟨fun _ => ⟨rfl, hc⟩, fun _ => hst⟩, fun _ => hev, fun h => absurd ⟨rfl, hc⟩ h⟩
    · have hst := poll_key_wait env hwf pins s (Or.inr hw)
      have hev : (buttonsCheckButtonsEvent env pins true s).event = EVENT_BUTTON_NONE := by
        rw [poll_key env hwf pins s (Or.inr hw)]
      refine ⟨⟨fun h => ?_, fun h => absurd h.1 (by decide)⟩, fun h => absurd h.1 (by decide),
        fun _ => ⟨hev, hst⟩⟩
      rw [hst] at h
      exact absurd h (by decide)
  · intro hw hk
    exact poll_normal_wait env hwf pins keyIsDown s hw (Or.inl hk)

/-- Witness of C8: an MD-UV380 with the combo-wait flag set after side key 2 was used as a
modifier; side key 2 is then sampled released with no keypad key down. -/
theorem wait_flag_lifetime_witness :
    waitNewState envUV380 (mkState 32 8256 0 0 100) = true ∧
    rawSample envUV380 pinsNone (mkState 32 8256 0 0 100) ≠
      (mkState 32 8256 0 0 100).prevButtonState ∧
    waitNewState envUV380
      (buttonsCheckButtonsEvent envUV380 pinsNone false (mkState 32 8256 0 0 100)).state = false ∧
    (buttonsCheckButtonsEvent envUV380 pinsNone false (mkState 32 8256 0 0 100)).event
      = EVENT_BUTTON_CHANGE :=
  have h := (wait_flag_lifetime envUV380 (by decide) (mkState 32 8256 0 0 100) pinsNone
    false).1 (by decide)
  ⟨by decide, by decide, h.1.mpr ⟨rfl, by decide⟩, h.2.1 ⟨rfl, by decide⟩⟩

/-- C10, event and previous-mask contract: on the path through `checkMButtons` (combo-wait
flag clear and either the raw mask empty or `keyIsDown = false`) the event is
`EVENT_BUTTON_CHANGE` if and only if the returned mask differs from the previously stored
mask, and `EVENT_BUTTON_NONE` otherwise; after every poll, on every path, the stored previous
mask is the returned mask. -/
theorem event_and_previous_mask (env : Env) (hwf : env.hdr.WellFormed) (s : State)
    (pins : Pins) (keyIsDown : Bool) :
    (waitNewState env s = false ∧
        (rawSample env pins s = BUTTON_NONE ∨ keyIsDown = false) →
      ((buttonsCheckButtonsEvent env pins keyIsDown s).event = EVENT_BUTTON_CHANGE ↔
        (buttonsCheckButtonsEvent env pins keyIsDown s).buttons ≠ s.prevButtonState) ∧
      ((buttonsCheckButtonsEvent env pins keyIsDown s).event = EVENT_BUTTON_NONE ↔
        (buttonsCheckButtonsEvent env pins keyIsDown s).buttons = s.prevButtonState)) ∧
    (buttonsCheckButtonsEvent env pins keyIsDown s).state.prevButtonState =
      (buttonsCheckButtonsEvent env pins keyIsDown s).buttons := by
  refine ⟨?_, poll_prev env hwf pins keyIsDown s⟩
  rintro ⟨hw, hk⟩
  have hev := poll_normal_event env hwf pins keyIsDown s hw hk.symm
  by_cases hc : (buttonsCheckButtonsEvent env pins keyIsDown s).buttons = s.prevButtonState
  · rw [if_pos hc] at hev
    rw [hev]
    exact ⟨⟨fun h => absurd h (by decide), fun h => absurd hc h⟩, ⟨fun _ => hc, fun _ => rfl⟩⟩
  · rw [if_neg hc] at hev
    rw [hev]
    exact ⟨⟨fun _ => hc, fun _ => rfl⟩, ⟨fun h => absurd h (by decide), fun h => absurd h hc⟩⟩

/-- Witness of C10: the first poll of an MD-UV380 after `buttonsInit` that samples side
key 1. -/
theorem event_and_previous_mask_witness :
    waitNewState envUV380 (buttonsInit (mkState 7 7 0 0 0)) = false ∧
    (buttonsCheckButtonsEvent envUV380 pinsSK1 false (buttonsInit (mkState 7 7 0 0 0))).buttons
      ≠ (buttonsInit (mkState 7 7 0 0 0)).prevButtonState ∧
    (buttonsCheckButtonsEvent envUV380 pinsSK1 false (buttonsInit (mkState 7 7 0 0 0))).event
      = EVENT_BUTTON_CHANGE ∧
    (buttonsCheckButtonsEvent envUV380 pinsSK1 false
      (buttonsInit (mkState 7 7 0 0 0))).state.prevButtonState = 2 :=
  have h := event_and_previous_mask envUV380 (by decide) (buttonsInit (mkState 7 7 0 0 0))
    pinsSK1 false
  ⟨by decide, by decide, (h.1 ⟨by decide, Or.inr rfl⟩).1.mpr (by decide),
    h.2.trans (by decide)⟩


/-- C9 (amended), combo-wait resynchronisation: a poll entered with the combo-wait flag set,
`keyIsDown = false` and a raw sample different from the stored previous mask clears the flag,
returns the raw mask with `EVENT_BUTTON_CHANGE`, and leaves every handled modifier button with
`MBUTTON_LONG` and `MBUTTON_EXTRA_LONG` clear, `MBUTTON_PRESSED` equal to its bit of the raw
sample and its countdown armed if it is asserted and 0 if not (Released if not asserted,
freshly PressedShort if asserted). The next poll with the same lines and `keyIsDown = false`,
entered while the countdown of every asserted handled button is still non-zero, returns
`EVENT_BUTTON_NONE`. -/
theorem wait_resynchronisation (env : Env) (hwf : env.hdr.WellFormed) (s : State)
    (pins : Pins) (hw : waitNewState env s = true)
    (hc : rawSample env pins s ≠ s.prevButtonState) :
    (buttonsCheckButtonsEvent env pins false s).event = EVENT_BUTTON_CHANGE ∧
    waitNewState env (buttonsCheckButtonsEvent env pins false s).state = false ∧
    (buttonsCheckButtonsEvent env pins false s).buttons = rawSample env pins s ∧
    (∀ b, env.plat.handles b = true →
      isMButtonLong (buttonsCheckButtonsEvent env pins false s).state b = false ∧
      isMButtonExtraLong (buttonsCheckButtonsEvent env pins false s).state b = false ∧
      isMButtonPressed (buttonsCheckButtonsEvent env pins false s).state b =
        hasBits (rawSample env pins s) (env.hdr.buttonID b) ∧
      (buttonsCheckButtonsEvent env pins false s).state.timer_mbuttons b =
        if hasBits (rawSample env pins s) (env.hdr.buttonID b) then armValue env else 0) ∧
    ∀ t' : MBUTTON_t → Nat,
      (∀ b, env.plat.handles b = true →
        hasBits (rawSample env pins s) (env.hdr.buttonID b) = true → t' b ≠ 0) →
      (buttonsCheckButtonsEvent env pins false
        (withTimers (buttonsCheckButtonsEvent env pins false s).state t')).event
        = EVENT_BUTTON_NONE := by
  have hbut : (buttonsCheckButtonsEvent env pins false s).buttons = rawSample env pins s := by
    rw [poll_wait_change env hwf pins s hw hc]
  have hwait := poll_wait_change_wait env hwf pins s hw hc
  have hstate : ∀ b, env.plat.handles b = true →
      isMButtonLong (buttonsCheckButtonsEvent env pins false s).state b = false ∧
      isMButtonExtraLong (buttonsCheckButtonsEvent env pins false s).state b = false ∧
      isMButtonPressed (buttonsCheckButtonsEvent env pins false s).state b =
        hasBits (rawSample env pins s) (env.hdr.buttonID b) ∧
      (buttonsCheckButtonsEvent env pins false s).state.timer_mbuttons b =
        if hasBits (rawSample env pins s) (env.hdr.buttonID b) then armValue env else 0 := by
    intro b hb
    have hv := view_poll_wait_change env hwf pins s b hb hw hc
    refine ⟨?_, ?_, ?_, ?_⟩
    · rw [isMButtonLong_view env.hdr _ (buttonsCheckButtonsEvent env pins false s).buttons, hv]
      rfl
    · rw [isMButtonExtraLong_view env.hdr _ (buttonsCheckButtonsEvent env pins false s).buttons,
        hv]
      rfl
    · rw [isMButtonPressed_view env.hdr _ (buttonsCheckButtonsEvent env pins false s).buttons,
        hv, hasBits_buttonID env.hdr (buttonsRead env pins s).1]
      rfl
    · rw [timer_view env.hdr _ (buttonsCheckButtonsEvent env pins false s).buttons, hv,
        hasBits_buttonID env.hdr (buttonsRead env pins s).1]
      rfl
  refine ⟨?_, hwait, hbut, hstate, ?_⟩
  · rw [poll_wait_change env hwf pins s hw hc]
  · intro t' ht'
    generalize hs2 : withTimers (buttonsCheckButtonsEvent env pins false s).state t' = s2
    have hw2 : waitNewState env s2 = false := by rw [← hs2]; exact hwait
    have hraw2 : rawSample env pins s2 = rawSample env pins s := rawSample_indep env pins s2 s
    have hprev2 : s2.prevButtonState = rawSample env pins s := by
      rw [← hs2]
      exact (poll_prev env hwf pins false s).trans hbut
    have hidle : ∀ b, env.plat.handles b = true →
        idle (view env.hdr b (buttonsRead env pins s2)) = true := by
      intro b hb
      obtain ⟨hL, hX, hP, _⟩ := hstate b hb
      have hv0 : view0 env.hdr b s2 = ⟨false, false, false, false,
          hasBits (rawSample env pins s) (env.hdr.buttonID b), false, false, t' b⟩ := by
        rw [← hs2, withTimers_view, view0_eq, hL, hX, hP]
      rw [view_buttonsRead env hwf, hraw2, hv0]
      cases ha : hasBits (rawSample env pins s) (env.hdr.buttonID b)
      · simp [idle]
      · have ht := ht' b hb ha
        simp [idle, localArm, ht]
    have hall := checkAllButtons_idle env (buttonsRead env pins s2) hidle
    rw [poll_normal_event env hwf pins false s2 hw2 (Or.inl rfl)]
    have hb2 : (buttonsCheckButtonsEvent env pins false s2).buttons = s2.prevButtonState := by
      rw [poll_normal env hwf pins false s2 hw2 (Or.inl rfl), checkEveryButton_buttons, hall,
        hprev2, ← hraw2]
      rfl
    rw [if_pos hb2]

/-- Witness of C9 (amended): an MD-UV380 with the combo-wait flag set after side key 2 was
used as a modifier; side key 1 alone is sampled next. -/
theorem wait_resynchronisation_witness :
    waitNewState envUV380 (mkState 32 8256 0 0 100) = true ∧
    rawSample envUV380 pinsSK1 (mkState 32 8256 0 0 100) ≠
      (mkState 32 8256 0 0 100).prevButtonState ∧
    (buttonsCheckButtonsEvent envUV380 pinsSK1 false (mkState 32 8256 0 0 100)).event
      = EVENT_BUTTON_CHANGE ∧
    isMButtonPressed (buttonsCheckButtonsEvent envUV380 pinsSK1 false
      (mkState 32 8256 0 0 100)).state MBUTTON_SK2 = false ∧
    (buttonsCheckButtonsEvent envUV380 pinsSK1 false
      (withTimers (buttonsCheckButtonsEvent envUV380 pinsSK1 false
        (mkState 32 8256 0 0 100)).state (fun _ => 99))).event = EVENT_BUTTON_NONE :=
  have h := wait_resynchronisation envUV380 (by decide) (mkState 32 8256 0 0 100) pinsSK1
    (by decide) (by decide)
  ⟨by decide, by decide, h.1, ((h.2.2.2.1 MBUTTON_SK2 rfl).2.2.1).trans (by decide),
    h.2.2.2.2 (fun _ => 99) (fun _ _ _ => Nat.succ_ne_zero 98)⟩

/-- Counterexample to C9 as stated: on an MD-UV380, after side key 2 was used as a modifier
(combo-wait flag set, previous mask `BUTTON_SK2`), a poll with `keyIsDown = false` samples
side key 1 alone. The raw sample differs from the previous mask, the event is
`EVENT_BUTTON_CHANGE`, and side key 1 is left PressedShort, not Released. With
`keypadTimerLong = 0` the next poll with the same lines returns `EVENT_BUTTON_CHANGE` again. -/
theorem resynchronisation_keeps_asserted_pressed :
    waitNewState envUV380
      (buttonsCheckButtonsEvent envUV380 pinsSK2 true (buttonsInit (mkState 0 0 0 0 0))).state
      = true ∧
    rawSample envUV380 pinsSK1
      (buttonsCheckButtonsEvent envUV380 pinsSK2 true (buttonsInit (mkState 0 0 0 0 0))).state ≠
      (buttonsCheckButtonsEvent envUV380 pinsSK2 true
        (buttonsInit (mkState 0 0 0 0 0))).state.prevButtonState ∧
    (buttonsCheckButtonsEvent envUV380 pinsSK1 false
      (buttonsCheckButtonsEvent envUV380 pinsSK2 true
        (buttonsInit (mkState 0 0 0 0 0))).state).event = EVENT_BUTTON_CHANGE ∧
    ¬ isReleased (buttonsCheckButtonsEvent envUV380 pinsSK1 false
      (buttonsCheckButtonsEvent envUV380 pinsSK2 true
        (buttonsInit (mkState 0 0 0 0 0))).state).state MBUTTON_SK1 ∧
    isPressedShort (buttonsCheckButtonsEvent envUV380 pinsSK1 false
      (buttonsCheckButtonsEvent envUV380 pinsSK2 true
        (buttonsInit (mkState 0 0 0 0 0))).state).state MBUTTON_SK1 ∧
    (buttonsCheckButtonsEvent { envUV380 with keypadTimerLong := 0 } pinsSK1 false
      (buttonsCheckButtonsEvent { envUV380 with keypadTimerLong := 0 } pinsSK1 false
        (buttonsCheckButtonsEvent { envUV380 with keypadTimerLong := 0 } pinsSK2 true
          (buttonsInit (mkState 0 0 0 0 0))).state).state).event = EVENT_BUTTON_CHANGE := by
  decide

/-! ## Runs, repeated polls and the remaining claims -/

/-! ## The branches of `checkMButtons` as bit operations -/

theorem testBit_orBit (j x i : Nat) : (orBit j x).testBit i = (x.testBit i || decide (i = j)) := by
  rw [orBit, Nat.testBit_or, testBit_bit]

theorem testBit_andNotBit (j x i : Nat) (hj : j < 32) :
    (andNotBit j x).testBit i = (x.testBit i && (decide (i < 32) && !decide (i = j))) := by
  rw [andNotBit, Nat.testBit_and, testBit_bnot32_bit i j hj]

theorem checkMButtons_eq_branch (env : Env) (r : State × Nat) (b : MBUTTON_t) :
    checkMButtons env r b (env.hdr.buttonID b) (env.hdr.buttonShortUp b)
      (env.hdr.buttonLong b) (env.hdr.buttonExtraLong b) =
      (branchState env b (branchOf (view env.hdr b r)) r.1,
        branchMask env.hdr b (branchOf (view env.hdr b r)) r.2) := by
  simp only [checkMButtons, ButtonsHeader.buttonID, ButtonsHeader.buttonShortUp,
    ButtonsHeader.buttonLong, ButtonsHeader.buttonExtraLong, and_bit_ne_zero, and_bit_eq_zero,
    isMButtonPressed_eq, isMButtonLong_eq, isMButtonExtraLong_eq,
    pressed_shift, long_shift, extraLong_shift, view, branchOf]
  by_cases ha : r.2.testBit (env.hdr.idBit b) = true <;>
  by_cases hP : r.1.mbuttons.testBit (b.toNat * 3) = true <;>
  by_cases hL : r.1.mbuttons.testBit (b.toNat * 3 + 1) = true <;>
  by_cases hX : r.1.mbuttons.testBit (b.toNat * 3 + 2) = true <;>
  by_cases ht : r.1.timer_mbuttons b = 0 <;>
  simp [ha, hP, hL, hX, ht, branchState, branchMask, branchBits, branchTimer, orBit, andNotBit]

theorem branchMask_testBit (h : ButtonsHeader) (hwf : h.WellFormed) (b : MBUTTON_t)
    (c : Branch) (x i : Nat) :
    (branchMask h b c x).testBit i = (x.testBit i && maskKeep h b c i || maskSet h b c i) := by
  have hlt := hwf.bitAt_lt
  have hne := hwf.bitAt_eq
  have l1 : h.longDownBit b < 32 := by rw [ButtonsHeader.longDownBit_eq]; exact hlt _
  have l2 : h.extraLongDownBit b < 32 := by rw [ButtonsHeader.extraLongDownBit_eq]; exact hlt _
  have l3 : h.shortUpBit b < 32 := by rw [ButtonsHeader.shortUpBit_eq]; exact hlt _
  have n1 : h.shortUpBit b ≠ h.longDownBit b := by
    rw [ButtonsHeader.shortUpBit_eq, ButtonsHeader.longDownBit_eq, Ne, hne]
    exact (idx_eq b b).2.2.2.2.2.2.1
  have n2 : h.shortUpBit b ≠ h.extraLongDownBit b := by
    rw [ButtonsHeader.shortUpBit_eq, ButtonsHeader.extraLongDownBit_eq, Ne, hne]
    exact (idx_eq b b).2.2.2.2.2.2.2.1
  have n3 : h.longDownBit b ≠ h.extraLongDownBit b := by
    rw [ButtonsHeader.longDownBit_eq, ButtonsHeader.extraLongDownBit_eq, Ne, hne]
    exact (idx_eq b b).2.2.2.2.2.2.2.2.2.2.2.1
  cases c <;>
  simp only [branchMask, maskKeep, maskSet, testBit_orBit, testBit_andNotBit, l1, l2] <;>
  by_cases e1 : i = h.longDownBit b <;> by_cases e2 : i = h.extraLongDownBit b <;>
  by_cases e3 : i = h.shortUpBit b <;> by_cases e4 : i < 32 <;>
  simp [e1, e2, e3, e4, n1, n2, n3, n1.symm, n2.symm, n3.symm, l1, l2, l3]

theorem branchBits_testBit (b : MBUTTON_t) (c : Branch) (m i : Nat) :
    (branchBits b c m).testBit i = (m.testBit i && bitsKeep b c i || bitsSet b c i) := by
  have h2 := toNat_lt b
  have h1 : b.toNat * 3 + 1 < 32 := by omega
  have h0 : b.toNat * 3 < 32 := by omega
  cases c <;>
  simp only [branchBits, bitsKeep, bitsSet, testBit_orBit, testBit_andNotBit, h0, h1, h2] <;>
  by_cases e1 : i = b.toNat * 3 <;> by_cases e2 : i = b.toNat * 3 + 1 <;>
  by_cases e3 : i = b.toNat * 3 + 2 <;> by_cases e4 : i < 32 <;>
  simp [e1, e2, e3, e4]

theorem maskSet_maskKeep (h : ButtonsHeader) (hwf : h.WellFormed) (a b : MBUTTON_t)
    (hab : a ≠ b) (c c' : Branch) (i : Nat) (hs : maskSet h a c i = true) :
    maskKeep h b c' i = true := by
  have hlt := hwf.bitAt_lt
  have hne := hwf.bitAt_eq
  revert hs
  cases c <;> cases c' <;>
  simp only [maskSet, maskKeep, ButtonsHeader.shortUpBit_eq, ButtonsHeader.longDownBit_eq,
    ButtonsHeader.extraLongDownBit_eq] <;>
  intro hs <;>
  simp at hs <;>
  simp [hs, hlt, hne, idx_eq, hab]

theorem bitsSet_bitsKeep (a b : MBUTTON_t) (hab : a ≠ b) (c c' : Branch) (i : Nat)
    (hs : bitsSet a c i = true) : bitsKeep b c' i = true := by
  have h2 := toNat_lt a
  have hab' : ¬ a.toNat = b.toNat := by rw [toNat_inj]; exact hab
  revert hs
  cases c <;> cases c' <;>
  simp only [bitsSet, bitsKeep] <;>
  intro hs <;>
  simp at hs <;>
  simp [hs] <;>
  omega

theorem bool_commute (x kA sA kB sB : Bool) (hAB : sA = true → kB = true)
    (hBA : sB = true → kA = true) :
    ((x && kB || sB) && kA || sA) = ((x && kA || sA) && kB || sB) := by
  cases x <;> cases kA <;> cases sA <;> cases kB <;> cases sB <;> simp_all

theorem branchMask_comm (h : ButtonsHeader) (hwf : h.WellFormed) (a b : MBUTTON_t)
    (hab : a ≠ b) (c c' : Branch) (x : Nat) :
    branchMask h a c (branchMask h b c' x) = branchMask h b c' (branchMask h a c x) := by
  apply Nat.eq_of_testBit_eq
  intro i
  simp only [branchMask_testBit h hwf]
  exact bool_commute _ _ _ _ _ (maskSet_maskKeep h hwf a b hab c c' i)
    (maskSet_maskKeep h hwf b a (fun e => hab e.symm) c' c i)

theorem branchBits_comm (a b : MBUTTON_t) (hab : a ≠ b) (c c' : Branch) (m : Nat) :
    branchBits a c (branchBits b c' m) = branchBits b c' (branchBits a c m) := by
  apply Nat.eq_of_testBit_eq
  intro i
  simp only [branchBits_testBit]
  exact bool_commute _ _ _ _ _ (bitsSet_bitsKeep a b hab c c' i)
    (bitsSet_bitsKeep b a (fun e => hab e.symm) c' c i)

theorem setTimer_comm (t : MBUTTON_t → Nat) (a b : MBUTTON_t) (hab : a ≠ b) (v w : Nat) :
    setTimer (setTimer t b w) a v = setTimer (setTimer t a v) b w := by
  funext m
  simp only [setTimer]
  have hba : ¬ b = a := fun e => hab e.symm
  by_cases e1 : m = a <;> by_cases e2 : m = b <;> simp [e1, e2, hab, hba]

theorem branchTimer_comm (env : Env) (a b : MBUTTON_t) (hab : a ≠ b) (c c' : Branch)
    (t : MBUTTON_t → Nat) :
    branchTimer env a c (branchTimer env b c' t) = branchTimer env b c' (branchTimer env a c t) := by
  cases c <;> cases c' <;> simp only [branchTimer] <;> exact setTimer_comm t a b hab _ _

theorem branchState_comm (env : Env) (a b : MBUTTON_t) (hab : a ≠ b) (c c' : Branch)
    (s : State) :
    branchState env a c (branchState env b c' s) =
      branchState env b c' (branchState env a c s) := by
  simp only [branchState, branchBits_comm a b hab, branchTimer_comm env a b hab]

/-! ## More on `buttonsRead` and on the paths of a poll -/

theorem pred_ite (Q : State × Nat → Prop) (c : Prop) [Decidable c] (x y : State × Nat)
    (hx : Q x) (hy : Q y) : Q (if c then x else y) := by
  split_ifs
  · exact hx
  · exact hy

/-- Induction over the statements of `buttonsRead`. -/
theorem buttonsRead_induction (env : Env) (pins : Pins) (s : State)
    (Q : State × Nat → Prop) (h0 : Q (s, BUTTON_NONE))
    (hstep : ∀ r b, Q r → Q (readButton env r b (env.hdr.buttonID b)))
    (hptt : ∀ r : State × Nat, Q r → Q (r.1, r.2 ||| env.hdr.BUTTON_PTT)) :
    Q (buttonsRead env pins s) := by
  have sSK1 : ∀ r, Q r → Q (readButton env r MBUTTON_SK1 env.hdr.BUTTON_SK1) :=
    fun r hr => hstep r MBUTTON_SK1 hr
  have sSK2 : ∀ r, Q r → Q (readButton env r MBUTTON_SK2 env.hdr.BUTTON_SK2) :=
    fun r hr => hstep r MBUTTON_SK2 hr
  have sOR : ∀ r, Q r → Q (readButton env r MBUTTON_ORANGE env.hdr.BUTTON_ORANGE) :=
    fun r hr => hstep r MBUTTON_ORANGE hr
  unfold buttonsRead
  refine pred_ite Q _ _ _ (hptt _ ?_) ?_ <;>
  · refine pred_ite Q _ _ _ (sSK1 _ ?_) ?_ <;>
    · refine pred_ite Q _ _ _ (pred_ite Q _ _ _ (sSK1 _ ?_) (sSK2 _ ?_)) ?_ <;>
      · exact pred_ite Q _ _ _
          (pred_ite Q _ _ _ (sSK2 _ h0) (pred_ite Q _ _ _ (sOR _ h0) (sSK1 _ h0))) h0

/-- The raw sample holds only asserted bits of modifier buttons and the PTT bit. -/
theorem raw_bits (env : Env) (pins : Pins) (s : State) (i : Nat)
    (hi : (rawSample env pins s).testBit i = true) :
    i = env.hdr.ptt ∨ ∃ b, i = env.hdr.idBit b := by
  have h := buttonsRead_induction env pins s
    (fun r => ∀ i, r.2.testBit i = true → i = env.hdr.ptt ∨ ∃ b, i = env.hdr.idBit b)
    (by intro i hi; simp [BUTTON_NONE] at hi)
    (by
      intro r b hr i hi
      simp only [readButton, ButtonsHeader.buttonID, Nat.testBit_or, testBit_bit,
        Bool.or_eq_true, decide_eq_true_eq] at hi
      rcases hi with hi | hi
      · exact hr i hi
      · exact Or.inr ⟨b, hi⟩)
    (by
      intro r hr i hi
      simp only [ButtonsHeader.BUTTON_PTT, Nat.testBit_or, testBit_bit,
        Bool.or_eq_true, decide_eq_true_eq] at hi
      rcases hi with hi | hi
      · exact hr i hi
      · exact Or.inl hi)
  exact h i hi

theorem raw_lt (env : Env) (hwf : env.hdr.WellFormed) (pins : Pins) (s : State) (i : Nat)
    (hi : (rawSample env pins s).testBit i = true) : i < 32 := by
  rcases raw_bits env pins s i hi with e | ⟨b, e⟩
  · rw [e, ButtonsHeader.ptt_eq]; exact hwf.bitAt_lt _
  · rw [e, ButtonsHeader.idBit_eq]; exact hwf.bitAt_lt _

theorem view_orWait (env : Env) (hwf : env.hdr.WellFormed) (s : State) (x : Nat)
    (b : MBUTTON_t) :
    view env.hdr b
      ({ s with mbuttons := s.mbuttons ||| env.hdr.BUTTON_WAIT_NEW_STATE }, x) =
      view env.hdr b (s, x) := by
  have hge := hwf.wait_ge
  have e0 : ¬ b.toNat * 3 = env.hdr.bitAt 13 := by
    cases b <;> simp [MBUTTON_t.toNat] <;> omega
  have e1 : ¬ b.toNat * 3 + 1 = env.hdr.bitAt 13 := by
    cases b <;> simp [MBUTTON_t.toNat] <;> omega
  have e2 : ¬ b.toNat * 3 + 2 = env.hdr.bitAt 13 := by
    cases b <;> simp [MBUTTON_t.toNat] <;> omega
  simp [view, ButtonsHeader.BUTTON_WAIT_NEW_STATE, ButtonsHeader.waitNewState_eq,
    testBit_bit, e0, e1, e2, -Nat.testBit_shiftLeft]

theorem view_andNotWait (env : Env) (hwf : env.hdr.WellFormed) (s : State) (x : Nat)
    (b : MBUTTON_t) :
    view env.hdr b
      ({ s with mbuttons := s.mbuttons &&& bnot32 env.hdr.BUTTON_WAIT_NEW_STATE }, x) =
      view env.hdr b (s, x) := by
  have hlt := hwf.bitAt_lt 13
  have hge := hwf.wait_ge
  have h2 := toNat_lt b
  have e0 : ¬ b.toNat * 3 = env.hdr.bitAt 13 := by
    cases b <;> simp [MBUTTON_t.toNat] <;> omega
  have e1 : ¬ b.toNat * 3 + 1 = env.hdr.bitAt 13 := by
    cases b <;> simp [MBUTTON_t.toNat] <;> omega
  have e2 : ¬ b.toNat * 3 + 2 = env.hdr.bitAt 13 := by
    cases b <;> simp [MBUTTON_t.toNat] <;> omega
  have g1 : b.toNat * 3 + 1 < 32 := by omega
  have g0 : b.toNat * 3 < 32 := by omega
  simp [view, ButtonsHeader.BUTTON_WAIT_NEW_STATE, ButtonsHeader.waitNewState_eq,
    testBit_bit, testBit_bnot32_bit, hlt, e0, e1, e2, g0, g1, h2, -Nat.testBit_shiftLeft]

/-- The view of any button after a poll, path by path: through `checkMButtons`, through
`setMButtonsStateAndClearLong` (combo key or resynchronisation), or `buttonsRead` alone. -/
theorem view_poll (env : Env) (hwf : env.hdr.WellFormed) (pins : Pins) (keyIsDown : Bool)
    (s : State) (b : MBUTTON_t) :
    (waitNewState env s = false ∧ (keyIsDown = false ∨ rawSample env pins s = BUTTON_NONE) ∧
      view env.hdr b ((buttonsCheckButtonsEvent env pins keyIsDown s).state,
        (buttonsCheckButtonsEvent env pins keyIsDown s).buttons) =
        if env.plat.handles b then localCheck env (view env.hdr b (buttonsRead env pins s))
        else view env.hdr b (buttonsRead env pins s)) ∨
    ((buttonsCheckButtonsEvent env pins keyIsDown s).buttons = rawSample env pins s ∧
      view env.hdr b ((buttonsCheckButtonsEvent env pins keyIsDown s).state,
        (buttonsCheckButtonsEvent env pins keyIsDown s).buttons) =
        if env.plat.handles b then localSet env (view env.hdr b (buttonsRead env pins s))
        else view env.hdr b (buttonsRead env pins s)) ∨
    ((buttonsCheckButtonsEvent env pins keyIsDown s).buttons = rawSample env pins s ∧
      view env.hdr b ((buttonsCheckButtonsEvent env pins keyIsDown s).state,
        (buttonsCheckButtonsEvent env pins keyIsDown s).buttons) =
        view env.hdr b (buttonsRead env pins s)) := by
  have key : ∀ hc : rawSample env pins s ≠ BUTTON_NONE ∨ waitNewState env s = true,
      view env.hdr b ((buttonsCheckButtonsEvent env pins true s).state,
        (buttonsCheckButtonsEvent env pins true s).buttons) =
        if env.plat.handles b then localSet env (view env.hdr b (buttonsRead env pins s))
        else view env.hdr b (buttonsRead env pins s) := by
    intro hc
    rw [poll_key env hwf pins s hc]
    have e := view_clearStoredStates env
      { (buttonsRead env pins s).1 with
        mbuttons := (buttonsRead env pins s).1.mbuttons ||| env.hdr.BUTTON_WAIT_NEW_STATE }
      (rawSample env pins s) b
    rw [view_orWait env hwf] at e
    exact e
  cases hw : waitNewState env s
  · cases keyIsDown
    · left
      refine ⟨rfl, Or.inl rfl, ?_⟩
      rw [poll_normal env hwf pins false s hw (Or.inl rfl), view_checkEveryButton env hwf]
    · by_cases hr : rawSample env pins s = BUTTON_NONE
      · left
        refine ⟨rfl, Or.inr hr, ?_⟩
        rw [poll_normal env hwf pins true s hw (Or.inr hr), view_checkEveryButton env hwf]
      · right; left
        exact ⟨by rw [poll_key env hwf pins s (Or.inl hr)], key (Or.inl hr)⟩
  · cases keyIsDown
    · by_cases hc : rawSample env pins s = s.prevButtonState
      · right; right
        rw [poll_wait_same env hwf pins s hw hc]
        exact ⟨rfl, rfl⟩
      · right; left
        refine ⟨by rw [poll_wait_change env hwf pins s hw hc], ?_⟩
        rw [poll_wait_change env hwf pins s hw hc]
        have e := view_clearStoredStates env
          { (buttonsRead env pins s).1 with
            mbuttons := (buttonsRead env pins s).1.mbuttons &&&
              bnot32 env.hdr.BUTTON_WAIT_NEW_STATE }
          (rawSample env pins s) b
        rw [view_andNotWait env hwf] at e
        exact e
    · right; left
      exact ⟨by rw [poll_key env hwf pins s (Or.inr hw)], key (Or.inr hw)⟩

/-- The bits of the mask that are no `SHORT_UP`, `LONG_DOWN` or `EXTRA_LONG_DOWN` bit of the
button are left alone by `checkMButtons`. -/
theorem checkMButtons_testBit_other (env : Env) (hwf : env.hdr.WellFormed) (r : State × Nat)
    (b : MBUTTON_t) (i : Nat)
    (hi : i ≠ env.hdr.shortUpBit b ∧ i ≠ env.hdr.longDownBit b ∧ i ≠ env.hdr.extraLongDownBit b)
    (h32 : r.2.testBit i = true → i < 32) :
    (checkMButtons env r b (env.hdr.buttonID b) (env.hdr.buttonShortUp b)
      (env.hdr.buttonLong b) (env.hdr.buttonExtraLong b)).2.testBit i = r.2.testBit i := by
  rw [checkMButtons_eq_branch, branchMask_testBit env.hdr hwf]
  obtain ⟨h1, h2, h3⟩ := hi
  cases hx : r.2.testBit i
  · cases branchOf (view env.hdr b r) <;> simp [maskSet, h1, h2, h3]
  · have hlt := h32 hx
    cases branchOf (view env.hdr b r) <;> simp [maskSet, maskKeep, h1, h2, h3, hlt]

theorem checkAllButtons_testBit_other (env : Env) (hwf : env.hdr.WellFormed)
    (r : State × Nat) (i : Nat)
    (hi : ∀ b, env.plat.handles b = true → i ≠ env.hdr.shortUpBit b ∧
      i ≠ env.hdr.longDownBit b ∧ i ≠ env.hdr.extraLongDownBit b)
    (h32 : r.2.testBit i = true → i < 32) :
    (checkAllButtons env r).2.testBit i = r.2.testBit i := by
  have e := fun r b => checkMButtons_testBit_other env hwf r b i
  unfold checkAllButtons
  show (checkMButtons env (checkMButtons env
    (if env.plat.hasOrange then checkMButtons env r MBUTTON_ORANGE
      (env.hdr.buttonID MBUTTON_ORANGE) (env.hdr.buttonShortUp MBUTTON_ORANGE)
      (env.hdr.buttonLong MBUTTON_ORANGE) (env.hdr.buttonExtraLong MBUTTON_ORANGE) else r)
    MBUTTON_SK1 (env.hdr.buttonID MBUTTON_SK1) (env.hdr.buttonShortUp MBUTTON_SK1)
      (env.hdr.buttonLong MBUTTON_SK1) (env.hdr.buttonExtraLong MBUTTON_SK1))
    MBUTTON_SK2 (env.hdr.buttonID MBUTTON_SK2) (env.hdr.buttonShortUp MBUTTON_SK2)
      (env.hdr.buttonLong MBUTTON_SK2) (env.hdr.buttonExtraLong MBUTTON_SK2)).2.testBit i = _
  have h0 : (if env.plat.hasOrange then checkMButtons env r MBUTTON_ORANGE
      (env.hdr.buttonID MBUTTON_ORANGE) (env.hdr.buttonShortUp MBUTTON_ORANGE)
      (env.hdr.buttonLong MBUTTON_ORANGE) (env.hdr.buttonExtraLong MBUTTON_ORANGE)
      else r).2.testBit i = r.2.testBit i := by
    by_cases ho : env.plat.hasOrange = true
    · rw [if_pos ho]
      exact e r MBUTTON_ORANGE (hi MBUTTON_ORANGE ho) h32
    · rw [if_neg ho]
  have h1 := e (if env.plat.hasOrange then checkMButtons env r MBUTTON_ORANGE
      (env.hdr.buttonID MBUTTON_ORANGE) (env.hdr.buttonShortUp MBUTTON_ORANGE)
      (env.hdr.buttonLong MBUTTON_ORANGE) (env.hdr.buttonExtraLong MBUTTON_ORANGE)
      else r) MBUTTON_SK1 (hi MBUTTON_SK1 rfl) (by rw [h0]; exact h32)
  have h2 := e (checkMButtons env (if env.plat.hasOrange then checkMButtons env r MBUTTON_ORANGE
      (env.hdr.buttonID MBUTTON_ORANGE) (env.hdr.buttonShortUp MBUTTON_ORANGE)
      (env.hdr.buttonLong MBUTTON_ORANGE) (env.hdr.buttonExtraLong MBUTTON_ORANGE)
      else r) MBUTTON_SK1 (env.hdr.buttonID MBUTTON_SK1) (env.hdr.buttonShortUp MBUTTON_SK1)
      (env.hdr.buttonLong MBUTTON_SK1) (env.hdr.buttonExtraLong MBUTTON_SK1)) MBUTTON_SK2
      (hi MBUTTON_SK2 rfl) (by rw [h1, h0]; exact h32)
  rw [h2, h1, h0]

/-! ## The view of a button after a poll, on every path -/

theorem view_poll_normal_all (env : Env) (hwf : env.hdr.WellFormed) (pins : Pins)
    (keyIsDown : Bool) (s : State) (b : MBUTTON_t) (hw : waitNewState env s = false)
    (hk : keyIsDown = false ∨ rawSample env pins s = BUTTON_NONE) :
    view env.hdr b ((buttonsCheckButtonsEvent env pins keyIsDown s).state,
        (buttonsCheckButtonsEvent env pins keyIsDown s).buttons) =
      if env.plat.handles b then localCheck env (view env.hdr b (buttonsRead env pins s))
      else view env.hdr b (buttonsRead env pins s) := by
  rw [poll_normal env hwf pins keyIsDown s hw hk]
  exact view_checkEveryButton env hwf _ b

/-- The view `buttonsRead` leaves, from the phase bits and the countdown before the poll. -/
theorem view_buttonsRead_eq (env : Env) (hwf : env.hdr.WellFormed) (pins : Pins) (s : State)
    (b : MBUTTON_t) :
    view env.hdr b (buttonsRead env pins s) =
      if hasBits (rawSample env pins s) (env.hdr.buttonID b) then
        localArm env ⟨true, false, false, false, isMButtonPressed s b, isMButtonLong s b,
          isMButtonExtraLong s b, s.timer_mbuttons b⟩
      else ⟨false, false, false, false, isMButtonPressed s b, isMButtonLong s b,
          isMButtonExtraLong s b, s.timer_mbuttons b⟩ := by
  rw [view_buttonsRead env hwf, view0_eq]

theorem view_poll_forms (env : Env) (hwf : env.hdr.WellFormed) (pins : Pins)
    (keyIsDown : Bool) (s : State) (b : MBUTTON_t) :
    view env.hdr b ((buttonsCheckButtonsEvent env pins keyIsDown s).state,
        (buttonsCheckButtonsEvent env pins keyIsDown s).buttons) =
        localCheck env (view env.hdr b (buttonsRead env pins s)) ∨
    view env.hdr b ((buttonsCheckButtonsEvent env pins keyIsDown s).state,
        (buttonsCheckButtonsEvent env pins keyIsDown s).buttons) =
        localSet env (view env.hdr b (buttonsRead env pins s)) ∨
    view env.hdr b ((buttonsCheckButtonsEvent env pins keyIsDown s).state,
        (buttonsCheckButtonsEvent env pins keyIsDown s).buttons) =
        view env.hdr b (buttonsRead env pins s) := by
  rcases view_poll env hwf pins keyIsDown s b with ⟨_, _, hv⟩ | ⟨_, hv⟩ | ⟨_, hv⟩
  · rw [hv]
    split_ifs
    · exact Or.inl rfl
    · exact Or.inr (Or.inr rfl)
  · rw [hv]
    split_ifs
    · exact Or.inr (Or.inl rfl)
    · exact Or.inr (Or.inr rfl)
  · exact Or.inr (Or.inr hv)

theorem run_nil (env : Env) (s : State) : run env s [] = s := rfl

theorem run_cons (env : Env) (s : State) (st : Step) (steps : List Step) :
    run env s (st :: steps) = run env (runStep env s st) steps := rfl

theorem run_append (env : Env) (s : State) (steps : List Step) (st : Step) :
    run env s (steps ++ [st]) = runStep env (run env s steps) st := by
  simp [run, List.foldl_append]

/-- Induction along a run, from its start. -/
theorem run_induction (env : Env) (Q : State → Prop) (hstep : ∀ s st, Q s → Q (runStep env s st))
    (s : State) (hs : Q s) (steps : List Step) : Q (run env s steps) := by
  induction steps generalizing s with
  | nil => exact hs
  | cons st rest ih => exact ih (runStep env s st) (hstep s st hs)

/-- Induction along a run all of whose steps satisfy `ok`. -/
theorem run_induction_ok (env : Env) (ok : State → Step → Bool) (Q : State → Prop)
    (hstep : ∀ s st, Q s → ok s st = true → Q (runStep env s st))
    (s : State) (hs : Q s) (steps : List Step) (hok : allSteps env ok s steps = true) :
    Q (run env s steps) := by
  induction steps generalizing s with
  | nil => exact hs
  | cons st rest ih =>
    simp only [allSteps, Bool.and_eq_true] at hok
    exact ih (runStep env s st) (hstep s st hs hok.1) hok.2

theorem encoded_step (env : Env) (hwf : env.hdr.WellFormed) (s : State) (st : Step)
    (b : MBUTTON_t) (he : Encoded s b) :
    Encoded (runStep env s st) b ∧
    (isExtraLong (runStep env s st) b → isLong s b ∨ isExtraLong s b) := by
  cases st with
  | tick d => exact ⟨he, fun hx => Or.inr hx⟩
  | poll pins keyIsDown =>
    simp only [runStep, Encoded, isLong, isExtraLong]
    rw [isMButtonPressed_view env.hdr _ (buttonsCheckButtonsEvent env pins keyIsDown s).buttons,
      isMButtonLong_view env.hdr _ (buttonsCheckButtonsEvent env pins keyIsDown s).buttons,
      isMButtonExtraLong_view env.hdr _ (buttonsCheckButtonsEvent env pins keyIsDown s).buttons]
    obtain ⟨h1, h2⟩ := he
    have hrv := view_buttonsRead_eq env hwf pins s b
    rcases view_poll_forms env hwf pins keyIsDown s b with hv | hv | hv <;>
    · rw [hv, hrv]
      cases hasBits (rawSample env pins s) (env.hdr.buttonID b) <;>
      cases hP : isMButtonPressed s b <;> cases hL : isMButtonLong s b <;>
      cases hX : isMButtonExtraLong s b <;>
      simp [hP, hL, hX] at h1 h2 <;>
      by_cases ht : s.timer_mbuttons b = 0 <;>
      by_cases hk : armValue env = 0 <;>
      simp [localCheck, localArm, localSet, ht, hk]

/-! ## Repeated polls -/

theorem view_poll_local (env : Env) (hwf : env.hdr.WellFormed) (pins : Pins) (s : State)
    (x : Nat) (b : MBUTTON_t) (hb : env.plat.handles b = true)
    (hw : waitNewState env s = false) :
    view env.hdr b ((buttonsCheckButtonsEvent env pins false s).state,
        (buttonsCheckButtonsEvent env pins false s).buttons) =
      localPoll env (hasBits (rawSample env pins s) (env.hdr.buttonID b))
        (view env.hdr b (s, x)) := by
  rw [view_poll_normal env hwf pins false s b hb hw (Or.inl rfl), view0_eq,
    isMButtonPressed_eq, isMButtonLong_eq, isMButtonExtraLong_eq]
  rfl

/-- The mask bits of a button are the same after the third of three polls with the same raw
sample as after the second. -/
theorem localPoll_stable (env : Env) (a : Bool) (v : BView) :
    (localPoll env a (localPoll env a (localPoll env a v))).su =
      (localPoll env a (localPoll env a v)).su ∧
    (localPoll env a (localPoll env a (localPoll env a v))).lg =
      (localPoll env a (localPoll env a v)).lg ∧
    (localPoll env a (localPoll env a (localPoll env a v))).xl =
      (localPoll env a (localPoll env a v)).xl := by
  obtain ⟨a0, su, lg, xl, P, L, X, t⟩ := v
  by_cases ht : t = 0 <;> by_cases ha : armValue env = 0 <;>
  by_cases hr : rearmValue env = 0 <;>
  cases a <;> cases P <;> cases L <;> cases X <;>
  simp [localPoll, localCheck, localArm, localSet, ht, ha, hr]

/-- A bit that is not an annotation bit of a handled button passes from the raw sample to the
returned mask. -/
theorem poll_testBit_other (env : Env) (hwf : env.hdr.WellFormed) (pins : Pins)
    (keyIsDown : Bool) (s : State) (i : Nat)
    (hi : ∀ b, env.plat.handles b = true → i ≠ env.hdr.shortUpBit b ∧
      i ≠ env.hdr.longDownBit b ∧ i ≠ env.hdr.extraLongDownBit b) :
    (buttonsCheckButtonsEvent env pins keyIsDown s).buttons.testBit i =
      (rawSample env pins s).testBit i := by
  rcases poll_cases env hwf pins keyIsDown s with ⟨hw, hk⟩ | hbut
  · rw [poll_normal env hwf pins keyIsDown s hw hk, checkEveryButton_buttons,
      checkAllButtons_testBit_other env hwf _ i hi (raw_lt env hwf pins s i)]
    rfl
  · rw [hbut]

theorem three_polls (env : Env) (hwf : env.hdr.WellFormed) (p1 p2 p3 : Pins) (s : State)
    (hw : waitNewState env s = false)
    (h2 : rawSample env p2 s = rawSample env p1 s)
    (h3 : rawSample env p3 s = rawSample env p1 s) :
    (buttonsCheckButtonsEvent env p3 false
      (buttonsCheckButtonsEvent env p2 false
        (buttonsCheckButtonsEvent env p1 false s).state).state).buttons =
    (buttonsCheckButtonsEvent env p2 false
        (buttonsCheckButtonsEvent env p1 false s).state).buttons := by
  have hw1 := poll_normal_wait env hwf p1 false s hw (Or.inl rfl)
  have hw2 := poll_normal_wait env hwf p2 false _ hw1 (Or.inl rfl)
  have e2 : rawSample env p2 (buttonsCheckButtonsEvent env p1 false s).state =
      rawSample env p1 s := (rawSample_indep env p2 _ s).trans h2
  have e3 : rawSample env p3 (buttonsCheckButtonsEvent env p2 false
      (buttonsCheckButtonsEvent env p1 false s).state).state = rawSample env p1 s :=
    (rawSample_indep env p3 _ s).trans h3
  have hview : ∀ b, env.plat.handles b = true →
      view env.hdr b ((buttonsCheckButtonsEvent env p3 false
        (buttonsCheckButtonsEvent env p2 false
          (buttonsCheckButtonsEvent env p1 false s).state).state).state,
        (buttonsCheckButtonsEvent env p3 false
        (buttonsCheckButtonsEvent env p2 false
          (buttonsCheckButtonsEvent env p1 false s).state).state).buttons) =
        localPoll env (hasBits (rawSample env p1 s) (env.hdr.buttonID b))
          (localPoll env (hasBits (rawSample env p1 s) (env.hdr.buttonID b))
            (localPoll env (hasBits (rawSample env p1 s) (env.hdr.buttonID b))
              (view env.hdr b (s, 0)))) ∧
      view env.hdr b ((buttonsCheckButtonsEvent env p2 false
          (buttonsCheckButtonsEvent env p1 false s).state).state,
        (buttonsCheckButtonsEvent env p2 false
          (buttonsCheckButtonsEvent env p1 false s).state).buttons) =
        localPoll env (hasBits (rawSample env p1 s) (env.hdr.buttonID b))
          (localPoll env (hasBits (rawSample env p1 s) (env.hdr.buttonID b))
            (view env.hdr b (s, 0))) := by
    intro b hb
    have v1 := view_poll_local env hwf p1 s 0 b hb hw
    have v2 := view_poll_local env hwf p2 _ (buttonsCheckButtonsEvent env p1 false s).buttons b
      hb hw1
    have v3 := view_poll_local env hwf p3 _ (buttonsCheckButtonsEvent env p2 false
      (buttonsCheckButtonsEvent env p1 false s).state).buttons b hb hw2
    rw [e3, v2, e2, v1] at v3
    rw [e2, v1] at v2
    exact ⟨v3, v2⟩
  apply Nat.eq_of_testBit_eq
  intro i
  by_cases hi : ∀ b, env.plat.handles b = true → i ≠ env.hdr.shortUpBit b ∧
      i ≠ env.hdr.longDownBit b ∧ i ≠ env.hdr.extraLongDownBit b
  · rw [poll_testBit_other env hwf p3 false _ i hi, poll_testBit_other env hwf p2 false _ i hi,
      e3, e2]
  · push_neg at hi
    obtain ⟨b, hb, hbi⟩ := hi
    obtain ⟨v3, v2⟩ := hview b hb
    obtain ⟨s1, s2, s3⟩ := localPoll_stable env (hasBits (rawSample env p1 s) (env.hdr.buttonID b))
      (view env.hdr b (s, 0))
    rw [← v3, ← v2] at s1 s2 s3
    by_cases c1 : i = env.hdr.shortUpBit b
    · rw [c1]
      exact s1
    by_cases c2 : i = env.hdr.longDownBit b
    · rw [c2]
      exact s2
    · rw [hbi c1 c2]
      exact s3

theorem repeatPoll_shift (env : Env) (pinsAt : Nat → Pins) (s : State) (n : Nat) :
    repeatPoll env pinsAt s (n + 1) =
      repeatPoll env (fun k => pinsAt (k + 1))
        (buttonsCheckButtonsEvent env (pinsAt 0) false s).state n := by
  induction n with
  | zero => rfl
  | succ n ih =>
    show (buttonsCheckButtonsEvent env (pinsAt (n + 1)) false
        (repeatPoll env pinsAt s (n + 1))).state =
      (buttonsCheckButtonsEvent env (pinsAt (n + 1)) false
        (repeatPoll env (fun k => pinsAt (k + 1))
          (buttonsCheckButtonsEvent env (pinsAt 0) false s).state n)).state
    rw [ih]

theorem repeatCall_shift (env : Env) (pinsAt : Nat → Pins) (s : State) (n : Nat) :
    repeatCall env pinsAt s (n + 1) =
      repeatCall env (fun k => pinsAt (k + 1))
        (buttonsCheckButtonsEvent env (pinsAt 0) false s).state n := by
  show buttonsCheckButtonsEvent env (pinsAt (n + 1)) false (repeatPoll env pinsAt s (n + 1)) =
    buttonsCheckButtonsEvent env (pinsAt (n + 1)) false
      (repeatPoll env (fun k => pinsAt (k + 1))
        (buttonsCheckButtonsEvent env (pinsAt 0) false s).state n)
  rw [repeatPoll_shift]

theorem repeatPoll_wait_clear (env : Env) (hwf : env.hdr.WellFormed) (pinsAt : Nat → Pins)
    (s : State) (hw : waitNewState env s = false) (n : Nat) :
    waitNewState env (repeatPoll env pinsAt s n) = false := by
  induction n with
  | zero => exact hw
  | succ n ih => exact poll_normal_wait env hwf (pinsAt n) false _ ih (Or.inl rfl)

/-- Entered with the combo-wait flag clear, every call after the second returns
`EVENT_BUTTON_NONE`. -/
theorem repeat_none_clear (env : Env) (hwf : env.hdr.WellFormed) (pinsAt : Nat → Pins)
    (s : State) (hw : waitNewState env s = false)
    (hraw : ∀ n, rawSample env (pinsAt n) s = rawSample env (pinsAt 0) s) (n : Nat) :
    (repeatCall env pinsAt s (n + 2)).event = EVENT_BUTTON_NONE := by
  have hwn := repeatPoll_wait_clear env hwf pinsAt s hw
  have h3 := three_polls env hwf (pinsAt n) (pinsAt (n + 1)) (pinsAt (n + 2))
    (repeatPoll env pinsAt s n) (hwn n)
    ((rawSample_indep env _ _ s).trans ((hraw _).trans
      ((hraw _).symm.trans (rawSample_indep env _ s _))))
    ((rawSample_indep env _ _ s).trans ((hraw _).trans
      ((hraw _).symm.trans (rawSample_indep env _ s _))))
  show (buttonsCheckButtonsEvent env (pinsAt (n + 2)) false
    (repeatPoll env pinsAt s (n + 2))).event = EVENT_BUTTON_NONE
  rw [poll_normal_event env hwf _ false _ (hwn (n + 2)) (Or.inl rfl)]
  have hprev : (repeatPoll env pinsAt s (n + 2)).prevButtonState =
      (buttonsCheckButtonsEvent env (pinsAt (n + 1)) false
        (repeatPoll env pinsAt s (n + 1))).buttons := poll_prev env hwf _ false _
  rw [hprev]
  exact if_pos h3

/-- Entered with the combo-wait flag set and the raw sample equal to the stored previous
mask, every call returns `EVENT_BUTTON_NONE`. -/
theorem repeat_none_waiting (env : Env) (hwf : env.hdr.WellFormed) (pinsAt : Nat → Pins)
    (s : State) (hw : waitNewState env s = true)
    (hraw : ∀ n, rawSample env (pinsAt n) s = rawSample env (pinsAt 0) s)
    (hp : rawSample env (pinsAt 0) s = s.prevButtonState) (n : Nat) :
    (repeatCall env pinsAt s n).event = EVENT_BUTTON_NONE := by
  have hinv : ∀ k, waitNewState env (repeatPoll env pinsAt s k) = true ∧
      (repeatPoll env pinsAt s k).prevButtonState = s.prevButtonState := by
    intro k
    induction k with
    | zero => exact ⟨hw, rfl⟩
    | succ k ih =>
      have hc : rawSample env (pinsAt k) (repeatPoll env pinsAt s k) =
          (repeatPoll env pinsAt s k).prevButtonState := by
        rw [rawSample_indep env _ _ s, hraw, hp, ih.2]
      have e : repeatPoll env pinsAt s (k + 1) =
          (buttonsCheckButtonsEvent env (pinsAt k) false (repeatPoll env pinsAt s k)).state :=
        rfl
      rw [e, poll_wait_same env hwf (pinsAt k) _ ih.1 hc]
      exact ⟨(buttonsRead_wait env hwf (pinsAt k) _).trans ih.1,
        (buttonsRead_prev env hwf (pinsAt k) _).trans ih.2⟩
  have hc : rawSample env (pinsAt n) (repeatPoll env pinsAt s n) =
      (repeatPoll env pinsAt s n).prevButtonState := by
    rw [rawSample_indep env _ _ s, hraw, hp, (hinv n).2]
  show (buttonsCheckButtonsEvent env (pinsAt n) false (repeatPoll env pinsAt s n)).event = _
  rw [poll_wait_same env hwf (pinsAt n) _ (hinv n).1 hc]

/-- C11 as amended, repeated calls settle: in a series of `buttonsCheckButtonsEvent` calls
with `keyIsDown = false`, no tick in between and the same raw sample at every call, started
in any state (reachable from `buttonsInit` or not), every call after the third returns
`EVENT_BUTTON_NONE`; every call after the second does if the first call is entered with the
combo-wait flag clear; and every call does if the first call is entered with the flag set and
the raw sample equal to the stored previous mask. -/
theorem repeated_polls_settle (env : Env) (hwf : env.hdr.WellFormed) (pinsAt : Nat → Pins)
    (s : State)
    (hraw : ∀ n, rawSample env (pinsAt n) (repeatPoll env pinsAt s n) =
      rawSample env (pinsAt 0) s) :
    (∀ n, 3 ≤ n → (repeatCall env pinsAt s n).event = EVENT_BUTTON_NONE) ∧
    (waitNewState env s = false →
      ∀ n, 2 ≤ n → (repeatCall env pinsAt s n).event = EVENT_BUTTON_NONE) ∧
    (waitNewState env s = true → rawSample env (pinsAt 0) s = s.prevButtonState →
      ∀ n, (repeatCall env pinsAt s n).event = EVENT_BUTTON_NONE) := by
  have hraw0 : ∀ n, rawSample env (pinsAt n) s = rawSample env (pinsAt 0) s := by
    intro n
    rw [← hraw n]
    exact rawSample_indep env _ _ _
  have hB : waitNewState env s = false →
      ∀ n, 2 ≤ n → (repeatCall env pinsAt s n).event = EVENT_BUTTON_NONE := by
    intro hw n hn
    obtain ⟨k, rfl⟩ : ∃ k, n = k + 2 := ⟨n - 2, by omega⟩
    exact repeat_none_clear env hwf pinsAt s hw hraw0 k
  refine ⟨?_, hB, fun hw hp n => repeat_none_waiting env hwf pinsAt s hw hraw0 hp n⟩
  intro n hn
  cases hw : waitNewState env s
  · exact hB hw n (by omega)
  · by_cases hp : rawSample env (pinsAt 0) s = s.prevButtonState
    · exact repeat_none_waiting env hwf pinsAt s hw hraw0 hp n
    · obtain ⟨k, rfl⟩ : ∃ k, n = (k + 2) + 1 := ⟨n - 3, by omega⟩
      rw [repeatCall_shift]
      refine repeat_none_clear env hwf (fun k => pinsAt (k + 1)) _
        (poll_wait_change_wait env hwf (pinsAt 0) s hw hp) ?_ k
      intro m
      show rawSample env (pinsAt (m + 1)) _ = rawSample env (pinsAt (0 + 1)) _
      exact (rawSample_indep env _ _ s).trans ((hraw0 _).trans
        ((hraw0 _).symm.trans (rawSample_indep env _ s _)))

/-- Witness of C11 as amended: in `afterFirstPress` side key 1 is released and polled again
and again; the third call returns `EVENT_BUTTON_NONE`. -/
theorem repeated_polls_settle_witness :
    waitNewState envUV380 afterFirstPress = false ∧
    (repeatCall envUV380 (fun _ => pinsNone) afterFirstPress 2).event = EVENT_BUTTON_NONE :=
  ⟨by decide,
    (repeated_polls_settle envUV380 (by decide) (fun _ => pinsNone) afterFirstPress
      (fun _ => rawSample_indep envUV380 pinsNone _ _)).2.1 (by decide) 2 (le_refl 2)⟩

/-- C11, counterexample: `afterFirstPress` is reached from `buttonsInit` by one poll. Side
key 1 is then released and the calls are repeated with `keyIsDown = false`, the same (empty)
raw sample and no tick: the first call returns `SHORT_UP` with `EVENT_BUTTON_CHANGE`, and the
second call returns the empty mask, again with `EVENT_BUTTON_CHANGE`. With threshold 0 and
the combo-wait flag set, the third call returns `EVENT_BUTTON_CHANGE` as well. -/
theorem second_call_returns_change :
    rawSample envUV380 pinsNone afterFirstPress = BUTTON_NONE ∧
    (repeatCall envUV380 (fun _ => pinsNone) afterFirstPress 0).buttons =
      envUV380.hdr.BUTTON_SK1_SHORT_UP ∧
    (repeatCall envUV380 (fun _ => pinsNone) afterFirstPress 0).event = EVENT_BUTTON_CHANGE ∧
    (repeatCall envUV380 (fun _ => pinsNone) afterFirstPress 1).buttons = BUTTON_NONE ∧
    (repeatCall envUV380 (fun _ => pinsNone) afterFirstPress 1).event = EVENT_BUTTON_CHANGE ∧
    (repeatCall { envUV380 with keypadTimerLong := 0 } (fun _ => pinsSK1SK2)
      (run { envUV380 with keypadTimerLong := 0 } (buttonsInit (mkState 0 0 0 0 0))
        [Step.poll pinsSK1 true]) 2).event = EVENT_BUTTON_CHANGE := by
  decide

theorem extraLong_held_step (env : Env) (hwf : env.hdr.WellFormed) (b : MBUTTON_t) (s : State)
    (st : Step) (hq : isExtraLong s b ∧ waitNewState env s = false)
    (hok : heldKeyUp env b s st = true) :
    isExtraLong (runStep env s st) b ∧ waitNewState env (runStep env s st) = false := by
  cases st with
  | tick d => exact hq
  | poll pins keyIsDown =>
    obtain ⟨⟨hP, hL, hX⟩, hw⟩ := hq
    simp only [heldKeyUp, Bool.and_eq_true, Bool.not_eq_true_eq_eq_false] at hok
    obtain ⟨hkd, hraw⟩ := hok
    subst hkd
    refine ⟨?_, poll_normal_wait env hwf pins false s hw (Or.inl rfl)⟩
    have hv := view_poll_normal_all env hwf pins false s b hw (Or.inl rfl)
    rw [view_buttonsRead_eq env hwf, hraw, hP, hL, hX] at hv
    simp only [runStep, isExtraLong]
    rw [isMButtonPressed_view env.hdr _ (buttonsCheckButtonsEvent env pins false s).buttons,
      isMButtonLong_view env.hdr _ (buttonsCheckButtonsEvent env pins false s).buttons,
      isMButtonExtraLong_view env.hdr _ (buttonsCheckButtonsEvent env pins false s).buttons,
      hv]
    cases env.plat.handles b <;> simp [localCheck, localArm]

/-- C12 as amended, ExtraLong does not regress while held and no keypad key is down: if a
modifier button is ExtraLong with the combo-wait flag clear, then after any sequence of ticks
and of polls with `keyIsDown = false` whose raw samples all assert the button, the button is
ExtraLong (and the combo-wait flag is clear). -/
theorem extraLong_stays_while_held (env : Env) (hwf : env.hdr.WellFormed) (b : MBUTTON_t)
    (s : State) (hx : isExtraLong s b) (hw : waitNewState env s = false) (steps : List Step)
    (hok : allSteps env (heldKeyUp env b) s steps = true) :
    isExtraLong (run env s steps) b ∧ waitNewState env (run env s steps) = false :=
  run_induction_ok env (heldKeyUp env b)
    (fun x => isExtraLong x b ∧ waitNewState env x = false)
    (fun x st hq hst => extraLong_held_step env hwf b x st hq hst) s ⟨hx, hw⟩ steps hok

/-- Witness of C12 as amended: side key 1 of an MD-UV380, ExtraLong after `heldRunToExtraLong`,
is held through two more polls 500 ticks apart. -/
theorem extraLong_stays_while_held_witness :
    isExtraLong (run envUV380 (buttonsInit (mkState 0 0 0 0 0)) heldRunToExtraLong)
      MBUTTON_SK1 ∧
    isExtraLong (run envUV380 (run envUV380 (buttonsInit (mkState 0 0 0 0 0))
      heldRunToExtraLong)
      [Step.poll pinsSK1 false, Step.tick (fun _ => 500), Step.poll pinsSK1PTT false])
      MBUTTON_SK1 :=
  ⟨by decide,
    (extraLong_stays_while_held envUV380 (by decide) MBUTTON_SK1
      (run envUV380 (buttonsInit (mkState 0 0 0 0 0)) heldRunToExtraLong) (by decide)
      (by decide)
      [Step.poll pinsSK1 false, Step.tick (fun _ => 500), Step.poll pinsSK1PTT false]
      (by decide)).1⟩

/-- C12, counterexample: side key 1 of an MD-UV380 is held from `buttonsInit` on and every raw
sample of the run asserts it. It is ExtraLong after `heldRunToExtraLong`; the poll that finds
a keypad key down leaves it PressedShort, and the last poll of `heldRunWithKey` leaves it
Long. -/
theorem extraLong_regresses_after_key :
    allSteps envUV380 (assertsButton envUV380 MBUTTON_SK1) (buttonsInit (mkState 0 0 0 0 0))
      (heldRunToExtraLong ++ heldRunWithKey) = true ∧
    isExtraLong (run envUV380 (buttonsInit (mkState 0 0 0 0 0)) heldRunToExtraLong)
      MBUTTON_SK1 ∧
    isPressedShort (run envUV380 (buttonsInit (mkState 0 0 0 0 0))
      (heldRunToExtraLong ++ [Step.poll pinsSK1 true])) MBUTTON_SK1 ∧
    isLong (run envUV380 (buttonsInit (mkState 0 0 0 0 0))
      (heldRunToExtraLong ++ heldRunWithKey)) MBUTTON_SK1 := by
  decide

/-- C13, fresh-press arming: when `buttonsRead` samples a modifier button asserted, then if the
button is Released (more generally, if its `MBUTTON_PRESSED` bit is clear) it is left with
`MBUTTON_PRESSED` set, `MBUTTON_LONG` and `MBUTTON_EXTRA_LONG` clear and its countdown armed
to `keypadTimerLong * 100` (the product fits the 32-bit countdown); and if its
`MBUTTON_PRESSED` bit is already set, in any phase, its three phase bits and its countdown
are unchanged. -/
theorem fresh_press_arming (env : Env) (hwf : env.hdr.WellFormed) (pins : Pins) (s : State)
    (b : MBUTTON_t) (hk : env.keypadTimerLong * 100 < 4294967296)
    (ha : hasBits (rawSample env pins s) (env.hdr.buttonID b) = true) :
    (isMButtonPressed s b = false →
      isPressedShort (buttonsRead env pins s).1 b ∧
      (buttonsRead env pins s).1.timer_mbuttons b = env.keypadTimerLong * 100) ∧
    (isReleased s b →
      isPressedShort (buttonsRead env pins s).1 b ∧
      (buttonsRead env pins s).1.timer_mbuttons b = env.keypadTimerLong * 100) ∧
    (isMButtonPressed s b = true →
      isMButtonPressed (buttonsRead env pins s).1 b = true ∧
      isMButtonLong (buttonsRead env pins s).1 b = isMButtonLong s b ∧
      isMButtonExtraLong (buttonsRead env pins s).1 b = isMButtonExtraLong s b ∧
      (buttonsRead env pins s).1.timer_mbuttons b = s.timer_mbuttons b) := by
  have harm : armValue env = env.keypadTimerLong * 100 := by
    rw [armValue]; exact Nat.mod_eq_of_lt hk
  have hv := view_buttonsRead env hwf pins s b
  rw [ha, if_pos rfl, view0_eq] at hv
  have fresh : isMButtonPressed s b = false →
      isPressedShort (buttonsRead env pins s).1 b ∧
      (buttonsRead env pins s).1.timer_mbuttons b = env.keypadTimerLong * 100 := by
    intro hP
    rw [hP] at hv
    have hv' : view env.hdr b (buttonsRead env pins s) =
        ⟨true, false, false, false, true, false, false, armValue env⟩ := by
      rw [hv]; simp [localArm, localSet]
    refine ⟨⟨?_, ?_, ?_⟩, ?_⟩
    · rw [isMButtonPressed_view env.hdr _ (buttonsRead env pins s).2]
      exact congrArg BView.P hv'
    · rw [isMButtonLong_view env.hdr _ (buttonsRead env pins s).2]
      exact congrArg BView.L hv'
    · rw [isMButtonExtraLong_view env.hdr _ (buttonsRead env pins s).2]
      exact congrArg BView.X hv'
    · rw [← harm]
      exact congrArg BView.t hv'
  refine ⟨fresh, fun hrel => fresh hrel.1, ?_⟩
  intro hP
  rw [hP] at hv
  have hv' : view env.hdr b (buttonsRead env pins s) =
      ⟨true, false, false, false, true, isMButtonLong s b, isMButtonExtraLong s b,
        s.timer_mbuttons b⟩ := by
    rw [hv]; simp [localArm]
  refine ⟨?_, ?_, ?_, ?_⟩
  · rw [isMButtonPressed_view env.hdr _ (buttonsRead env pins s).2]
    exact congrArg BView.P hv'
  · rw [isMButtonLong_view env.hdr _ (buttonsRead env pins s).2]
    exact congrArg BView.L hv'
  · rw [isMButtonExtraLong_view env.hdr _ (buttonsRead env pins s).2]
    exact congrArg BView.X hv'
  · exact congrArg BView.t hv'

/-- Witness of C13: side key 1 of an MD-UV380 is sampled asserted while Released, with
`keypadTimerLong = 1`. -/
theorem fresh_press_arming_witness :
    hasBits (rawSample envUV380 pinsSK1 (mkState 0 0 0 7 0))
      (envUV380.hdr.buttonID MBUTTON_SK1) = true ∧
    isReleased (mkState 0 0 0 7 0) MBUTTON_SK1 ∧
    isPressedShort (buttonsRead envUV380 pinsSK1 (mkState 0 0 0 7 0)).1 MBUTTON_SK1 ∧
    (buttonsRead envUV380 pinsSK1 (mkState 0 0 0 7 0)).1.timer_mbuttons MBUTTON_SK1 = 100 :=
  have h := fresh_press_arming envUV380 (by decide) pinsSK1 (mkState 0 0 0 7 0) MBUTTON_SK1
    (by decide) (by decide)
  ⟨by decide, by decide, (h.2.1 (by decide)).1, (h.2.1 (by decide)).2⟩

/-- C14, the code at the failing input: in `longWith40Left`, reached from `buttonsInit`, side
key 1 of an MD-UV380 is Long with 40 ticks left on its countdown and the combo-wait flag
clear, and it is sampled released with `keyIsDown = false`. The long-release branch of
`checkMButtons` takes the button to Released but does not write the countdown, which is
still 40 after the call; the short-release branch, for side key 2 released while
PressedShort with 40 ticks left, does reset it. -/
theorem long_release_keeps_countdown :
    longWith40Left.mbuttons = 24 ∧ longWith40Left.prevButtonState = 10 ∧
    longWith40Left.timer_mbuttons MBUTTON_SK1 = 40 ∧
    isLong longWith40Left MBUTTON_SK1 ∧
    waitNewState envUV380 longWith40Left = false ∧
    hasBits (rawSample envUV380 pinsNone longWith40Left)
      (envUV380.hdr.buttonID MBUTTON_SK1) = false ∧
    isReleased (buttonsCheckButtonsEvent envUV380 pinsNone false longWith40Left).state
      MBUTTON_SK1 ∧
    (buttonsCheckButtonsEvent envUV380 pinsNone false
      longWith40Left).state.timer_mbuttons MBUTTON_SK1 = 40 ∧
    (buttonsCheckButtonsEvent envUV380 pinsNone false
      longWith40Left).state.timer_mbuttons MBUTTON_SK1 ≠ 0 ∧
    isPressedShort (mkState 32 64 0 0 40) MBUTTON_SK2 ∧
    isReleased (buttonsCheckButtonsEvent envUV380 pinsNone false (mkState 32 64 0 0 40)).state
      MBUTTON_SK2 ∧
    (buttonsCheckButtonsEvent envUV380 pinsNone false
      (mkState 32 64 0 0 40)).state.timer_mbuttons MBUTTON_SK2 = 0 := by
  decide

/-- C15 as amended, initialisation: after `buttonsInit`, from any prior state, every modifier
button is Released, the combo-wait flag is clear and the stored previous mask is
`BUTTON_NONE`; the countdowns are the ones of the prior state, `buttonsInit` does not write
them. -/
theorem buttonsInit_resets_globals (env : Env) (s : State) :
    (∀ b, isReleased (buttonsInit s) b) ∧
    waitNewState env (buttonsInit s) = false ∧
    (buttonsInit s).prevButtonState = BUTTON_NONE ∧
    (buttonsInit s).mbuttons = BUTTON_NONE ∧
    (buttonsInit s).timer_mbuttons = s.timer_mbuttons := by
  refine ⟨fun b => ?_, ?_, rfl, rfl, rfl⟩
  · simp [isReleased, isMButtonPressed, isMButtonLong, isMButtonExtraLong, buttonsInit,
      BUTTON_NONE]
  · simp [waitNewState, buttonsInit, BUTTON_NONE]

/-- C15, counterexample: `buttonsInit` called in a state where the countdown of
side key 1 is 40 leaves that countdown at 40, not 0. -/
theorem buttonsInit_keeps_countdowns :
    (buttonsInit (mkState 10 24 0 40 0)).timer_mbuttons MBUTTON_SK1 = 40 ∧
    (buttonsInit (mkState 10 24 0 40 0)).timer_mbuttons MBUTTON_SK1 ≠ 0 := by
  decide

theorem buttonsInit_released (s0 : State) (b : MBUTTON_t) :
    isMButtonPressed (buttonsInit s0) b = false ∧ isMButtonLong (buttonsInit s0) b = false ∧
    isMButtonExtraLong (buttonsInit s0) b = false := by
  simp [isMButtonPressed, isMButtonLong, isMButtonExtraLong, buttonsInit, BUTTON_NONE]

theorem encoded_run (env : Env) (hwf : env.hdr.WellFormed) (s : State) (b : MBUTTON_t)
    (he : Encoded s b) (steps : List Step) : Encoded (run env s steps) b :=
  run_induction env (fun x => Encoded x b) (fun x st hx => (encoded_step env hwf x st b hx).1)
    s he steps

/-- C16, phase encoding invariant: in every state reached from `buttonsInit` by any sequence
of `buttonsCheckButtonsEvent` calls (any lines, any `keyIsDown`) and countdown decrements, for
every modifier button the group in `mbuttons` has `MBUTTON_EXTRA_LONG` only with
`MBUTTON_LONG` and `MBUTTON_LONG` only with `MBUTTON_PRESSED`, so exactly one of the phases
Released, PressedShort, Long, ExtraLong holds; and a step that ends with the button ExtraLong
starts with it Long or ExtraLong. -/
theorem phase_encoding_invariant (env : Env) (hwf : env.hdr.WellFormed) (s0 : State)
    (steps : List Step) (b : MBUTTON_t) :
    Encoded (run env (buttonsInit s0) steps) b ∧
    ((isReleased (run env (buttonsInit s0) steps) b ∧
        ¬ isPressedShort (run env (buttonsInit s0) steps) b ∧
        ¬ isLong (run env (buttonsInit s0) steps) b ∧
        ¬ isExtraLong (run env (buttonsInit s0) steps) b) ∨
      (¬ isReleased (run env (buttonsInit s0) steps) b ∧
        isPressedShort (run env (buttonsInit s0) steps) b ∧
        ¬ isLong (run env (buttonsInit s0) steps) b ∧
        ¬ isExtraLong (run env (buttonsInit s0) steps) b) ∨
      (¬ isReleased (run env (buttonsInit s0) steps) b ∧
        ¬ isPressedShort (run env (buttonsInit s0) steps) b ∧
        isLong (run env (buttonsInit s0) steps) b ∧
        ¬ isExtraLong (run env (buttonsInit s0) steps) b) ∨
      (¬ isReleased (run env (buttonsInit s0) steps) b ∧
        ¬ isPressedShort (run env (buttonsInit s0) steps) b ∧
        ¬ isLong (run env (buttonsInit s0) steps) b ∧
        isExtraLong (run env (buttonsInit s0) steps) b)) ∧
    ∀ st : Step, isExtraLong (runStep env (run env (buttonsInit s0) steps) st) b →
      isLong (run env (buttonsInit s0) steps) b ∨
        isExtraLong (run env (buttonsInit s0) steps) b := by
  have h0 : Encoded (buttonsInit s0) b := by
    obtain ⟨_, h2, h3⟩ := buttonsInit_released s0 b
    refine ⟨fun h => ?_, fun h => ?_⟩
    · rw [h3] at h
      cases h
    · rw [h2] at h
      cases h
  have he := encoded_run env hwf (buttonsInit s0) b h0 steps
  refine ⟨he, ?_, fun st => (encoded_step env hwf _ st b he).2⟩
  obtain ⟨h1, h2⟩ := he
  simp only [isReleased, isPressedShort, isLong, isExtraLong]
  cases hP : isMButtonPressed (run env (buttonsInit s0) steps) b <;>
  cases hL : isMButtonLong (run env (buttonsInit s0) steps) b <;>
  cases hX : isMButtonExtraLong (run env (buttonsInit s0) steps) b <;>
  simp [hP, hL, hX] at h1 h2 ⊢

/-- Witness of C16: from garbage in the globals, `buttonsInit`, then side key 1 of an MD-UV380
is held for 100 ticks and is Long, then for 100 more ticks and is ExtraLong. -/
theorem phase_encoding_invariant_witness :
    isLong (run envUV380 (buttonsInit (mkState 77 511 3 9 4))
      [Step.poll pinsSK1 false, Step.tick (fun _ => 100), Step.poll pinsSK1 false])
      MBUTTON_SK1 ∧
    isExtraLong (runStep envUV380 (runStep envUV380
      (run envUV380 (buttonsInit (mkState 77 511 3 9 4))
        [Step.poll pinsSK1 false, Step.tick (fun _ => 100), Step.poll pinsSK1 false])
      (Step.tick (fun _ => 100))) (Step.poll pinsSK1 false)) MBUTTON_SK1 ∧
    Encoded (run envUV380 (buttonsInit (mkState 77 511 3 9 4))
      [Step.poll pinsSK1 false, Step.tick (fun _ => 100), Step.poll pinsSK1 false])
      MBUTTON_SK1 :=
  ⟨by decide, by decide,
    (phase_encoding_invariant envUV380 (by decide) (mkState 77 511 3 9 4)
      [Step.poll pinsSK1 false, Step.tick (fun _ => 100), Step.poll pinsSK1 false]
      MBUTTON_SK1).1⟩

/-- C17, per-button independence: for two distinct modifier buttons `A` and `B`, every state and
every input mask, `checkMButtons` for `A` leaves unchanged the three phase bits of `B` in
`mbuttons`, the countdown of `B`, the asserted, `SHORT_UP`, `LONG_DOWN` and
`EXTRA_LONG_DOWN` bits of `B` in the mask, the PTT bit and the combo-wait flag; and running
the tracker for `A` then for `B` gives the same state and the same mask as running it for `B`
then for `A`. -/
theorem tracker_independence (env : Env) (hwf : env.hdr.WellFormed) (A B : MBUTTON_t)
    (hAB : A ≠ B) (r : State × Nat) :
    (isMButtonPressed (checkMButtons env r A (env.hdr.buttonID A) (env.hdr.buttonShortUp A)
        (env.hdr.buttonLong A) (env.hdr.buttonExtraLong A)).1 B = isMButtonPressed r.1 B ∧
      isMButtonLong (checkMButtons env r A (env.hdr.buttonID A) (env.hdr.buttonShortUp A)
        (env.hdr.buttonLong A) (env.hdr.buttonExtraLong A)).1 B = isMButtonLong r.1 B ∧
      isMButtonExtraLong (checkMButtons env r A (env.hdr.buttonID A) (env.hdr.buttonShortUp A)
        (env.hdr.buttonLong A) (env.hdr.buttonExtraLong A)).1 B = isMButtonExtraLong r.1 B ∧
      (checkMButtons env r A (env.hdr.buttonID A) (env.hdr.buttonShortUp A)
        (env.hdr.buttonLong A) (env.hdr.buttonExtraLong A)).1.timer_mbuttons B
        = r.1.timer_mbuttons B) ∧
    (hasBits (checkMButtons env r A (env.hdr.buttonID A) (env.hdr.buttonShortUp A)
        (env.hdr.buttonLong A) (env.hdr.buttonExtraLong A)).2 (env.hdr.buttonID B)
        = hasBits r.2 (env.hdr.buttonID B) ∧
      hasBits (checkMButtons env r A (env.hdr.buttonID A) (env.hdr.buttonShortUp A)
        (env.hdr.buttonLong A) (env.hdr.buttonExtraLong A)).2 (env.hdr.buttonShortUp B)
        = hasBits r.2 (env.hdr.buttonShortUp B) ∧
      hasBits (checkMButtons env r A (env.hdr.buttonID A) (env.hdr.buttonShortUp A)
        (env.hdr.buttonLong A) (env.hdr.buttonExtraLong A)).2 (env.hdr.buttonLong B)
        = hasBits r.2 (env.hdr.buttonLong B) ∧
      hasBits (checkMButtons env r A (env.hdr.buttonID A) (env.hdr.buttonShortUp A)
        (env.hdr.buttonLong A) (env.hdr.buttonExtraLong A)).2 (env.hdr.buttonExtraLong B)
        = hasBits r.2 (env.hdr.buttonExtraLong B) ∧
      hasBits (checkMButtons env r A (env.hdr.buttonID A) (env.hdr.buttonShortUp A)
        (env.hdr.buttonLong A) (env.hdr.buttonExtraLong A)).2 env.hdr.BUTTON_PTT
        = hasBits r.2 env.hdr.BUTTON_PTT ∧
      waitNewState env (checkMButtons env r A (env.hdr.buttonID A) (env.hdr.buttonShortUp A)
        (env.hdr.buttonLong A) (env.hdr.buttonExtraLong A)).1 = waitNewState env r.1) ∧
    checkMButtons env
        (checkMButtons env r A (env.hdr.buttonID A) (env.hdr.buttonShortUp A)
          (env.hdr.buttonLong A) (env.hdr.buttonExtraLong A))
        B (env.hdr.buttonID B) (env.hdr.buttonShortUp B) (env.hdr.buttonLong B)
        (env.hdr.buttonExtraLong B) =
      checkMButtons env
        (checkMButtons env r B (env.hdr.buttonID B) (env.hdr.buttonShortUp B)
          (env.hdr.buttonLong B) (env.hdr.buttonExtraLong B))
        A (env.hdr.buttonID A) (env.hdr.buttonShortUp A) (env.hdr.buttonLong A)
        (env.hdr.buttonExtraLong A) := by
  have vBA := view_checkMButtons_other env hwf r B A hAB
  have vAB := view_checkMButtons_other env hwf r A B (fun e => hAB e.symm)
  refine ⟨⟨?_, ?_, ?_, ?_⟩, ⟨?_, ?_, ?_, ?_, ?_, ?_⟩, ?_⟩
  · rw [isMButtonPressed_eq, isMButtonPressed_eq]; exact congrArg BView.P vBA
  · rw [isMButtonLong_eq, isMButtonLong_eq]; exact congrArg BView.L vBA
  · rw [isMButtonExtraLong_eq, isMButtonExtraLong_eq]; exact congrArg BView.X vBA
  · exact congrArg BView.t vBA
  · rw [hasBits_buttonID env.hdr (checkMButtons env r A _ _ _ _).1, hasBits_buttonID env.hdr r.1]
    exact congrArg BView.a vBA
  · rw [hasBits_buttonShortUp env.hdr (checkMButtons env r A _ _ _ _).1, hasBits_buttonShortUp env.hdr r.1]
    exact congrArg BView.su vBA
  · rw [hasBits_buttonLong env.hdr (checkMButtons env r A _ _ _ _).1, hasBits_buttonLong env.hdr r.1]
    exact congrArg BView.lg vBA
  · rw [hasBits_buttonExtraLong env.hdr (checkMButtons env r A _ _ _ _).1, hasBits_buttonExtraLong env.hdr r.1]
    exact congrArg BView.xl vBA
  · rw [ButtonsHeader.BUTTON_PTT, hasBits_eq_testBit, hasBits_eq_testBit]
    exact checkMButtons_ptt env hwf r A
  · rw [waitNewState_eq_testBit, waitNewState_eq_testBit]
    exact checkMButtons_wait env hwf r A _ _ _ _
  · rw [checkMButtons_eq_branch env (checkMButtons env r A _ _ _ _) B, vBA,
      checkMButtons_eq_branch env (checkMButtons env r B _ _ _ _) A, vAB,
      checkMButtons_eq_branch env r A, checkMButtons_eq_branch env r B]
    simp only [branchState_comm env A B hAB, branchMask_comm env.hdr hwf A B hAB]

/-- Witness of C17: side key 1 released after a short press while side key 2 reaches its long
press. -/
theorem tracker_independence_witness :
    isMButtonLong (checkMButtons envUV380 (mkState 34 72 0 50 0, 32) MBUTTON_SK1
      (envUV380.hdr.buttonID MBUTTON_SK1) (envUV380.hdr.buttonShortUp MBUTTON_SK1)
      (envUV380.hdr.buttonLong MBUTTON_SK1) (envUV380.hdr.buttonExtraLong MBUTTON_SK1)).1
      MBUTTON_SK2 = false ∧
    (checkMButtons envUV380
      (checkMButtons envUV380 (mkState 34 72 0 50 0, 32) MBUTTON_SK1
        (envUV380.hdr.buttonID MBUTTON_SK1) (envUV380.hdr.buttonShortUp MBUTTON_SK1)
        (envUV380.hdr.buttonLong MBUTTON_SK1) (envUV380.hdr.buttonExtraLong MBUTTON_SK1))
      MBUTTON_SK2 (envUV380.hdr.buttonID MBUTTON_SK2) (envUV380.hdr.buttonShortUp MBUTTON_SK2)
      (envUV380.hdr.buttonLong MBUTTON_SK2) (envUV380.hdr.buttonExtraLong MBUTTON_SK2)).2
      = 164 ∧
    (checkMButtons envUV380
      (checkMButtons envUV380 (mkState 34 72 0 50 0, 32) MBUTTON_SK2
        (envUV380.hdr.buttonID MBUTTON_SK2) (envUV380.hdr.buttonShortUp MBUTTON_SK2)
        (envUV380.hdr.buttonLong MBUTTON_SK2) (envUV380.hdr.buttonExtraLong MBUTTON_SK2))
      MBUTTON_SK1 (envUV380.hdr.buttonID MBUTTON_SK1) (envUV380.hdr.buttonShortUp MBUTTON_SK1)
      (envUV380.hdr.buttonLong MBUTTON_SK1) (envUV380.hdr.buttonExtraLong MBUTTON_SK1)).2
      = 164 :=
  have h := tracker_independence envUV380 (by decide) MBUTTON_SK1 MBUTTON_SK2 (by decide)
    (mkState 34 72 0 50 0, 32)
  ⟨h.1.2.1.trans (by decide), by decide, (congrArg Prod.snd h.2.2).symm.trans (by decide)⟩

theorem armValue_zero (env : Env) (hk : env.keypadTimerLong = 0) : armValue env = 0 := by
  simp [armValue, hk]

theorem rearmValue_zero (env : Env) (hk : env.keypadTimerLong = 0) : rearmValue env = 0 := by
  simp [rearmValue, hk]

/-- With threshold 0, a step keeps "PressedShort only with countdown 0". -/
theorem zero_threshold_step (env : Env) (hwf : env.hdr.WellFormed)
    (hk : env.keypadTimerLong = 0) (b : MBUTTON_t) (s : State) (st : Step)
    (hj : isMButtonPressed s b = true → isMButtonLong s b = false → s.timer_mbuttons b = 0) :
    isMButtonPressed (runStep env s st) b = true → isMButtonLong (runStep env s st) b = false →
      (runStep env s st).timer_mbuttons b = 0 := by
  cases st with
  | tick d =>
    intro hP hL
    have h0 := hj hP hL
    simp only [runStep, tickBy, withTimers]
    omega
  | poll pins keyIsDown =>
    simp only [runStep]
    rw [isMButtonPressed_view env.hdr _ (buttonsCheckButtonsEvent env pins keyIsDown s).buttons,
      isMButtonLong_view env.hdr _ (buttonsCheckButtonsEvent env pins keyIsDown s).buttons,
      timer_view env.hdr _ (buttonsCheckButtonsEvent env pins keyIsDown s).buttons]
    have hrv := view_buttonsRead_eq env hwf pins s b
    have ha := armValue_zero env hk
    have hr := rearmValue_zero env hk
    rcases view_poll_forms env hwf pins keyIsDown s b with hv | hv | hv <;>
    · rw [hv, hrv]
      cases hasBits (rawSample env pins s) (env.hdr.buttonID b) <;>
      cases hP : isMButtonPressed s b <;> cases hL : isMButtonLong s b <;>
      cases hX : isMButtonExtraLong s b <;>
      simp [hP, hL] at hj <;>
      by_cases ht : s.timer_mbuttons b = 0 <;>
      simp [localCheck, localArm, localSet, ht, ha, hr, hj] at hj ⊢

/-- A poll from a state in which the button is PressedShort only with countdown 0 does not
return its `SHORT_UP` bit. -/
theorem no_shortUp_of_zero (env : Env) (hwf : env.hdr.WellFormed) (b : MBUTTON_t) (s : State)
    (pins : Pins) (keyIsDown : Bool)
    (hj : isMButtonPressed s b = true → isMButtonLong s b = false → s.timer_mbuttons b = 0) :
    hasBits (buttonsCheckButtonsEvent env pins keyIsDown s).buttons (env.hdr.buttonShortUp b)
      = false := by
  rw [hasBits_buttonShortUp env.hdr (buttonsCheckButtonsEvent env pins keyIsDown s).state]
  have hrv := view_buttonsRead_eq env hwf pins s b
  rcases view_poll_forms env hwf pins keyIsDown s b with hv | hv | hv <;>
  · rw [hv, hrv]
    cases hasBits (rawSample env pins s) (env.hdr.buttonID b) <;>
    cases hP : isMButtonPressed s b <;> cases hL : isMButtonLong s b <;>
    cases hX : isMButtonExtraLong s b <;>
    simp [hP, hL] at hj <;>
    by_cases ht : s.timer_mbuttons b = 0 <;>
    by_cases ha : armValue env = 0 <;>
    simp [localCheck, localArm, localSet, ht, ha, hj] at hj ⊢

/-- C18, degenerate threshold: with `keypadTimerLong = 0`, for a handled modifier button that
is Released with the combo-wait flag clear, the first poll with `keyIsDown = false` whose raw
sample asserts the button leaves it Long and returns its `LONG_DOWN` bit; the next poll with
`keyIsDown = false` that still asserts it (after any ticks) leaves it ExtraLong and returns
its `EXTRA_LONG_DOWN` bit; and no poll of any run from that state returns its `SHORT_UP`
bit. -/
theorem degenerate_threshold (env : Env) (hwf : env.hdr.WellFormed)
    (hk : env.keypadTimerLong = 0) (b : MBUTTON_t) (hb : env.plat.handles b = true) (s : State)
    (hrel : isReleased s b) (hw : waitNewState env s = false) :
    (∀ pins : Pins, hasBits (rawSample env pins s) (env.hdr.buttonID b) = true →
      isLong (buttonsCheckButtonsEvent env pins false s).state b ∧
      hasBits (buttonsCheckButtonsEvent env pins false s).buttons (env.hdr.buttonLong b)
        = true ∧
      ∀ (d : MBUTTON_t → Nat) (pins2 : Pins),
        hasBits (rawSample env pins2
          (runStep env (buttonsCheckButtonsEvent env pins false s).state (Step.tick d)))
          (env.hdr.buttonID b) = true →
        isExtraLong (buttonsCheckButtonsEvent env pins2 false
          (runStep env (buttonsCheckButtonsEvent env pins false s).state (Step.tick d))).state
          b ∧
        hasBits (buttonsCheckButtonsEvent env pins2 false
          (runStep env (buttonsCheckButtonsEvent env pins false s).state (Step.tick d))).buttons
          (env.hdr.buttonExtraLong b) = true) ∧
    ∀ (steps : List Step) (pins : Pins) (keyIsDown : Bool),
      hasBits (buttonsCheckButtonsEvent env pins keyIsDown (run env s steps)).buttons
        (env.hdr.buttonShortUp b) = false := by
  have ha := armValue_zero env hk
  have hr := rearmValue_zero env hk
  obtain ⟨hP, hL, hX⟩ := hrel
  constructor
  · intro pins hraw
    have hv := view_poll_normal env hwf pins false s b hb hw (Or.inl rfl)
    rw [hraw, view0_eq, hP, hL, hX] at hv
    have hv1 : view env.hdr b ((buttonsCheckButtonsEvent env pins false s).state,
        (buttonsCheckButtonsEvent env pins false s).buttons) =
        ⟨true, false, true, false, true, true, false, 0⟩ := by
      rw [hv]
      simp [localCheck, localArm, localSet, ha, hr]
    have hw1 := poll_normal_wait env hwf pins false s hw (Or.inl rfl)
    have hP1 : isMButtonPressed (buttonsCheckButtonsEvent env pins false s).state b = true := by
      rw [isMButtonPressed_view env.hdr _ (buttonsCheckButtonsEvent env pins false s).buttons,
        hv1]
    have hL1 : isMButtonLong (buttonsCheckButtonsEvent env pins false s).state b = true := by
      rw [isMButtonLong_view env.hdr _ (buttonsCheckButtonsEvent env pins false s).buttons, hv1]
    have hX1 : isMButtonExtraLong (buttonsCheckButtonsEvent env pins false s).state b
        = false := by
      rw [isMButtonExtraLong_view env.hdr _ (buttonsCheckButtonsEvent env pins false s).buttons,
        hv1]
    have ht1 : (buttonsCheckButtonsEvent env pins false s).state.timer_mbuttons b = 0 := by
      rw [timer_view env.hdr _ (buttonsCheckButtonsEvent env pins false s).buttons, hv1]
    refine ⟨⟨hP1, hL1, hX1⟩, ?_, ?_⟩
    · rw [hasBits_buttonLong env.hdr (buttonsCheckButtonsEvent env pins false s).state, hv1]
    · intro d pins2 hraw2
      have hw2 : waitNewState env
          (runStep env (buttonsCheckButtonsEvent env pins false s).state (Step.tick d))
          = false := hw1
      have hv2 := view_poll_normal env hwf pins2 false _ b hb hw2 (Or.inl rfl)
      rw [hraw2, view0_eq] at hv2
      have hP2 : isMButtonPressed
          (runStep env (buttonsCheckButtonsEvent env pins false s).state (Step.tick d)) b
          = true := hP1
      have hL2 : isMButtonLong
          (runStep env (buttonsCheckButtonsEvent env pins false s).state (Step.tick d)) b
          = true := hL1
      have hX2 : isMButtonExtraLong
          (runStep env (buttonsCheckButtonsEvent env pins false s).state (Step.tick d)) b
          = false := hX1
      have ht2 : (runStep env (buttonsCheckButtonsEvent env pins false s).state
          (Step.tick d)).timer_mbuttons b = 0 := by
        simp only [runStep, tickBy, withTimers]
        omega
      rw [hP2, hL2, hX2, ht2] at hv2
      have hv3 : view env.hdr b ((buttonsCheckButtonsEvent env pins2 false
          (runStep env (buttonsCheckButtonsEvent env pins false s).state (Step.tick d))).state,
          (buttonsCheckButtonsEvent env pins2 false
          (runStep env (buttonsCheckButtonsEvent env pins false s).state
            (Step.tick d))).buttons) =
          ⟨true, false, false, true, true, true, true, 0⟩ := by
        rw [hv2]
        simp [localCheck, localArm]
      refine ⟨⟨?_, ?_, ?_⟩, ?_⟩
      · rw [isMButtonPressed_view env.hdr _ (buttonsCheckButtonsEvent env pins2 false
          (runStep env (buttonsCheckButtonsEvent env pins false s).state
            (Step.tick d))).buttons, hv3]
      · rw [isMButtonLong_view env.hdr _ (buttonsCheckButtonsEvent env pins2 false
          (runStep env (buttonsCheckButtonsEvent env pins false s).state
            (Step.tick d))).buttons, hv3]
      · rw [isMButtonExtraLong_view env.hdr _ (buttonsCheckButtonsEvent env pins2 false
          (runStep env (buttonsCheckButtonsEvent env pins false s).state
            (Step.tick d))).buttons, hv3]
      · rw [hasBits_buttonExtraLong env.hdr (buttonsCheckButtonsEvent env pins2 false
          (runStep env (buttonsCheckButtonsEvent env pins false s).state
            (Step.tick d))).state, hv3]
  · intro steps pins keyIsDown
    apply no_shortUp_of_zero env hwf b
    refine run_induction env
      (fun x => isMButtonPressed x b = true → isMButtonLong x b = false →
        x.timer_mbuttons b = 0)
      (fun x st hx => zero_threshold_step env hwf hk b x st hx) s ?_ steps
    intro h
    rw [hP] at h
    cases h

/-- Witness of C18: side key 1 of an MD-UV380 configured with long-press threshold 0 is
pressed and held over two polls. -/
theorem degenerate_threshold_witness :
    isLong (buttonsCheckButtonsEvent { envUV380 with keypadTimerLong := 0 } pinsSK1 false
      (mkState 0 0 0 0 0)).state MBUTTON_SK1 ∧
    (buttonsCheckButtonsEvent { envUV380 with keypadTimerLong := 0 } pinsSK1 false
      (mkState 0 0 0 0 0)).buttons = 10 ∧
    (buttonsCheckButtonsEvent { envUV380 with keypadTimerLong := 0 } pinsSK1 false
      (buttonsCheckButtonsEvent { envUV380 with keypadTimerLong := 0 } pinsSK1 false
        (mkState 0 0 0 0 0)).state).buttons = 18 :=
  have h := degenerate_threshold { envUV380 with keypadTimerLong := 0 } (by decide) rfl
    MBUTTON_SK1 rfl (mkState 0 0 0 0 0) (by decide) (by decide)
  ⟨(h.1 pinsSK1 (by decide)).1, by decide, by decide⟩

theorem timeout_released_step (env : Env) (hwf : env.hdr.WellFormed) (b : MBUTTON_t)
    (hb : env.plat.handles b = true) (s : State) (st : Step)
    (hq : isPressedShort s b ∧ s.timer_mbuttons b = 0 ∧ waitNewState env s = false)
    (hok : releasedKeyUp env b s st = true) :
    isPressedShort (runStep env s st) b ∧ (runStep env s st).timer_mbuttons b = 0 ∧
      waitNewState env (runStep env s st) = false := by
  cases st with
  | tick d =>
    obtain ⟨hps, ht, hw⟩ := hq
    refine ⟨hps, ?_, hw⟩
    simp only [runStep, tickBy, withTimers]
    omega
  | poll pins keyIsDown =>
    obtain ⟨⟨hP, hL, hX⟩, ht, hw⟩ := hq
    simp only [releasedKeyUp, Bool.and_eq_true, Bool.not_eq_true_eq_eq_false] at hok
    obtain ⟨hkd, hraw⟩ := hok
    subst hkd
    have hv := view_poll_normal env hwf pins false s b hb hw (Or.inl rfl)
    rw [hraw, view0_eq, hP, hL, hX, ht] at hv
    have hv1 : view env.hdr b ((buttonsCheckButtonsEvent env pins false s).state,
        (buttonsCheckButtonsEvent env pins false s).buttons) =
        ⟨false, false, false, false, true, false, false, 0⟩ := by
      rw [hv]
      simp [localCheck]
    refine ⟨⟨?_, ?_, ?_⟩, ?_, poll_normal_wait env hwf pins false s hw (Or.inl rfl)⟩
    · simp only [runStep]
      rw [isMButtonPressed_view env.hdr _ (buttonsCheckButtonsEvent env pins false s).buttons,
        hv1]
    · simp only [runStep]
      rw [isMButtonLong_view env.hdr _ (buttonsCheckButtonsEvent env pins false s).buttons, hv1]
    · simp only [runStep]
      rw [isMButtonExtraLong_view env.hdr _ (buttonsCheckButtonsEvent env pins false s).buttons,
        hv1]
    · simp only [runStep]
      rw [timer_view env.hdr _ (buttonsCheckButtonsEvent env pins false s).buttons, hv1]

/-- C19 as amended, release at the exact timeout with the combo-wait flag clear: let a handled
modifier button be PressedShort with countdown 0 and the combo-wait flag clear. After any
sequence of ticks and of polls with `keyIsDown = false` whose raw samples do not assert the
button, it is still PressedShort with countdown 0 and the flag is clear; a further such poll
returns none of its `SHORT_UP`, `LONG_DOWN` and `EXTRA_LONG_DOWN` bits; and the first poll
with `keyIsDown = false` whose raw sample asserts the button again leaves it Long, with the
countdown re-armed, and returns its `LONG_DOWN` bit. -/
theorem release_at_timeout_then_long (env : Env) (hwf : env.hdr.WellFormed) (b : MBUTTON_t)
    (hb : env.plat.handles b = true) (s : State) (hps : isPressedShort s b)
    (ht : s.timer_mbuttons b = 0) (hw : waitNewState env s = false) (steps : List Step)
    (hok : allSteps env (releasedKeyUp env b) s steps = true) :
    (isPressedShort (run env s steps) b ∧ (run env s steps).timer_mbuttons b = 0 ∧
      waitNewState env (run env s steps) = false) ∧
    (∀ pins : Pins,
      hasBits (rawSample env pins (run env s steps)) (env.hdr.buttonID b) = false →
      hasBits (buttonsCheckButtonsEvent env pins false (run env s steps)).buttons
        (env.hdr.buttonShortUp b) = false ∧
      hasBits (buttonsCheckButtonsEvent env pins false (run env s steps)).buttons
        (env.hdr.buttonLong b) = false ∧
      hasBits (buttonsCheckButtonsEvent env pins false (run env s steps)).buttons
        (env.hdr.buttonExtraLong b) = false) ∧
    ∀ pins : Pins,
      hasBits (rawSample env pins (run env s steps)) (env.hdr.buttonID b) = true →
      isLong (buttonsCheckButtonsEvent env pins false (run env s steps)).state b ∧
      (buttonsCheckButtonsEvent env pins false (run env s steps)).state.timer_mbuttons b =
        rearmValue env ∧
      hasBits (buttonsCheckButtonsEvent env pins false (run env s steps)).buttons
        (env.hdr.buttonLong b) = true := by
  have hq := run_induction_ok env (releasedKeyUp env b)
    (fun x => isPressedShort x b ∧ x.timer_mbuttons b = 0 ∧ waitNewState env x = false)
    (fun x st hx hst => timeout_released_step env hwf b hb x st hx hst) s ⟨hps, ht, hw⟩ steps hok
  refine ⟨hq, ?_, ?_⟩
  · intro pins hraw
    obtain ⟨⟨hP, hL, hX⟩, ht1, hw1⟩ := hq
    have hv := view_poll_normal env hwf pins false _ b hb hw1 (Or.inl rfl)
    rw [hraw, view0_eq, hP, hL, hX, ht1] at hv
    have hv1 : view env.hdr b
        ((buttonsCheckButtonsEvent env pins false (run env s steps)).state,
        (buttonsCheckButtonsEvent env pins false (run env s steps)).buttons) =
        ⟨false, false, false, false, true, false, false, 0⟩ := by
      rw [hv]
      simp [localCheck]
    refine ⟨?_, ?_, ?_⟩
    · rw [hasBits_buttonShortUp env.hdr
        (buttonsCheckButtonsEvent env pins false (run env s steps)).state, hv1]
    · rw [hasBits_buttonLong env.hdr
        (buttonsCheckButtonsEvent env pins false (run env s steps)).state, hv1]
    · rw [hasBits_buttonExtraLong env.hdr
        (buttonsCheckButtonsEvent env pins false (run env s steps)).state, hv1]
  · intro pins hraw
    obtain ⟨⟨hP, hL, hX⟩, ht1, hw1⟩ := hq
    have hv := view_poll_normal env hwf pins false _ b hb hw1 (Or.inl rfl)
    rw [hraw, view0_eq, hP, hL, hX, ht1] at hv
    have hv1 : view env.hdr b
        ((buttonsCheckButtonsEvent env pins false (run env s steps)).state,
        (buttonsCheckButtonsEvent env pins false (run env s steps)).buttons) =
        ⟨true, false, true, false, true, true, false, rearmValue env⟩ := by
      rw [hv]
      simp [localCheck, localArm]
    refine ⟨⟨?_, ?_, ?_⟩, ?_, ?_⟩
    · rw [isMButtonPressed_view env.hdr _
        (buttonsCheckButtonsEvent env pins false (run env s steps)).buttons, hv1]
    · rw [isMButtonLong_view env.hdr _
        (buttonsCheckButtonsEvent env pins false (run env s steps)).buttons, hv1]
    · rw [isMButtonExtraLong_view env.hdr _
        (buttonsCheckButtonsEvent env pins false (run env s steps)).buttons, hv1]
    · rw [timer_view env.hdr _
        (buttonsCheckButtonsEvent env pins false (run env s steps)).buttons, hv1]
    · rw [hasBits_buttonLong env.hdr
        (buttonsCheckButtonsEvent env pins false (run env s steps)).state, hv1]

/-- Witness of C19 as amended: side key 1 of an MD-UV380 is PressedShort with countdown 0;
two polls sample it released, then a poll samples it asserted and returns `LONG_DOWN`. -/
theorem release_at_timeout_then_long_witness :
    isPressedShort (run envUV380 (mkState 2 8 0 0 0)
      [Step.poll pinsNone false, Step.tick (fun _ => 7), Step.poll pinsSK2 false])
      MBUTTON_SK1 ∧
    hasBits (buttonsCheckButtonsEvent envUV380 pinsSK1 false (run envUV380 (mkState 2 8 0 0 0)
      [Step.poll pinsNone false, Step.tick (fun _ => 7), Step.poll pinsSK2 false])).buttons
      (envUV380.hdr.buttonLong MBUTTON_SK1) = true :=
  have h := release_at_timeout_then_long envUV380 (by decide) MBUTTON_SK1 rfl
    (mkState 2 8 0 0 0) (by decide) (by decide) (by decide)
    [Step.poll pinsNone false, Step.tick (fun _ => 7), Step.poll pinsSK2 false] (by decide)
  ⟨h.1.1, (h.2.2 pinsSK1 (by decide)).2.2⟩

/-- C19, counterexample: in `timeoutWhileWaiting` side key 1 is PressedShort with countdown 0
and the combo-wait flag is set. The poll with `keyIsDown = false` that samples no button
asserted takes the resynchronisation path: it clears the `MBUTTON_PRESSED` bit of side
key 1, which is then Released. And from `timeoutReached` (flag clear), after the poll that
samples the key released, a poll that samples it asserted again with a keypad key down
leaves it PressedShort and returns no `LONG_DOWN`. -/
theorem release_at_timeout_while_waiting :
    isPressedShort timeoutWhileWaiting MBUTTON_SK1 ∧
    timeoutWhileWaiting.timer_mbuttons MBUTTON_SK1 = 0 ∧
    waitNewState envUV380 timeoutWhileWaiting = true ∧
    hasBits (rawSample envUV380 pinsNone timeoutWhileWaiting)
      (envUV380.hdr.buttonID MBUTTON_SK1) = false ∧
    isMButtonPressed (buttonsCheckButtonsEvent envUV380 pinsNone false timeoutWhileWaiting).state
      MBUTTON_SK1 = false ∧
    isReleased (buttonsCheckButtonsEvent envUV380 pinsNone false timeoutWhileWaiting).state
      MBUTTON_SK1 ∧
    isPressedShort timeoutReached MBUTTON_SK1 ∧
    timeoutReached.timer_mbuttons MBUTTON_SK1 = 0 ∧
    waitNewState envUV380 timeoutReached = false ∧
    isPressedShort (buttonsCheckButtonsEvent envUV380 pinsNone false timeoutReached).state
      MBUTTON_SK1 ∧
    isPressedShort (buttonsCheckButtonsEvent envUV380 pinsSK1 true
      (buttonsCheckButtonsEvent envUV380 pinsNone false timeoutReached).state).state
      MBUTTON_SK1 ∧
    hasBits (buttonsCheckButtonsEvent envUV380 pinsSK1 true
      (buttonsCheckButtonsEvent envUV380 pinsNone false timeoutReached).state).buttons
      (envUV380.hdr.buttonLong MBUTTON_SK1) = false := by
  decide

theorem poll_testBit_id (env : Env) (hwf : env.hdr.WellFormed) (pins : Pins)
    (keyIsDown : Bool) (s : State) (b : MBUTTON_t) :
    (buttonsCheckButtonsEvent env pins keyIsDown s).buttons.testBit (env.hdr.idBit b) =
      (rawSample env pins s).testBit (env.hdr.idBit b) := by
  have e1 : (buttonsCheckButtonsEvent env pins keyIsDown s).buttons.testBit (env.hdr.idBit b) =
      (view env.hdr b ((buttonsCheckButtonsEvent env pins keyIsDown s).state,
        (buttonsCheckButtonsEvent env pins keyIsDown s).buttons)).a := rfl
  have e2 : (rawSample env pins s).testBit (env.hdr.idBit b) =
      (view env.hdr b (buttonsRead env pins s)).a := rfl
  rw [e1, e2]
  rcases view_poll env hwf pins keyIsDown s b with ⟨_, _, hv⟩ | ⟨_, hv⟩ | ⟨_, hv⟩
  · rw [hv]
    split_ifs
    · simp only [localCheck]
      split_ifs <;> rfl
    · rfl
  · rw [hv]
    split_ifs <;> rfl
  · rw [hv]

theorem poll_testBit_ptt (env : Env) (hwf : env.hdr.WellFormed) (pins : Pins)
    (keyIsDown : Bool) (s : State) :
    (buttonsCheckButtonsEvent env pins keyIsDown s).buttons.testBit env.hdr.ptt =
      (rawSample env pins s).testBit env.hdr.ptt := by
  rcases poll_cases env hwf pins keyIsDown s with ⟨hw, hk⟩ | hbut
  · rw [poll_normal env hwf pins keyIsDown s hw hk, checkEveryButton_buttons,
      checkAllButtons_ptt env hwf]
    rfl
  · rw [hbut]

theorem testBit_physicalKeys (h : ButtonsHeader) (i : Nat) :
    (physicalKeys h).testBit i =
      (decide (i = h.sk1) || decide (i = h.sk2) || decide (i = h.orange) ||
        decide (i = h.ptt)) := by
  simp only [physicalKeys, ButtonsHeader.BUTTON_SK1, ButtonsHeader.BUTTON_SK2,
    ButtonsHeader.BUTTON_ORANGE, ButtonsHeader.BUTTON_PTT, Nat.testBit_or, testBit_bit]

/-- The annotation bits `localCheck` returns from an input without annotation bits. -/
theorem localCheck_annotations (env : Env) (v : BView) (hsu : v.su = false)
    (hlg : v.lg = false) (hxl : v.xl = false) :
    ¬ ((localCheck env v).su = true ∧ (localCheck env v).lg = true) ∧
    ¬ ((localCheck env v).su = true ∧ (localCheck env v).xl = true) ∧
    ¬ ((localCheck env v).lg = true ∧ (localCheck env v).xl = true) ∧
    ((localCheck env v).lg = true ∨ (localCheck env v).xl = true → (localCheck env v).a = true) ∧
    ((localCheck env v).su = true → (localCheck env v).a = false) := by
  obtain ⟨a, su, lg, xl, P, L, X, t⟩ := v
  simp only at hsu hlg hxl
  subst hsu hlg hxl
  by_cases ht : t = 0 <;> cases a <;> cases P <;> cases L <;> cases X <;>
  simp [localCheck, ht]

/-- C20, output mask well-formedness: for every state, all line levels and every `keyIsDown`, the
mask returned by `buttonsCheckButtonsEvent`, restricted to the physical-key bits (SK1, SK2,
Orange, PTT), is the raw sample; and for every modifier button at most one of its
`SHORT_UP`, `LONG_DOWN` and `EXTRA_LONG_DOWN` bits is set, `LONG_DOWN` or
`EXTRA_LONG_DOWN` only if its asserted bit is set and `SHORT_UP` only if it is clear. -/
theorem output_mask_well_formed (env : Env) (hwf : env.hdr.WellFormed) (pins : Pins)
    (keyIsDown : Bool) (s : State) :
    (buttonsCheckButtonsEvent env pins keyIsDown s).buttons &&& physicalKeys env.hdr =
      rawSample env pins s ∧
    ∀ b,
      ¬ (hasBits (buttonsCheckButtonsEvent env pins keyIsDown s).buttons
          (env.hdr.buttonShortUp b) = true ∧
        hasBits (buttonsCheckButtonsEvent env pins keyIsDown s).buttons
          (env.hdr.buttonLong b) = true) ∧
      ¬ (hasBits (buttonsCheckButtonsEvent env pins keyIsDown s).buttons
          (env.hdr.buttonShortUp b) = true ∧
        hasBits (buttonsCheckButtonsEvent env pins keyIsDown s).buttons
          (env.hdr.buttonExtraLong b) = true) ∧
      ¬ (hasBits (buttonsCheckButtonsEvent env pins keyIsDown s).buttons
          (env.hdr.buttonLong b) = true ∧
        hasBits (buttonsCheckButtonsEvent env pins keyIsDown s).buttons
          (env.hdr.buttonExtraLong b) = true) ∧
      (hasBits (buttonsCheckButtonsEvent env pins keyIsDown s).buttons
          (env.hdr.buttonLong b) = true ∨
        hasBits (buttonsCheckButtonsEvent env pins keyIsDown s).buttons
          (env.hdr.buttonExtraLong b) = true →
        hasBits (buttonsCheckButtonsEvent env pins keyIsDown s).buttons
          (env.hdr.buttonID b) = true) ∧
      (hasBits (buttonsCheckButtonsEvent env pins keyIsDown s).buttons
          (env.hdr.buttonShortUp b) = true →
        hasBits (buttonsCheckButtonsEvent env pins keyIsDown s).buttons
          (env.hdr.buttonID b) = false) := by
  constructor
  · apply Nat.eq_of_testBit_eq
    intro i
    rw [Nat.testBit_and, testBit_physicalKeys]
    by_cases e1 : i = env.hdr.sk1
    · rw [e1]
      simpa using poll_testBit_id env hwf pins keyIsDown s MBUTTON_SK1
    by_cases e2 : i = env.hdr.sk2
    · rw [e2]
      simpa using poll_testBit_id env hwf pins keyIsDown s MBUTTON_SK2
    by_cases e3 : i = env.hdr.orange
    · rw [e3]
      simpa using poll_testBit_id env hwf pins keyIsDown s MBUTTON_ORANGE
    by_cases e4 : i = env.hdr.ptt
    · rw [e4]
      simpa using poll_testBit_ptt env hwf pins keyIsDown s
    have hr : (rawSample env pins s).testBit i = false := by
      cases hx : (rawSample env pins s).testBit i
      · rfl
      · rcases raw_bits env pins s i hx with e | ⟨b, e⟩
        · exact absurd e e4
        · cases b
          · exact absurd e e3
          · exact absurd e e1
          · exact absurd e e2
    simp [e1, e2, e3, e4, hr]
  · intro b
    rw [hasBits_buttonShortUp env.hdr (buttonsCheckButtonsEvent env pins keyIsDown s).state,
      hasBits_buttonLong env.hdr (buttonsCheckButtonsEvent env pins keyIsDown s).state,
      hasBits_buttonExtraLong env.hdr (buttonsCheckButtonsEvent env pins keyIsDown s).state,
      hasBits_buttonID env.hdr (buttonsCheckButtonsEvent env pins keyIsDown s).state]
    obtain ⟨r1, r2, r3⟩ := view_raw env hwf pins s (buttonsRead env pins s).1 b
    have eta : ((buttonsRead env pins s).1, rawSample env pins s) = buttonsRead env pins s := rfl
    rw [eta] at r1 r2 r3
    have hraw : ∀ v : BView, v.su = false → v.lg = false → v.xl = false →
        ¬ (v.su = true ∧ v.lg = true) ∧ ¬ (v.su = true ∧ v.xl = true) ∧
        ¬ (v.lg = true ∧ v.xl = true) ∧ (v.lg = true ∨ v.xl = true → v.a = true) ∧
        (v.su = true → v.a = false) := by
      intro v h1 h2 h3
      rw [h1, h2, h3]
      simp
    rcases view_poll env hwf pins keyIsDown s b with ⟨_, _, hv⟩ | ⟨_, hv⟩ | ⟨_, hv⟩
    · rw [hv]
      split_ifs
      · exact localCheck_annotations env _ r1 r2 r3
      · exact hraw _ r1 r2 r3
    · rw [hv]
      split_ifs
      · exact hraw _ r1 r2 r3
      · exact hraw _ r1 r2 r3
    · rw [hv]
      exact hraw _ r1 r2 r3

/-- Witness of C20: side key 1 of an MD-UV380 is released after a short press while side
key 2 is held ExtraLong and PTT is pressed. -/
theorem output_mask_well_formed_witness :
    (buttonsCheckButtonsEvent envUV380 { pinsSK2 with PTT := true } false
      (mkState 291 456 0 50 0)).buttons = 293 ∧
    (buttonsCheckButtonsEvent envUV380 { pinsSK2 with PTT := true } false
      (mkState 291 456 0 50 0)).buttons &&& physicalKeys envUV380.hdr = 33 ∧
    rawSample envUV380 { pinsSK2 with PTT := true } (mkState 291 456 0 50 0) = 33 :=
  have h := output_mask_well_formed envUV380 (by decide) { pinsSK2 with PTT := true } false
    (mkState 291 456 0 50 0)
  ⟨by decide, h.1.trans (by decide), by decide⟩

end OpenGD77
